import Mathlib

/-!
# Lua RTOS SPI driver (`components/lua_rtos/drivers/spi.c`)

A shallow embedding of the clock-divisor synthesis and of the bus/device
registry of the SPI driver, followed by the properties established about them.

Conventions of the embedding:

* a C `int` is an `Int`; additions, subtractions and multiplications that the
  source performs on `int` are wrapped to 32 bits two's complement
  (`wrapInt32`), `/` on `int` is `Int.tdiv` (truncation toward zero);
* a `uint32_t` / `uint8_t` is a `Nat`; stores into narrower objects reduce
  modulo the width of the object;
* a division by zero has no result: the function returns `none`.
-/

namespace LuaRtos

/-! ## Machine arithmetic -/

/-- Wrap an integer to the range of a 32-bit two's-complement `int`. -/
def wrapInt32 (x : Int) : Int :=
  (x + 2147483648) % 4294967296 - 2147483648

/-- Conversion of an `int` to `uint32_t`. -/
def toUInt32 (x : Int) : Nat :=
  (x % 4294967296).toNat

/-- Store of an `int` into an unsigned bit-field of `w` bits. -/
def toBitField (w : Nat) (x : Int) : Nat :=
  (x % (2 ^ w : Nat)).toNat

/-- The C library `abs` on `int`. -/
def c_abs (x : Int) : Int :=
  if x < 0 then wrapInt32 (-x) else x

/-! ## Clock divisor synthesis -/

/-- The bit-fields of the union `spiClk_t`, in declaration order
(`regL` occupies the least significant bits). -/
structure spiClk_t where
  regL : Nat
  regH : Nat
  regN : Nat
  regPre : Nat
  regEQU : Nat
  deriving DecidableEq, Repr

/-- The member `regValue` of the union `spiClk_t`: the 32-bit word that
overlays the bit-fields `regL:6`, `regH:6`, `regN:6`, `regPre:13`, `regEQU:1`. -/
def spiClk_t.regValue (c : spiClk_t) : Nat :=
  c.regL % 64 + (c.regH % 64) * 2 ^ 6 + (c.regN % 64) * 2 ^ 12
    + (c.regPre % 8192) * 2 ^ 18 + (c.regEQU % 2) * 2 ^ 31

/-- Embedding of `spi_freq_for_pre_n`: `fapb / (pre * n)`. -/
def spi_freq_for_pre_n (fapb pre n : Int) : Int :=
  Int.tdiv fapb (wrapInt32 (pre * n))

/-- The pre-divider computed for a given `n` in the body of the search loop
of `spi_set_clock`: `((fapb/n)+(hz/2))/hz`, then the two clamps. -/
def spi_pre_for (fapb hz n : Int) : Int :=
  let pre := Int.tdiv (wrapInt32 (Int.tdiv fapb n + Int.tdiv hz 2)) hz
  let pre := if pre ≤ 0 then 1 else pre
  if pre > 8192 then 8192 else pre

/-- The error computed for a given `n` in the body of the search loop of
`spi_set_clock`: `abs(spi_freq_for_pre_n(fapb, pre, n) - hz)`. -/
def spi_err_for (fapb hz n : Int) : Int :=
  c_abs (wrapInt32 (spi_freq_for_pre_n fapb (spi_pre_for fapb hz n) n - hz))

/-- The locals `bestn`, `bestpre`, `besterr` of `spi_set_clock`. -/
structure spiBest where
  bestn : Int
  bestpre : Int
  besterr : Int
  deriving DecidableEq, Repr

/-- One iteration of the loop `for (n=1; n<=64; n++)` of `spi_set_clock`. -/
def spi_clock_step (fapb hz : Int) (b : spiBest) (n : Nat) : spiBest :=
  let pre := spi_pre_for fapb hz n
  let errval := spi_err_for fapb hz n
  if b.bestn = -1 ∨ errval ≤ b.besterr then
    { bestn := n, bestpre := pre, besterr := errval }
  else b

/-- The whole search loop of `spi_set_clock`, from `bestn = bestpre = -1`,
`besterr = 0`, over `n = 1, ..., 64`. -/
def spi_clock_search (fapb hz : Int) : spiBest :=
  (List.range' 1 64).foldl (spi_clock_step fapb hz)
    { bestn := -1, bestpre := -1, besterr := 0 }

/-- The high-phase width computed by `spi_set_clock` from `duty_cycle` and the
winning `n`: `(duty_cycle*n+127)/256`, raised to 1 when not positive. -/
def spi_high_for (duty_cycle n : Int) : Int :=
  let h := Int.tdiv (wrapInt32 (wrapInt32 (duty_cycle * n) + 127)) 256
  if h ≤ 0 then 1 else h

/-- Embedding of `spi_set_clock`. The result is the pair of the returned
register word (`clock.regValue`) and of the value stored through `eff_clk`;
`none` when the search loop would divide by `hz = 0`. -/
def spi_set_clock (fapb hz duty_cycle : Int) : Option (Nat × Nat) :=
  if hz > wrapInt32 (Int.tdiv fapb 4 * 3) then
    let clock : spiClk_t :=
      { regL := 0, regH := 0, regN := 0, regPre := 0, regEQU := 1 }
    some (clock.regValue, toUInt32 fapb)
  else if hz = 0 then
    none
  else
    let b := spi_clock_search fapb hz
    let n := b.bestn
    let pre := b.bestpre
    let l := n
    let h := spi_high_for duty_cycle n
    let clock : spiClk_t :=
      { regL := toBitField 6 (l - 1), regH := toBitField 6 (h - 1),
        regN := toBitField 6 (n - 1), regPre := toBitField 13 (pre - 1),
        regEQU := 0 }
    some (clock.regValue, toUInt32 (spi_freq_for_pre_n fapb pre n))

/-! ### Decoding of the clock register word -/

/-- Bit 31 of the clock word: the bypass flag `regEQU`. -/
def clk_equ (w : Nat) : Nat := w / 2 ^ 31 % 2

/-- Bits 18..30 of the clock word: the field `regPre` (13 bits). -/
def clk_pre (w : Nat) : Nat := w / 2 ^ 18 % 8192

/-- Bits 12..17 of the clock word: the field `regN` (6 bits). -/
def clk_n (w : Nat) : Nat := w / 2 ^ 12 % 64

/-- Bits 6..11 of the clock word: the field `regH` (6 bits). -/
def clk_h (w : Nat) : Nat := w / 2 ^ 6 % 64

/-- Bits 0..5 of the clock word: the field `regL` (6 bits). -/
def clk_l (w : Nat) : Nat := w % 64

/-! ### Prefixes of the search loop -/

/-- The state of the search after the iterations `n = 1, ..., k`. -/
def spi_clock_search_upto (fapb hz : Int) (k : Nat) : spiBest :=
  (List.range' 1 k).foldl (spi_clock_step fapb hz)
    { bestn := -1, bestpre := -1, besterr := 0 }

/-- Invariant of the search loop after the iterations `1..k`. -/
def spi_search_inv (fapb hz : Int) (k : Nat) (b : spiBest) : Prop :=
  ∃ n : Nat, 1 ≤ n ∧ n ≤ k ∧ b.bestn = n ∧ b.bestpre = spi_pre_for fapb hz n
    ∧ b.besterr = spi_err_for fapb hz n
    ∧ (∀ m : Nat, 1 ≤ m → m ≤ k → spi_err_for fapb hz n ≤ spi_err_for fapb hz m)
    ∧ (∀ m : Nat, n < m → m ≤ k → spi_err_for fapb hz n < spi_err_for fapb hz m)


/-! ## Bus/device registry

The declarations of `drivers/spi.h`, `drivers/cpu.h`, `drivers/gpio.h` and
`sys/macros.h` are not among the sources; the constants and macros the driver
takes from them are given here. Board-specific values are the fields of
`Board`. -/

/-- Modelled from the spec: `CPU_FIRST_SPI` of the missing `drivers/cpu.h`.
The driver initialises exactly the units 2 and 3 (`_spi_init`). -/
def CPU_FIRST_SPI : Nat := 2

/-- Modelled from the spec: `CPU_LAST_SPI` of the missing `drivers/cpu.h`
(there are exactly two bus units, 2 and 3). -/
def CPU_LAST_SPI : Nat := 3

/-- Modelled from the spec: `SPI_BUS_DEVICES` of the missing `drivers/spi.h`,
the capacity of the device array of a bus (8 slots). -/
def SPI_BUS_DEVICES : Nat := 8

/-- Modelled from the spec: the macro `spi_idx` of the missing `drivers/spi.h`,
the index of a unit in the table `spi_bus`. -/
def spi_idx (unit : Nat) : Nat := unit - CPU_FIRST_SPI

/-- Modelled from the spec: bus setup-state bit "hardware-assisted path
configured" (`SPI_DMA_SETUP` of the missing `drivers/spi.h`). -/
def SPI_DMA_SETUP : Nat := 1

/-- Modelled from the spec: bus setup-state bit "software path configured"
(`SPI_NO_DMA_SETUP` of the missing `drivers/spi.h`). -/
def SPI_NO_DMA_SETUP : Nat := 2

/-- Modelled from the spec: request flag "write" (`SPI_FLAG_WRITE`). -/
def SPI_FLAG_WRITE : Nat := 1

/-- Modelled from the spec: request flag "read" (`SPI_FLAG_READ`). -/
def SPI_FLAG_READ : Nat := 2

/-- Modelled from the spec: request flag selecting the software path
(`SPI_FLAG_NO_DMA`). -/
def SPI_FLAG_NO_DMA : Nat := 4

/-- Modelled from the spec: request flag for 3-wire operation
(`SPI_FLAG_3WIRE`). -/
def SPI_FLAG_3WIRE : Nat := 8

/-- The source clock `APB_CLK_FREQ` (80 MHz). -/
def APB_CLK_FREQ : Int := 80000000

/-- The masks and shifts of the peripheral register header `soc/spi_reg.h`
that `spi_ll_setup` uses. -/
structure SpiRegBits where
  SPI_TRANS_DONE : Nat
  SPI_SLAVE_MODE : Nat
  SPI_CS_SETUP : Nat
  SPI_CS_HOLD : Nat
  SPI_CK_OUT_EDGE : Nat
  SPI_CK_IDLE_EDGE : Nat
  SPI_WR_BIT_ORDER : Nat
  SPI_RD_BIT_ORDER : Nat
  SPI_DOUTDIN : Nat
  SPI_SIO : Nat
  SPI_USR_MOSI : Nat
  SPI_USR_MISO : Nat
  SPI_USR_COMMAND : Nat
  SPI_USR_ADDR : Nat
  SPI_MISO_DELAY_MODE : Nat
  SPI_MISO_DELAY_MODE_S : Nat
  SPI_MISO_DELAY_NUM : Nat
  SPI_MISO_DELAY_NUM_S : Nat
  SPI_USR_COMMAND_BITLEN : Nat
  SPI_USR_COMMAND_BITLEN_S : Nat
  SPI_USR_ADDR_BITLEN : Nat
  SPI_USR_ADDR_BITLEN_S : Nat
  deriving DecidableEq, Repr

/-- The pins of one bus unit: data-in, data-out, clock and chip-select. -/
structure PinSet where
  miso : Int
  mosi : Int
  clk : Int
  cs : Int
  deriving DecidableEq, Repr

/-- Board configuration: the values of the build-time configuration
(`CONFIG_LUA_RTOS_SPIx_*`), the native pins of each unit (`SPI_DEFAULT_*`),
the pin capability masks `GPIO_ALL_IN` and `GPIO_ALL_OUT`, and the register
masks. -/
structure Board where
  config2 : PinSet
  config3 : PinSet
  native2 : PinSet
  native3 : PinSet
  GPIO_ALL_IN : Nat
  GPIO_ALL_OUT : Nat
  bits : SpiRegBits
  deriving DecidableEq, Repr

/-- The test `mask & (GPIO_BIT_MASK << pin)` of a capability mask, as a truth
value. A negative pin selects no bit. -/
def gpio_mask_test (mask : Nat) (pin : Int) : Bool :=
  decide (0 ≤ pin) && mask.testBit pin.toNat

/-- Modelled from the spec: the macro `TEST_UNIQUE3` of the missing
`sys/macros.h`: the three values are mutually distinct. -/
def TEST_UNIQUE3 (a b c : Int) : Bool :=
  a != b && a != c && b != c

/-- Modelled from the spec: the macro `TEST_UNIQUE4` of the missing
`sys/macros.h`: the four values are mutually distinct. -/
def TEST_UNIQUE4 (a b c d : Int) : Bool :=
  a != b && a != c && a != d && b != c && b != d && c != d

/-- The 14 peripheral registers of a unit that the driver saves and restores,
in the order of the array `regs` of a device (`regs[0]` is `SPI_USER_REG`). -/
structure SpiRegs where
  USER : Nat
  USER1 : Nat
  USER2 : Nat
  CTRL : Nat
  CTRL2 : Nat
  SLAVE : Nat
  PIN : Nat
  CLOCK : Nat
  DMA_CONF : Nat
  DMA_OUT_LINK : Nat
  DMA_IN_LINK : Nat
  CMD : Nat
  ADDR : Nat
  SLV_WR_STATUS : Nat
  deriving DecidableEq, Repr

/-- All-zero register file / snapshot. -/
def SpiRegs.zero : SpiRegs :=
  ⟨0, 0, 0, 0, 0, 0, 0, 0, 0, 0, 0, 0, 0, 0⟩

/-- A device slot (`spi_device_t`): chip-select, mode, transfer path,
configured flag, register snapshot and driver handle (0 is `NULL`). -/
structure SpiDevice where
  cs : Int
  mode : Nat
  dma : Bool
  setup : Bool
  regs : SpiRegs
  h : Nat
  deriving DecidableEq, Repr

/-- A zeroed device slot, as left by the `memset` of `_spi_init`. -/
def SpiDevice.zero : SpiDevice :=
  { cs := 0, mode := 0, dma := false, setup := false, regs := SpiRegs.zero, h := 0 }

/-- A bus (`spi_bus_t`), without its mutex. -/
structure SpiBus where
  miso : Int
  mosi : Int
  clk : Int
  setup : Nat
  last_device : Int
  selected_device : Int
  device : List SpiDevice
  deriving DecidableEq, Repr

/-- Element `device[i]` of the device array of a bus. -/
def SpiBus.dev (b : SpiBus) (i : Nat) : SpiDevice :=
  b.device.getD i SpiDevice.zero

/-- Store into element `device[i]` of the device array of a bus. -/
def SpiBus.setDev (b : SpiBus) (i : Nat) (d : SpiDevice) : SpiBus :=
  { b with device := b.device.set i d }

/-- Routing signals of the GPIO matrix used by `spi_setup_bus`. -/
inductive Signal where
  | HSPIQ_OUT | HSPIQ_IN | VSPIQ_OUT | VSPIQ_IN
  | HSPID_OUT | HSPID_IN | VSPID_OUT | VSPID_IN
  | HSPICLK_OUT | VSPICLK_OUT
  deriving DecidableEq, Repr

/-- Calls into the collaborators of the driver (mutex, pin arbitration
service, GPIO driver, vendor SPI driver), recorded in program order. -/
inductive Event where
  | mtx_take (unit : Nat)
  | mtx_give (unit : Nat)
  | driver_lock (unit : Nat) (pin : Int)
  | driver_unlock (unit : Nat) (pin : Int)
  | gpio_pin_output (pin : Int)
  | gpio_ll_pin_set (pin : Int)
  | gpio_ll_pin_clr (pin : Int)
  | periph_module_enable (unit : Nat)
  | pin_func_spi (pin : Int)
  | pin_func_gpio (pin : Int)
  | gpio_set_direction (pin : Int) (output : Bool)
  | gpio_matrix_out (pin : Int) (sig : Signal)
  | gpio_matrix_in (pin : Int) (sig : Signal)
  | spi_bus_initialize (host : Nat) (miso mosi clk : Int)
  | spi_bus_add_device (host : Nat) (speed : Nat) (mode : Nat) (h : Nat)
  | spi_bus_remove_device (h : Nat)
  | syslog (unit : Nat)
  deriving DecidableEq, Repr

/-- The state the driver works on: the table `spi_bus`, the peripheral
registers of each unit, the owners of the GPIO pins in the pin arbitration
service (`foreign` pins belong to other subsystems), the handle the vendor
driver hands out next, and the record of calls to collaborators. -/
structure World where
  bus : List SpiBus
  hw : List SpiRegs
  locks : List (Int × Nat)
  foreign : List Int
  next_handle : Nat
  log : List Event
  deriving DecidableEq, Repr

/-- The entry `spi_bus[spi_idx(unit)]`. -/
def World.getBus (w : World) (unit : Nat) : SpiBus :=
  w.bus.getD (spi_idx unit)
    { miso := 0, mosi := 0, clk := 0, setup := 0, last_device := 0,
      selected_device := 0, device := [] }

/-- Store into the entry `spi_bus[spi_idx(unit)]`. -/
def World.setBus (w : World) (unit : Nat) (b : SpiBus) : World :=
  { w with bus := w.bus.set (spi_idx unit) b }

/-- The peripheral registers of a unit. -/
def World.getHw (w : World) (unit : Nat) : SpiRegs :=
  w.hw.getD (spi_idx unit) SpiRegs.zero

/-- Store into the peripheral registers of a unit. -/
def World.setHw (w : World) (unit : Nat) (r : SpiRegs) : World :=
  { w with hw := w.hw.set (spi_idx unit) r }

/-- Store into the fields of the entry `spi_bus[spi_idx(unit)]` other than the
device array. -/
def World.updBus (w : World) (unit : Nat) (f : SpiBus → SpiBus) : World :=
  w.setBus unit { (f (w.getBus unit)) with device := (w.getBus unit).device }

/-- Store into fields of the slot `spi_bus[spi_idx(unit)].device[i]`. -/
def World.updDev (w : World) (unit i : Nat) (f : SpiDevice → SpiDevice) : World :=
  w.setBus unit ((w.getBus unit).setDev i (f ((w.getBus unit).dev i)))

/-- Append a call to a collaborator to the record. -/
def World.emit (w : World) (e : Event) : World :=
  { w with log := w.log ++ [e] }

/-- Append a sequence of calls to collaborators to the record. -/
def World.emitAll (w : World) (es : List Event) : World :=
  { w with log := w.log ++ es }

/-- Embedding of `_spi_init`: zeroed table, `last_device` and
`selected_device` set to -1, pins taken from the build configuration. The
registers start from the given contents; no pin is owned by the driver. -/
def spi_init (bd : Board) (hw2 hw3 : SpiRegs) (foreign : List Int) : World :=
  { bus :=
      [ { miso := bd.config2.miso, mosi := bd.config2.mosi, clk := bd.config2.clk,
          setup := 0, last_device := -1, selected_device := -1,
          device := List.replicate SPI_BUS_DEVICES SpiDevice.zero },
        { miso := bd.config3.miso, mosi := bd.config3.mosi, clk := bd.config3.clk,
          setup := 0, last_device := -1, selected_device := -1,
          device := List.replicate SPI_BUS_DEVICES SpiDevice.zero } ],
    hw := [hw2, hw3],
    locks := [],
    foreign := foreign,
    next_handle := 1,
    log := [] }

/-- Embedding of `spi_lock`. -/
def spi_lock (w : World) (unit : Nat) : World :=
  w.emit (Event.mtx_take unit)

/-- Embedding of `spi_unlock`. -/
def spi_unlock (w : World) (unit : Nat) : World :=
  w.emit (Event.mtx_give unit)

/-- Embedding of `spi_get_device_by_cs`: the first configured slot with the
given chip-select, or -1. -/
def spi_get_device_by_cs (w : World) (unit : Nat) (cs : Int) : Int :=
  match (List.range SPI_BUS_DEVICES).find?
      (fun i => ((w.getBus unit).dev i).setup && ((w.getBus unit).dev i).cs == cs) with
  | some i => i
  | none => -1

/-- Embedding of `spi_get_free_device`: the first slot that is not configured,
or -1. -/
def spi_get_free_device (w : World) (unit : Nat) : Int :=
  match (List.range SPI_BUS_DEVICES).find?
      (fun i => !((w.getBus unit).dev i).setup) with
  | some i => i
  | none => -1

/-! ### Register access primitives -/

/-- The macro `SET_PERI_REG_MASK`: set the bits of `mask` in a 32-bit register. -/
def set_reg_mask (r mask : Nat) : Nat :=
  (r ||| mask) % 4294967296

/-- The macro `CLEAR_PERI_REG_MASK`: clear the bits of `mask` in a 32-bit
register. -/
def clear_reg_mask (r mask : Nat) : Nat :=
  r &&& (4294967295 ^^^ (mask % 4294967296))

/-- The macro `SET_PERI_REG_BITS`: replace the field `bit_map << shift` of a
32-bit register by `value`. -/
def set_reg_bits (r bit_map value shift : Nat) : Nat :=
  (clear_reg_mask r (bit_map <<< shift) ||| ((value &&& bit_map) <<< shift)) % 4294967296

/-- Embedding of `spi_ll_save_registers`: copy the 14 registers of the unit
into the snapshot of the device slot. -/
def spi_ll_save_registers (w : World) (unit device : Nat) : World :=
  w.updDev unit device (fun d => { d with regs := w.getHw unit })

/-- Embedding of `spi_ll_restore_registers`: write the 14 words of the
snapshot of the device slot into the registers of the unit. -/
def spi_ll_restore_registers (w : World) (unit device : Nat) : World :=
  w.setHw unit ((w.getBus unit).dev device).regs

/-- The native pins `SPI_DEFAULT_MISO/MOSI/CLK(unit)` of a unit. -/
def Board.native (bd : Board) (unit : Nat) : PinSet :=
  if unit = 2 then bd.native2 else bd.native3

/-- Modelled from the spec: the macro `spi_use_native_pins` of the missing
`drivers/spi.h`: the pins assigned to the bus are the native pins of the unit. -/
def spi_use_native_pins (bd : Board) (w : World) (unit : Nat) : Bool :=
  (w.getBus unit).miso == (bd.native unit).miso
    && (w.getBus unit).mosi == (bd.native unit).mosi
    && (w.getBus unit).clk == (bd.native unit).clk

/-- The calls made by `spi_setup_bus`, in order: enable the unit, then route
the data-in (read requested), data-out (write requested) and clock pins
through the IO MUX (native pin) or the GPIO matrix (software path), or hand
the bus to the vendor driver (hardware-assisted path). -/
def spi_setup_bus_calls (bd : Board) (b : SpiBus) (unit flags : Nat) : List Event :=
  (if unit = 2 ∨ unit = 3 then [Event.periph_module_enable unit] else [])
  ++
  (if flags &&& SPI_FLAG_NO_DMA ≠ 0 then
    (if flags &&& SPI_FLAG_READ ≠ 0 then
      (if b.miso = (bd.native unit).miso then [Event.pin_func_spi b.miso]
       else
        [Event.pin_func_gpio b.miso, Event.gpio_set_direction b.miso false]
        ++ (if unit = 2 then
              [Event.gpio_matrix_out b.miso Signal.HSPIQ_OUT,
               Event.gpio_matrix_in b.miso Signal.HSPIQ_IN]
            else if unit = 3 then
              [Event.gpio_matrix_out b.miso Signal.VSPIQ_OUT,
               Event.gpio_matrix_in b.miso Signal.VSPIQ_IN]
            else []))
     else [])
    ++
    (if flags &&& SPI_FLAG_WRITE ≠ 0 then
      (if b.mosi = (bd.native unit).mosi then [Event.pin_func_spi b.mosi]
       else
        [Event.pin_func_gpio b.mosi, Event.gpio_set_direction b.mosi true]
        ++ (if unit = 2 then
              [Event.gpio_matrix_out b.mosi Signal.HSPID_OUT,
               Event.gpio_matrix_in b.mosi Signal.HSPID_IN]
            else if unit = 3 then
              [Event.gpio_matrix_out b.mosi Signal.VSPID_OUT,
               Event.gpio_matrix_in b.mosi Signal.VSPID_IN]
            else []))
     else [])
    ++
    (if b.clk = (bd.native unit).clk then [Event.pin_func_spi b.clk]
     else
      [Event.pin_func_gpio b.clk, Event.gpio_set_direction b.clk true]
      ++ (if unit = 2 then [Event.gpio_matrix_out b.clk Signal.HSPICLK_OUT]
          else if unit = 3 then [Event.gpio_matrix_out b.clk Signal.VSPICLK_OUT]
          else []))
   else
    [Event.spi_bus_initialize (unit - 1) b.miso b.mosi b.clk])

/-- Embedding of `spi_setup_bus`: the function only calls collaborators. -/
def spi_setup_bus (bd : Board) (w : World) (unit flags : Nat) : World :=
  w.emitAll (spi_setup_bus_calls bd (w.getBus unit) unit flags)

/-- Read-modify-write of `SPI_USER_REG`. -/
def SpiRegs.onUSER (f : Nat → Nat) (r : SpiRegs) : SpiRegs := { r with USER := f r.USER }

/-- Read-modify-write of `SPI_USER1_REG`. -/
def SpiRegs.onUSER1 (f : Nat → Nat) (r : SpiRegs) : SpiRegs := { r with USER1 := f r.USER1 }

/-- Read-modify-write of `SPI_USER2_REG`. -/
def SpiRegs.onUSER2 (f : Nat → Nat) (r : SpiRegs) : SpiRegs := { r with USER2 := f r.USER2 }

/-- Read-modify-write of `SPI_CTRL_REG`. -/
def SpiRegs.onCTRL (f : Nat → Nat) (r : SpiRegs) : SpiRegs := { r with CTRL := f r.CTRL }

/-- Read-modify-write of `SPI_CTRL2_REG`. -/
def SpiRegs.onCTRL2 (f : Nat → Nat) (r : SpiRegs) : SpiRegs := { r with CTRL2 := f r.CTRL2 }

/-- Read-modify-write of `SPI_SLAVE_REG`. -/
def SpiRegs.onSLAVE (f : Nat → Nat) (r : SpiRegs) : SpiRegs := { r with SLAVE := f r.SLAVE }

/-- Read-modify-write of `SPI_PIN_REG`. -/
def SpiRegs.onPIN (f : Nat → Nat) (r : SpiRegs) : SpiRegs := { r with PIN := f r.PIN }

/-- Read-modify-write of `SPI_CLOCK_REG`. -/
def SpiRegs.onCLOCK (f : Nat → Nat) (r : SpiRegs) : SpiRegs := { r with CLOCK := f r.CLOCK }

/-- The `switch (mode)` of `spi_ll_setup`: clock polarity and phase. -/
def spi_mode_steps (k : SpiRegBits) (mode : Nat) : List (SpiRegs → SpiRegs) :=
  if mode = 0 then
    [SpiRegs.onPIN (fun v => clear_reg_mask v k.SPI_CK_IDLE_EDGE),
     SpiRegs.onUSER (fun v => clear_reg_mask v k.SPI_CK_OUT_EDGE)]
  else if mode = 1 then
    [SpiRegs.onPIN (fun v => clear_reg_mask v k.SPI_CK_IDLE_EDGE),
     SpiRegs.onUSER (fun v => set_reg_mask v k.SPI_CK_OUT_EDGE)]
  else if mode = 2 then
    [SpiRegs.onPIN (fun v => set_reg_mask v k.SPI_CK_IDLE_EDGE),
     SpiRegs.onUSER (fun v => clear_reg_mask v k.SPI_CK_OUT_EDGE)]
  else if mode = 3 then
    [SpiRegs.onPIN (fun v => set_reg_mask v k.SPI_CK_IDLE_EDGE),
     SpiRegs.onUSER (fun v => set_reg_mask v k.SPI_CK_OUT_EDGE)]
  else []

/-- The register accesses of the software path of `spi_ll_setup`, in program
order (pending operations, mode, bit order, duplex, wire count, master, clock,
enables, command phase, address phase). -/
def spi_program_steps (k : SpiRegBits) (mode flags clock : Nat) :
    List (SpiRegs → SpiRegs) :=
  [SpiRegs.onSLAVE (fun v => clear_reg_mask v (k.SPI_TRANS_DONE <<< 5)),
   SpiRegs.onUSER (fun v => set_reg_mask v k.SPI_CS_SETUP)]
  ++ spi_mode_steps k mode ++
  [SpiRegs.onCTRL (fun v => clear_reg_mask v (k.SPI_WR_BIT_ORDER ||| k.SPI_RD_BIT_ORDER)),
   SpiRegs.onUSER (fun v => set_reg_mask v k.SPI_DOUTDIN),
   SpiRegs.onUSER (fun v =>
     if flags &&& SPI_FLAG_3WIRE ≠ 0 then set_reg_mask v k.SPI_SIO
     else clear_reg_mask v k.SPI_SIO),
   SpiRegs.onUSER1 (fun _ => 0),
   SpiRegs.onCTRL2 (fun v => set_reg_bits v k.SPI_MISO_DELAY_MODE 0 k.SPI_MISO_DELAY_MODE_S),
   SpiRegs.onSLAVE (fun v => clear_reg_mask v k.SPI_SLAVE_MODE),
   SpiRegs.onCLOCK (fun _ => clock),
   SpiRegs.onUSER (fun v => set_reg_mask v
     (k.SPI_CS_SETUP ||| k.SPI_CS_HOLD ||| k.SPI_USR_MOSI ||| k.SPI_USR_MISO)),
   SpiRegs.onCTRL2 (fun v => set_reg_mask v
     ((4 &&& k.SPI_MISO_DELAY_NUM) <<< k.SPI_MISO_DELAY_NUM_S)),
   SpiRegs.onUSER (fun v => clear_reg_mask v k.SPI_USR_COMMAND),
   SpiRegs.onUSER2 (fun v =>
     set_reg_bits v k.SPI_USR_COMMAND_BITLEN 0 k.SPI_USR_COMMAND_BITLEN_S),
   SpiRegs.onUSER (fun v => clear_reg_mask v k.SPI_USR_ADDR),
   SpiRegs.onUSER1 (fun v => set_reg_bits v k.SPI_USR_ADDR_BITLEN 0 k.SPI_USR_ADDR_BITLEN_S)]

/-- The register programming of the software path of `spi_ll_setup`, applied to
the registers of the unit. -/
def spi_program_registers (bd : Board) (r : SpiRegs) (mode flags clock : Nat) : SpiRegs :=
  (spi_program_steps bd.bits mode flags clock).foldl (fun r f => f r) r

/-- The slot selection at the head of `spi_ll_setup`: the configured slot with
the same chip-select (reconfiguration: the last-resident device is invalidated
when it is that slot, and a hardware-assisted device is removed first), else a
free slot; `none` when there is no free slot. -/
def spi_ll_setup_slot (w : World) (unit : Nat) (cs : Int) : Option (Nat × World) :=
  let found := spi_get_device_by_cs w unit cs
  if found < 0 then
    -- No device present with the same cs: get a free device
    let device := spi_get_free_device w unit
    if device < 0 then none else some (device.toNat, w)
  else
    -- Device present with the same cs
    let w1 :=
      if Int.land (w.getBus unit).last_device 15 = found then
        w.updBus unit (fun b => { b with last_device := -1 })
      else w
    let w2 :=
      if ((w1.getBus unit).dev found.toNat).dma then
        w1.emit (Event.spi_bus_remove_device ((w1.getBus unit).dev found.toNat).h)
      else w1
    some (found.toNat, w2)

/-- The two transfer paths of `spi_ll_setup`: program the registers of the
unit (software path) or register a device with the vendor driver
(hardware-assisted path), and record the path in the setup state of the bus.
`none` when `spi_set_clock` divides by zero. The vendor driver is taken to
leave the 14 saved registers as they are. -/
def spi_ll_setup_path (bd : Board) (w : World) (unit device mode speed flags : Nat) :
    Option World :=
  if flags &&& SPI_FLAG_NO_DMA ≠ 0 then
    match spi_set_clock APB_CLK_FREQ (wrapInt32 speed) 128 with
    | none => none
    | some (clock, _) =>
      let w1 := w.setHw unit (spi_program_registers bd (w.getHw unit) mode flags clock)
      some (w1.updBus unit (fun b => { b with setup := b.setup ||| SPI_NO_DMA_SETUP }))
  else
    let h := w.next_handle
    let w1 := { w with next_handle := h + 1 }
    let w2 := w1.emit (Event.spi_bus_add_device (unit - 1) speed mode h)
    let w3 := w2.updDev unit device (fun d => { d with h := h })
    some (w3.updBus unit (fun b => { b with setup := b.setup ||| SPI_DMA_SETUP }))

/-- Embedding of `spi_ll_setup`. The result is the return value (0 or -1),
the value stored through `deviceid` (if any) and the new state; `none` when
`spi_set_clock` divides by zero. -/
def spi_ll_setup (bd : Board) (w : World) (unit master : Nat) (cs : Int)
    (mode speed flags : Nat) : Option (Int × Option Int × World) :=
  let _ := master
  -- If SPI unit PIN map are not the native pins the max speed must be 26 Mhz
  let speed := if !spi_use_native_pins bd w unit then 26000000 else speed
  -- Check if there's some device un bus with the same cs
  match spi_ll_setup_slot w unit cs with
  | none => some (-1, none, w)
  | some (device, w0) =>
    -- Setup bus, if not done yet
    let w1 :=
      if (w0.getBus unit).setup &&& SPI_DMA_SETUP = 0 then spi_setup_bus bd w0 unit flags
      else w0
    let w2 :=
      if (w1.getBus unit).setup = 0 ∧ flags &&& (SPI_FLAG_READ ||| SPI_FLAG_WRITE) ≠ 0 then
        w1.emit (Event.syslog unit)
      else w1
    -- Setup CS
    let w3 := (w2.emit (Event.gpio_pin_output cs)).emit (Event.gpio_ll_pin_set cs)
    let w4 := w3.updDev unit device (fun d => { d with cs := cs })
    match spi_ll_setup_path bd w4 unit device mode speed flags with
    | none => none
    | some w5 =>
      let w6 := w5.updDev unit device (fun d =>
        { d with mode := mode, dma := decide (flags &&& SPI_FLAG_NO_DMA = 0) })
      let w7 := spi_ll_save_registers w6 unit device
      some (0, some ((unit <<< 8 ||| device : Nat) : Int), w7)

/-! ### Driver errors and the pin arbitration service -/

/-- The detail message of a pin-not-allowed error. -/
inductive PinFault where
  | miso_cannot_be_input
  | mosi_cannot_be_output
  | clk_cannot_be_output
  | default_cs_not_set
  | cs_cannot_be_output
  | pins_must_be_different
  deriving DecidableEq, Repr

/-- The errors registered by the driver, and the lock error propagated from
the pin arbitration service (with the pin that is already owned). -/
inductive SpiError where
  | InvalidMode
  | InvalidUnit
  | SlaveNotAllowed
  | NotEnoughMemory
  | PinNotAllowed (detail : PinFault)
  | NoMoreDevicesAllowed
  | InvalidDevice
  | DeviceNotSetup
  | DeviceNotSelected
  | CannotChangePinMap
  | LockError (pin : Int)
  deriving DecidableEq, Repr

/-- Modelled from the spec: `driver_lock(SPI_DRIVER, unit, GPIO_DRIVER, pin, ...)`
of the pin arbitration service (`sys/driver.c`, not among the sources): the
request succeeds when the pin is free or already owned by this unit, and
returns a conflict (`true`) when it is owned by another subsystem or unit. -/
def driver_lock (w : World) (unit : Nat) (pin : Int) : Bool × World :=
  let w := w.emit (Event.driver_lock unit pin)
  if w.foreign.contains pin || w.locks.any (fun p => p.1 == pin && p.2 != unit) then
    (true, w)
  else if w.locks.contains (pin, unit) then (false, w)
  else (false, { w with locks := w.locks ++ [(pin, unit)] })

/-- Modelled from the spec: `driver_unlock(SPI_DRIVER, unit, GPIO_DRIVER, pin)`
of the pin arbitration service: the ownership of the pin by this unit ends. -/
def driver_unlock (w : World) (unit : Nat) (pin : Int) : World :=
  let w := w.emit (Event.driver_unlock unit pin)
  { w with locks := w.locks.filter (fun p => !(p.1 == pin && p.2 == unit)) }

/-- One lock request of the driver: `driver_lock` on a pin, with the conflict
turned into the lock error the driver returns. -/
def spi_lock_pin (w : World) (unit : Nat) (pin : Int) : Option SpiError × World :=
  if (driver_lock w unit pin).1 then (some (SpiError.LockError pin), (driver_lock w unit pin).2)
  else (none, (driver_lock w unit pin).2)

/-- A lock request made only under a condition. -/
def spi_lock_pin_if (c : Bool) (w : World) (unit : Nat) (pin : Int) :
    Option SpiError × World :=
  if c then spi_lock_pin w unit pin else (none, w)

/-- Sequencing of lock requests: an earlier error is returned as it is,
otherwise the next request is made (under its condition). -/
def spi_lock_then (r : Option SpiError × World) (c : Bool) (unit : Nat) (pin : Int) :
    Option SpiError × World :=
  if r.1.isSome then r else spi_lock_pin_if c r.2 unit pin

/-- Embedding of `spi_lock_bus_resources`: lock the data-in pin (read
requested, pin assigned), the data-out pin (write requested, pin assigned) and
the clock pin (assigned) of the bus, stopping at the first conflict. -/
def spi_lock_bus_resources (w : World) (unit flags : Nat) : Option SpiError × World :=
  spi_lock_then
    (spi_lock_then
      (spi_lock_pin_if (decide (flags &&& SPI_FLAG_READ ≠ 0 ∧ 0 ≤ (w.getBus unit).miso))
        w unit (w.getBus unit).miso)
      (decide (flags &&& SPI_FLAG_WRITE ≠ 0 ∧ 0 ≤ (w.getBus unit).mosi))
      unit (w.getBus unit).mosi)
    (decide (0 ≤ (w.getBus unit).clk)) unit (w.getBus unit).clk

/-- Whether `unit` passes the sanity check
`(unit > CPU_LAST_SPI) || (unit < CPU_FIRST_SPI)`. -/
def spi_unit_ok (unit : Nat) : Bool :=
  !(decide (unit > CPU_LAST_SPI) || decide (unit < CPU_FIRST_SPI))

/-- The default chip-select `CONFIG_LUA_RTOS_SPIx_CS` substituted for `cs == -1`. -/
def spi_default_cs (bd : Board) (unit : Nat) (cs : Int) : Int :=
  if cs = -1 then
    if unit = 2 then bd.config2.cs else if unit = 3 then bd.config3.cs else cs
  else cs

/-- The sanity checks at the head of `spi_setup`, in order: unit range,
master, mode, capabilities of the data-in, data-out and clock pins of the bus,
default chip-select, capability of the chip-select, distinctness of the four
pins. The result is the error of the first check that fails. -/
def spi_setup_checks (bd : Board) (w : World) (unit master : Nat) (cs : Int)
    (mode flags : Nat) : Option SpiError :=
  if !spi_unit_ok unit then
    some SpiError.InvalidUnit
  else if master ≠ 1 then
    some SpiError.SlaveNotAllowed
  else if mode > 3 then
    some SpiError.InvalidMode
  else if !gpio_mask_test bd.GPIO_ALL_IN (w.getBus unit).miso ∧ flags &&& SPI_FLAG_READ ≠ 0 then
    some (SpiError.PinNotAllowed PinFault.miso_cannot_be_input)
  else if !gpio_mask_test bd.GPIO_ALL_OUT (w.getBus unit).mosi
      ∧ flags &&& SPI_FLAG_WRITE ≠ 0 then
    some (SpiError.PinNotAllowed PinFault.mosi_cannot_be_output)
  else if !gpio_mask_test bd.GPIO_ALL_IN (w.getBus unit).clk then
    some (SpiError.PinNotAllowed PinFault.clk_cannot_be_output)
  else if spi_default_cs bd unit cs = -1 then
    some (SpiError.PinNotAllowed PinFault.default_cs_not_set)
  else if !gpio_mask_test bd.GPIO_ALL_OUT (spi_default_cs bd unit cs) then
    some (SpiError.PinNotAllowed PinFault.cs_cannot_be_output)
  else if !TEST_UNIQUE4 (w.getBus unit).mosi (w.getBus unit).miso (w.getBus unit).clk
      (spi_default_cs bd unit cs) then
    some (SpiError.PinNotAllowed PinFault.pins_must_be_different)
  else none

/-- The lock requests of `spi_setup`: the pins of the bus when the bus has no
setup state yet, then the chip-select. -/
def spi_setup_locks (w : World) (unit flags : Nat) (cs : Int) : Option SpiError × World :=
  spi_lock_then
    (if (w.getBus unit).setup = 0 then spi_lock_bus_resources w unit flags else (none, w))
    true unit cs

/-- Embedding of `spi_setup`. The result is the returned error (`none` for
success), the value stored through `deviceid` (if any) and the new state;
`none` when the clock computation divides by zero. -/
def spi_setup (bd : Board) (w : World) (unit master : Nat) (cs : Int)
    (mode speed flags : Nat) : Option (Option SpiError × Option Int × World) :=
  -- Sanity checks
  match spi_setup_checks bd w unit master cs mode flags with
  | some e => some (some e, none, w)
  | none =>
    -- Lock resources
    match (spi_setup_locks w unit flags (spi_default_cs bd unit cs)).1 with
    | some e =>
      some (some e, none, (spi_setup_locks w unit flags (spi_default_cs bd unit cs)).2)
    | none =>
      -- Low-level setup
      match spi_ll_setup bd
          (spi_lock (spi_setup_locks w unit flags (spi_default_cs bd unit cs)).2 unit)
          unit master (spi_default_cs bd unit cs) mode speed flags with
      | none => none
      | some (ret, id, w1) =>
        some (if ret ≠ 0 then some SpiError.NoMoreDevicesAllowed else none, id,
          spi_unlock w1 unit)

/-- The unit of a device id: `(deviceid & 0xff00) >> 8`. -/
def id_unit (deviceid : Int) : Nat :=
  (toUInt32 deviceid &&& 0xff00) >>> 8

/-- The slot of a device id: `deviceid & 0x00ff`. -/
def id_device (deviceid : Int) : Nat :=
  toUInt32 deviceid &&& 0x00ff

/-- Embedding of `spi_ll_select`: take the bus mutex, restore the registers of
the device unless it is the last resident one, record the device as last
resident and selected, drive its chip-select low. -/
def spi_ll_select (w : World) (deviceid : Int) : World :=
  let unit := id_unit deviceid
  let device := id_device deviceid
  let w := spi_lock w unit
  let w :=
    if (w.getBus unit).last_device ≠ deviceid then spi_ll_restore_registers w unit device
    else w
  let w := w.updBus unit
    (fun b => { b with last_device := deviceid, selected_device := deviceid })
  w.emit (Event.gpio_ll_pin_clr ((w.getBus unit).dev device).cs)

/-- Embedding of `spi_ll_deselect`: drive the chip-select high, clear the
selected device, release the bus mutex. -/
def spi_ll_deselect (w : World) (deviceid : Int) : World :=
  let unit := id_unit deviceid
  let device := id_device deviceid
  let w := w.emit (Event.gpio_ll_pin_set ((w.getBus unit).dev device).cs)
  let w := w.updBus unit (fun b => { b with selected_device := -1 })
  spi_unlock w unit

/-- The sanity checks shared by the device operations: unit range, slot range
(`(device < 0) || (device > SPI_BUS_DEVICES)`), configured flag. -/
def spi_check_device (w : World) (deviceid : Int) : Option SpiError :=
  let unit := id_unit deviceid
  let device := id_device deviceid
  if !spi_unit_ok unit then some SpiError.InvalidUnit
  else if device > SPI_BUS_DEVICES then some SpiError.InvalidDevice
  else if !((w.getBus unit).dev device).setup then some SpiError.DeviceNotSetup
  else none

/-- Embedding of `spi_select`. -/
def spi_select (w : World) (deviceid : Int) : Option SpiError × World :=
  match spi_check_device w deviceid with
  | some e => (some e, w)
  | none => (none, spi_ll_select w deviceid)

/-- Embedding of `spi_deselect`. -/
def spi_deselect (w : World) (deviceid : Int) : Option SpiError × World :=
  match spi_check_device w deviceid with
  | some e => (some e, w)
  | none => (none, spi_ll_deselect w deviceid)

/-- Embedding of `spi_unlock_bus_resources`: when no slot of the bus is
configured, release the locks of its data-in, data-out and clock pins. -/
def spi_unlock_bus_resources (w : World) (unit : Nat) : World :=
  let w := spi_lock w unit
  let b := w.getBus unit
  let num_devices := ((List.range SPI_BUS_DEVICES).filter (fun i => (b.dev i).setup)).length
  let w :=
    if num_devices = 0 then
      let w := if 0 ≤ b.miso then driver_unlock w unit b.miso else w
      let w := if 0 ≤ b.mosi then driver_unlock w unit b.mosi else w
      if 0 ≤ b.clk then driver_unlock w unit b.clk else w
    else w
  spi_unlock w unit

/-- Embedding of `spi_ll_unsetup`. The configured flag that is cleared is the
one of `device[unit]`, as in the source. -/
def spi_ll_unsetup (w : World) (deviceid : Int) : World :=
  let unit := id_unit deviceid
  let device := id_device deviceid
  let w := spi_lock w unit
  let w :=
    if ((w.getBus unit).dev device).setup then
      -- Remove device fom bus
      let w :=
        if ((w.getBus unit).dev device).dma then
          w.emit (Event.spi_bus_remove_device ((w.getBus unit).dev device).h)
        else w
      -- Unlock device CS
      let w := driver_unlock w unit ((w.getBus unit).dev device).cs
      w.updDev unit unit (fun d => { d with setup := false })
    else w
  let w := spi_unlock_bus_resources w unit
  spi_unlock w unit

/-- Embedding of `spi_unsetup`. -/
def spi_unsetup (w : World) (deviceid : Int) : Option SpiError × World :=
  match spi_check_device w deviceid with
  | some e => (some e, w)
  | none => (none, spi_ll_unsetup w deviceid)

/-- Embedding of `spi_pin_map`. -/
def spi_pin_map (bd : Board) (w : World) (unit : Nat) (miso mosi clk : Int) :
    Option SpiError × World :=
  if !spi_unit_ok unit then (some SpiError.InvalidUnit, w)
  else
    let w := spi_lock w unit
    let b := w.getBus unit
    if b.setup ≠ 0 then
      (some SpiError.CannotChangePinMap, spi_unlock w unit)
    else if !gpio_mask_test bd.GPIO_ALL_IN b.miso ∧ 0 ≤ miso then
      (some (SpiError.PinNotAllowed PinFault.miso_cannot_be_input), spi_unlock w unit)
    else if !gpio_mask_test bd.GPIO_ALL_OUT b.mosi ∧ 0 ≤ mosi then
      (some (SpiError.PinNotAllowed PinFault.mosi_cannot_be_output), spi_unlock w unit)
    else if !gpio_mask_test bd.GPIO_ALL_IN b.clk ∧ 0 ≤ clk then
      (some (SpiError.PinNotAllowed PinFault.clk_cannot_be_output), spi_unlock w unit)
    else if !TEST_UNIQUE3 b.mosi b.miso b.clk then
      (some (SpiError.PinNotAllowed PinFault.pins_must_be_different), spi_unlock w unit)
    else
      let w := if 0 ≤ miso then w.updBus unit (fun b => { b with miso := miso }) else w
      let w := if 0 ≤ mosi then w.updBus unit (fun b => { b with mosi := mosi }) else w
      let w := if 0 ≤ clk then w.updBus unit (fun b => { b with clk := clk }) else w
      (none, spi_unlock w unit)

/-! ### A concrete board -/

/-- The register masks of the ESP32 (`soc/spi_reg.h`). -/
def esp32_bits : SpiRegBits :=
  { SPI_TRANS_DONE := 0x10, SPI_SLAVE_MODE := 0x40000000,
    SPI_CS_SETUP := 0x20, SPI_CS_HOLD := 0x10,
    SPI_CK_OUT_EDGE := 0x80, SPI_CK_IDLE_EDGE := 0x20000000,
    SPI_WR_BIT_ORDER := 0x4000000, SPI_RD_BIT_ORDER := 0x2000000,
    SPI_DOUTDIN := 0x1, SPI_SIO := 0x10000,
    SPI_USR_MOSI := 0x8000000, SPI_USR_MISO := 0x10000000,
    SPI_USR_COMMAND := 0x80000000, SPI_USR_ADDR := 0x40000000,
    SPI_MISO_DELAY_MODE := 0x3, SPI_MISO_DELAY_MODE_S := 16,
    SPI_MISO_DELAY_NUM := 0x7, SPI_MISO_DELAY_NUM_S := 18,
    SPI_USR_COMMAND_BITLEN := 0xF, SPI_USR_COMMAND_BITLEN_S := 28,
    SPI_USR_ADDR_BITLEN := 0x3F, SPI_USR_ADDR_BITLEN_S := 26 }

/-- An ESP32 board with the buses on their native pins (unit 2: data-in 12,
data-out 13, clock 14, chip-select 15; unit 3: 19, 23, 18, 5). The pins 0-5,
12-19, 21-23, 25-27, 32 and 33 can be inputs and outputs; the pins 34-39 can
only be inputs. -/
def esp32_board : Board :=
  { config2 := { miso := 12, mosi := 13, clk := 14, cs := 15 },
    config3 := { miso := 19, mosi := 23, clk := 18, cs := 5 },
    native2 := { miso := 12, mosi := 13, clk := 14, cs := 15 },
    native3 := { miso := 19, mosi := 23, clk := 18, cs := 5 },
    GPIO_ALL_IN := 0xff0eeff03f,
    GPIO_ALL_OUT := 0x30eeff03f,
    bits := esp32_bits }

/-- The state after `_spi_init` on the ESP32 board, with zeroed peripheral
registers and no pin owned by another subsystem. -/
def esp32_init : World :=
  spi_init esp32_board SpiRegs.zero SpiRegs.zero []

/-- Run `spi_setup` on unit 2 as master for each chip-select of a list, in
order, with the same mode, speed and flags; the result lists, for each call,
the returned error and the device id stored, and gives the final state. -/
def spi_setup_all (bd : Board) (mode speed flags : Nat) :
    World → List Int → Option (List (Option SpiError × Option Int) × World)
  | w, [] => some ([], w)
  | w, cs :: rest =>
    match spi_setup bd w 2 1 cs mode speed flags with
    | none => none
    | some (e, id, w1) =>
      match spi_setup_all bd mode speed flags w1 rest with
      | none => none
      | some (rs, w2) => some ((e, id) :: rs, w2)

/-- The number of configured slots of a bus (the count made by
`spi_unlock_bus_resources`). -/
def spi_num_devices (w : World) (unit : Nat) : Nat :=
  ((List.range SPI_BUS_DEVICES).filter (fun i => ((w.getBus unit).dev i).setup)).length

/-- The state in which slot `i` of the bus of `unit` is a configured device
with the given chip-select on the software path: the slot contents that the
sanity checks of the device operations (`device[i].setup`) look for. -/
def World.withDevice (w : World) (unit i : Nat) (cs : Int) : World :=
  w.updDev unit i (fun d => { d with cs := cs, setup := true })

/-- The calls to the vendor driver (`spi_bus_add_device`,
`spi_bus_remove_device`) in a record of calls, in order. -/
def vendor_device_calls (log : List Event) : List Event :=
  log.filter (fun e =>
    match e with
    | Event.spi_bus_add_device _ _ _ _ => true
    | Event.spi_bus_remove_device _ => true
    | _ => false)

/-- The configured flags of all slots of all buses. -/
def setup_flags (w : World) : List (List Bool) :=
  w.bus.map (fun b => b.device.map (fun d => d.setup))

/-! ## Transfer engine (`spi_master_op`)

Buffers are lists of bytes; a `NULL` pointer is `none`. The byte the slave
shifts out at each byte position of a transfer, the success of the vendor
calls and of the allocations are given by the environment. -/

/-- What the environment decides during a transfer: the byte received at each
byte position, whether the k-th vendor transaction succeeds, whether an
allocation succeeds, and whether the source buffer lies in read-only program
storage. -/
structure XferEnv where
  miso : Nat → Nat
  transmit_ok : Nat → Bool
  malloc_ok : Bool
  in_rodata : Bool

/-- The outcome of a run of a loop of the source: a result, an abort (a failed
`assert`), or no result within the iterations allowed. -/
inductive Run (α : Type) where
  | done (a : α)
  | aborted
  | diverged
  deriving DecidableEq, Repr

/-- The mask `SPI_USR` of `SPI_CMD_REG` (`soc/spi_reg.h`): transfer in progress. -/
def SPI_USR : Nat := 0x40000

/-- The mask `SPI_USR_MOSI_DBITLEN` of `SPI_MOSI_DLEN_REG` (shift 0). -/
def SPI_USR_MOSI_DBITLEN : Nat := 0x00FFFFFF

/-- The mask `SPI_USR_MISO_DBITLEN` of `SPI_MISO_DLEN_REG` (shift 0). -/
def SPI_USR_MISO_DBITLEN : Nat := 0x00FFFFFF

/-- The transfer-size limit `SPI_MAX_SIZE` of the hardware-assisted path. -/
def SPI_MAX_SIZE : Nat := 4096 - 4

/-- The bytes of a buffer after `memcpy(buf + off, src, src.length)`. -/
def write_at (buf : List Nat) (off : Nat) (src : List Nat) : List Nat :=
  buf.take off ++ src ++ buf.drop (off + src.length)

/-- The bytes received at the byte positions `off, ..., off + n - 1`. -/
def miso_bytes (env : XferEnv) (off n : Nat) : List Nat :=
  (List.range n).map (fun i => env.miso (off + i) % 256)

/-- One chunk of the software path, as seen at the peripheral: the bytes
shifted out, the values written to the bit-length fields of the MOSI and MISO
length registers, and the bytes written to the transmit words `W0..W15`. -/
structure SpiChunk where
  tx : List Nat
  mosi_dbitlen : Nat
  miso_dbitlen : Nat
  words : List Nat
  deriving DecidableEq, Repr

/-- The locals of the software path of `spi_master_op` between iterations: the
bytes left, the source and destination pointers (as the remaining source bytes
and the destination buffer with the offset reached), the local 64-byte buffer,
and the `SPI_CMD_REG` of the unit. -/
structure SwLoop where
  bytes : Nat
  inp : Option (List Nat)
  out : Option (List Nat)
  pos : Nat
  buffer : List Nat
  cmd : Nat
  deriving DecidableEq, Repr

/-- One iteration of `while (bytes)` of the software path of `spi_master_op`.
Each wait for the peripheral is taken to return with `SPI_USR` clear. -/
def spi_sw_chunk (env : XferEnv) (s : SwLoop) : SpiChunk × SwLoop :=
  -- Fill TX buffer
  let cbytes := if s.bytes > 64 then 64 else s.bytes
  let buffer :=
    match s.inp with
    | some src => write_at s.buffer 0 (src.take cbytes)
    | none => write_at s.buffer 0 (List.replicate cbytes 0xff)
  let inp := s.inp.map (fun src => src.drop cbytes)
  let cbits := (cbytes <<< 3) % 65536
  -- Decrement bytes
  let bytes := s.bytes - cbytes
  -- Wait for SPI bus ready
  let cmd := clear_reg_mask s.cmd SPI_USR
  -- Set MOSI / MISO bit length
  let mosi_dbitlen := (cbits - 1) &&& SPI_USR_MOSI_DBITLEN
  let miso_dbitlen := (cbits - 1) &&& SPI_USR_MISO_DBITLEN
  -- Populate HW buffers with TX buffer contents
  let nwords := (cbits + 31) / 32
  let words := buffer.take (4 * nwords)
  -- Start transfer, wait for SPI bus ready
  let cmd := clear_reg_mask (set_reg_mask cmd SPI_USR) SPI_USR
  let received := write_at words 0 (miso_bytes env s.pos cbytes)
  let chunk : SpiChunk :=
    { tx := words.take cbytes, mosi_dbitlen := mosi_dbitlen, miso_dbitlen := miso_dbitlen,
      words := words }
  match s.out with
  | some dst =>
    -- Populate RX buffer from HW buffers
    let buffer := write_at buffer 0 received
    (chunk, { bytes := bytes, inp := inp, out := some (write_at dst s.pos (buffer.take cbytes)),
              pos := s.pos + cbytes, buffer := buffer, cmd := cmd })
  | none =>
    (chunk, { bytes := bytes, inp := inp, out := none, pos := s.pos + cbytes,
              buffer := buffer, cmd := cmd })

/-- The loop `while (bytes)` of the software path, run for at most `fuel`
iterations: the chunks in order and the locals at the exit of the loop. -/
def spi_sw_loop (env : XferEnv) : Nat → SwLoop → Run (List SpiChunk × SwLoop)
  | 0, s => if s.bytes = 0 then Run.done ([], s) else Run.diverged
  | fuel + 1, s =>
    if s.bytes = 0 then Run.done ([], s)
    else
      match spi_sw_loop env fuel (spi_sw_chunk env s).2 with
      | Run.done (cs, sf) => Run.done ((spi_sw_chunk env s).1 :: cs, sf)
      | Run.aborted => Run.aborted
      | Run.diverged => Run.diverged

/-- One blocking transaction of the hardware-assisted path: its length in
bits, and the byte offsets of its transmit and receive pointers in the source
and destination buffers (`none` for a `NULL` pointer). -/
structure SpiTransaction where
  length : Nat
  tx_off : Option Nat
  rx_off : Option Nat
  deriving DecidableEq, Repr

/-- The locals of the hardware-assisted path of `spi_master_op` between
iterations: the elements left, the offsets reached by `bin` and `out`, the
destination buffer, and the number of transactions submitted. -/
structure DmaLoop where
  len : Nat
  bin : Option Nat
  out : Option (List Nat)
  pos : Nat
  count : Nat
  deriving DecidableEq, Repr

/-- The transaction size chosen by an iteration of `while (len > 0)`:
`SPI_MAX_SIZE / word_size` elements, or what is left. -/
def spi_dma_size (word_size len : Nat) : Nat :=
  if len > SPI_MAX_SIZE / word_size then SPI_MAX_SIZE / word_size else len

/-- One iteration of `while (len > 0)` of the hardware-assisted path. -/
def spi_dma_step (env : XferEnv) (word_size : Nat) (s : DmaLoop) :
    SpiTransaction × DmaLoop :=
  let size := spi_dma_size word_size s.len
  let t : SpiTransaction :=
    { length := (size * word_size * 8) % 4294967296, tx_off := s.bin,
      rx_off := s.out.map (fun _ => s.pos) }
  (t, { len := s.len - size,
        bin := s.bin.map (fun o => o + size * word_size),
        out := s.out.map (fun dst =>
          write_at dst s.pos (miso_bytes env s.pos (size * word_size))),
        pos := s.pos + size * word_size,
        count := s.count + 1 })

/-- The loop `while (len > 0)` of the hardware-assisted path, run for at most
`fuel` iterations; a vendor transaction that fails aborts (`assert`). -/
def spi_dma_loop (env : XferEnv) (word_size : Nat) :
    Nat → DmaLoop → Run (List SpiTransaction × DmaLoop)
  | 0, s => if s.len = 0 then Run.done ([], s) else Run.diverged
  | fuel + 1, s =>
    if s.len = 0 then Run.done ([], s)
    else if !env.transmit_ok s.count then Run.aborted
    else
      match spi_dma_loop env word_size fuel (spi_dma_step env word_size s).2 with
      | Run.done (ts, sf) => Run.done ((spi_dma_step env word_size s).1 :: ts, sf)
      | Run.aborted => Run.aborted
      | Run.diverged => Run.diverged

/-- The result of `spi_master_op`: the state, the destination buffer, the
chunks (software path) and the transactions (hardware-assisted path). -/
structure XferResult where
  world : World
  out : Option (List Nat)
  chunks : List SpiChunk
  transactions : List SpiTransaction
  deriving DecidableEq, Repr

/-- Embedding of `spi_master_op`. `buffer0` is the content of the local buffer
of the software path at entry (an uninitialised array). Each loop is run for
as many iterations as it has bytes (elements) to move, which is enough when
every iteration moves at least one. -/
def spi_master_op (env : XferEnv) (w : World) (deviceid : Int) (word_size len : Nat)
    (inp out : Option (List Nat)) (buffer0 : List Nat) : Run XferResult :=
  let unit := id_unit deviceid
  let device := id_device deviceid
  if !((w.getBus unit).dev device).dma then
    -- Number of bytes to transmit
    let bytes := (word_size * len) % 4294967296
    match spi_sw_loop env bytes
        { bytes := bytes, inp := inp, out := out, pos := 0, buffer := buffer0,
          cmd := (w.getHw unit).CMD } with
    | Run.done (cs, sf) =>
      Run.done { world := w.setHw unit { (w.getHw unit) with CMD := sf.cmd },
                 out := sf.out, chunks := cs, transactions := [] }
    | Run.aborted => Run.aborted
    | Run.diverged => Run.diverged
  else
    -- data in FLASH can't be transferred by DMA, so in this case we copy to RAM
    if inp.isSome ∧ env.in_rodata ∧ !env.malloc_ok then Run.aborted
    else
      match spi_dma_loop env word_size len
          { len := len, bin := inp.map (fun _ => 0), out := out, pos := 0, count := 0 } with
      | Run.done (ts, sf) =>
        Run.done { world := w, out := sf.out, chunks := [], transactions := ts }
      | Run.aborted => Run.aborted
      | Run.diverged => Run.diverged

/-! ## Speed, transfers and the operations on a selected device -/

/-- A state with the shape `_spi_init` gives it: two buses of eight slots and
the registers of the two units. -/
def World.wf (w : World) : Bool :=
  w.bus.length == 2 && w.hw.length == 2
    && w.bus.all (fun b => b.device.length == SPI_BUS_DEVICES)

/-- Embedding of `spi_ll_get_speed`: the body of the function is commented out
in the source, nothing is read or written. -/
def spi_ll_get_speed (w : World) (deviceid : Int) : World :=
  let _ := deviceid
  w

/-- The two transfer paths of `spi_ll_set_speed`: write the clock register
(software path), or remove the device from the vendor driver and add it again
with the new speed (hardware-assisted path). `none` when `spi_set_clock`
divides by zero. -/
def spi_ll_set_speed_path (w : World) (unit device speed : Nat) : Option World :=
  if !((w.getBus unit).dev device).dma then
    match spi_set_clock APB_CLK_FREQ (wrapInt32 speed) 128 with
    | none => none
    | some (clock, _) => some (w.setHw unit (SpiRegs.onCLOCK (fun _ => clock) (w.getHw unit)))
  else
    let w1 := w.emit (Event.spi_bus_remove_device ((w.getBus unit).dev device).h)
    let h := w1.next_handle
    let w2 := { w1 with next_handle := h + 1 }
    let w3 := w2.emit
      (Event.spi_bus_add_device (unit - 1) speed ((w.getBus unit).dev device).mode h)
    some (w3.updDev unit device (fun d => { d with h := h }))

/-- Embedding of `spi_ll_set_speed`. -/
def spi_ll_set_speed (bd : Board) (w : World) (deviceid : Int) (speed : Nat) : Option World :=
  let unit := id_unit deviceid
  let device := id_device deviceid
  -- If SPI unit PIN map are not the native pins the max speed must be 26 Mhz
  let speed := if !spi_use_native_pins bd w unit then 26000000 else speed
  let w1 := w.updBus unit (fun b => { b with last_device := -1 })
  match spi_ll_set_speed_path w1 unit device speed with
  | none => none
  | some w2 => some (spi_ll_save_registers w2 unit device)

/-- Embedding of `spi_get_speed`. -/
def spi_get_speed (w : World) (deviceid : Int) : Option SpiError × World :=
  match spi_check_device w deviceid with
  | some e => (some e, w)
  | none =>
    (none, spi_unlock (spi_ll_get_speed (spi_lock w (id_unit deviceid)) deviceid)
      (id_unit deviceid))

/-- Embedding of `spi_set_speed`; `none` when the clock computation divides by
zero. -/
def spi_set_speed (bd : Board) (w : World) (deviceid : Int) (speed : Nat) :
    Option (Option SpiError × World) :=
  match spi_check_device w deviceid with
  | some e => some (some e, w)
  | none =>
    match spi_ll_set_speed bd (spi_lock w (id_unit deviceid)) deviceid speed with
    | none => none
    | some w1 => some (none, spi_unlock w1 (id_unit deviceid))

/-- The result of a transfer operation: the returned error (for the low-level
read+write functions `some NotEnoughMemory` stands for the return value -1),
the state, the caller's buffer after the call (`none` when the caller passed
no buffer), and the chunks and transactions performed. -/
structure OpResult where
  error : Option SpiError
  world : World
  data : Option (List Nat)
  chunks : List SpiChunk
  transactions : List SpiTransaction
  deriving DecidableEq, Repr

/-- The result of a write-only or read-only low-level operation, from the
result of `spi_master_op`: the caller's buffer is the destination buffer when
there is one, and is left as it was otherwise. -/
def op_of_xfer (data : Option (List Nat)) (r : Run XferResult) : Run OpResult :=
  match r with
  | Run.done x =>
    Run.done { error := none, world := x.world,
               data := if x.out.isSome then x.out else data,
               chunks := x.chunks, transactions := x.transactions }
  | Run.aborted => Run.aborted
  | Run.diverged => Run.diverged

/-- Embedding of `spi_ll_transfer`: one byte out, one byte in when `read` is
not `NULL`. -/
def spi_ll_transfer (env : XferEnv) (w : World) (deviceid : Int) (data : Nat)
    (read : Option (List Nat)) (buffer0 : List Nat) : Run OpResult :=
  op_of_xfer read (spi_master_op env w deviceid 1 1 (some [data % 256]) read buffer0)

/-- Embedding of `spi_ll_bulk_write`. -/
def spi_ll_bulk_write (env : XferEnv) (w : World) (deviceid : Int) (nbytes : Nat)
    (data : List Nat) (buffer0 : List Nat) : Run OpResult :=
  op_of_xfer (some data) (spi_master_op env w deviceid 1 nbytes (some data) none buffer0)

/-- Embedding of `spi_ll_bulk_read`. -/
def spi_ll_bulk_read (env : XferEnv) (w : World) (deviceid : Int) (nbytes : Nat)
    (data : List Nat) (buffer0 : List Nat) : Run OpResult :=
  op_of_xfer (some data) (spi_master_op env w deviceid 1 nbytes none (some data) buffer0)

/-- Embedding of `spi_ll_bulk_write16`; the buffer is given as its bytes. -/
def spi_ll_bulk_write16 (env : XferEnv) (w : World) (deviceid : Int) (nelements : Nat)
    (data : List Nat) (buffer0 : List Nat) : Run OpResult :=
  op_of_xfer (some data) (spi_master_op env w deviceid 2 nelements (some data) none buffer0)

/-- Embedding of `spi_ll_bulk_read16`; the buffer is given as its bytes. -/
def spi_ll_bulk_read16 (env : XferEnv) (w : World) (deviceid : Int) (nelements : Nat)
    (data : List Nat) (buffer0 : List Nat) : Run OpResult :=
  op_of_xfer (some data) (spi_master_op env w deviceid 2 nelements none (some data) buffer0)

/-- Embedding of `spi_ll_bulk_write32`; the buffer is given as its bytes. -/
def spi_ll_bulk_write32 (env : XferEnv) (w : World) (deviceid : Int) (nelements : Nat)
    (data : List Nat) (buffer0 : List Nat) : Run OpResult :=
  op_of_xfer (some data) (spi_master_op env w deviceid 4 nelements (some data) none buffer0)

/-- Embedding of `spi_ll_bulk_read32`; the buffer is given as its bytes. -/
def spi_ll_bulk_read32 (env : XferEnv) (w : World) (deviceid : Int) (nelements : Nat)
    (data : List Nat) (buffer0 : List Nat) : Run OpResult :=
  op_of_xfer (some data) (spi_master_op env w deviceid 4 nelements none (some data) buffer0)

/-- The body shared by `spi_ll_bulk_rw`, `spi_ll_bulk_rw16` and
`spi_ll_bulk_rw32`: allocate the temporary buffer `read` (`tmp` is the content
of the block `malloc` returns), transfer `len` elements of `word_size` bytes
from `data` into `read`, then `memcpy(data, read, copy)`; return -1 when the
allocation fails. -/
def spi_ll_rw_body (env : XferEnv) (w : World) (deviceid : Int) (word_size len copy : Nat)
    (data tmp buffer0 : List Nat) : Run OpResult :=
  if env.malloc_ok then
    match spi_master_op env w deviceid word_size len (some data) (some tmp) buffer0 with
    | Run.done x =>
      Run.done { error := none, world := x.world,
                 data := some (write_at data 0 ((x.out.getD tmp).take copy)),
                 chunks := x.chunks, transactions := x.transactions }
    | Run.aborted => Run.aborted
    | Run.diverged => Run.diverged
  else
    Run.done { error := some SpiError.NotEnoughMemory, world := w, data := some data,
               chunks := [], transactions := [] }

/-- Embedding of `spi_ll_bulk_rw`: `malloc(nbytes)`, word size 1,
`memcpy(data, read, nbytes)`. -/
def spi_ll_bulk_rw (env : XferEnv) (w : World) (deviceid : Int) (nbytes : Nat)
    (data tmp buffer0 : List Nat) : Run OpResult :=
  spi_ll_rw_body env w deviceid 1 nbytes nbytes data tmp buffer0

/-- Embedding of `spi_ll_bulk_rw16`: `malloc(nelements * sizeof(uint16_t))`,
word size 2, `memcpy(data, read, nelements)`. -/
def spi_ll_bulk_rw16 (env : XferEnv) (w : World) (deviceid : Int) (nelements : Nat)
    (data tmp buffer0 : List Nat) : Run OpResult :=
  spi_ll_rw_body env w deviceid 2 nelements nelements data tmp buffer0

/-- Embedding of `spi_ll_bulk_rw32`: `malloc(nelements * sizeof(uint32_t))`,
word size 4, `memcpy(data, read, nelements)`. -/
def spi_ll_bulk_rw32 (env : XferEnv) (w : World) (deviceid : Int) (nelements : Nat)
    (data tmp buffer0 : List Nat) : Run OpResult :=
  spi_ll_rw_body env w deviceid 4 nelements nelements data tmp buffer0

/-- The sanity checks shared by the transfer operations: those of
`spi_check_device`, then `selected_device != deviceid`. -/
def spi_check_selected (w : World) (deviceid : Int) : Option SpiError :=
  match spi_check_device w deviceid with
  | some e => some e
  | none =>
    if (w.getBus (id_unit deviceid)).selected_device ≠ deviceid then
      some SpiError.DeviceNotSelected
    else none

/-- The shape shared by the transfer operations: return the error of the
sanity checks before anything else is done, otherwise run the low-level
function. -/
def spi_checked_op (w : World) (deviceid : Int) (data : Option (List Nat))
    (ll : Run OpResult) : Run OpResult :=
  match spi_check_selected w deviceid with
  | some e =>
    Run.done { error := some e, world := w, data := data, chunks := [], transactions := [] }
  | none => ll

/-- Embedding of `spi_transfer`. -/
def spi_transfer (env : XferEnv) (w : World) (deviceid : Int) (data : Nat)
    (read : Option (List Nat)) (buffer0 : List Nat) : Run OpResult :=
  spi_checked_op w deviceid read (spi_ll_transfer env w deviceid data read buffer0)

/-- Embedding of `spi_bulk_write`. -/
def spi_bulk_write (env : XferEnv) (w : World) (deviceid : Int) (nbytes : Nat)
    (data buffer0 : List Nat) : Run OpResult :=
  spi_checked_op w deviceid (some data) (spi_ll_bulk_write env w deviceid nbytes data buffer0)

/-- Embedding of `spi_bulk_read`. -/
def spi_bulk_read (env : XferEnv) (w : World) (deviceid : Int) (nbytes : Nat)
    (data buffer0 : List Nat) : Run OpResult :=
  spi_checked_op w deviceid (some data) (spi_ll_bulk_read env w deviceid nbytes data buffer0)

/-- Embedding of `spi_bulk_rw`. -/
def spi_bulk_rw (env : XferEnv) (w : World) (deviceid : Int) (nbytes : Nat)
    (data tmp buffer0 : List Nat) : Run OpResult :=
  spi_checked_op w deviceid (some data)
    (spi_ll_bulk_rw env w deviceid nbytes data tmp buffer0)

/-- Embedding of `spi_bulk_write16`. -/
def spi_bulk_write16 (env : XferEnv) (w : World) (deviceid : Int) (nelements : Nat)
    (data buffer0 : List Nat) : Run OpResult :=
  spi_checked_op w deviceid (some data)
    (spi_ll_bulk_write16 env w deviceid nelements data buffer0)

/-- Embedding of `spi_bulk_read16`. -/
def spi_bulk_read16 (env : XferEnv) (w : World) (deviceid : Int) (nelements : Nat)
    (data buffer0 : List Nat) : Run OpResult :=
  spi_checked_op w deviceid (some data)
    (spi_ll_bulk_read16 env w deviceid nelements data buffer0)

/-- Embedding of `spi_bulk_rw16`. -/
def spi_bulk_rw16 (env : XferEnv) (w : World) (deviceid : Int) (nelements : Nat)
    (data tmp buffer0 : List Nat) : Run OpResult :=
  spi_checked_op w deviceid (some data)
    (spi_ll_bulk_rw16 env w deviceid nelements data tmp buffer0)

/-- Embedding of `spi_bulk_write32`. -/
def spi_bulk_write32 (env : XferEnv) (w : World) (deviceid : Int) (nelements : Nat)
    (data buffer0 : List Nat) : Run OpResult :=
  spi_checked_op w deviceid (some data)
    (spi_ll_bulk_write32 env w deviceid nelements data buffer0)

/-- Embedding of `spi_bulk_read32`. -/
def spi_bulk_read32 (env : XferEnv) (w : World) (deviceid : Int) (nelements : Nat)
    (data buffer0 : List Nat) : Run OpResult :=
  spi_checked_op w deviceid (some data)
    (spi_ll_bulk_read32 env w deviceid nelements data buffer0)

/-- Embedding of `spi_bulk_rw32`. -/
def spi_bulk_rw32 (env : XferEnv) (w : World) (deviceid : Int) (nelements : Nat)
    (data tmp buffer0 : List Nat) : Run OpResult :=
  spi_checked_op w deviceid (some data)
    (spi_ll_bulk_rw32 env w deviceid nelements data tmp buffer0)

/-- The level of a pin after a record of calls: the last `gpio_ll_pin_set`
(high, `true`) or `gpio_ll_pin_clr` (low, `false`) on the pin, if any. -/
def pin_level (log : List Event) (pin : Int) : Option Bool :=
  log.foldl (fun lvl e =>
    match e with
    | Event.gpio_ll_pin_set p => if p = pin then some true else lvl
    | Event.gpio_ll_pin_clr p => if p = pin then some false else lvl
    | _ => lvl) none

/-! ### A concrete environment -/

/-- An environment in which the slave answers `0xAB`, `0xCD`, `0xEF`, ... at
the successive byte positions, every vendor call and allocation succeeds and
the source buffer is in RAM. -/
def test_env : XferEnv :=
  { miso := fun i => 0xAB + 0x22 * i, transmit_ok := fun _ => true, malloc_ok := true,
    in_rodata := false }


/-! ## Reachable states -/

/-- One call of an operation of the driver, from a state to the state it
leaves. -/
inductive SpiStep (bd : Board) : World → World → Prop where
  | setup (w : World) (unit master : Nat) (cs : Int) (mode speed flags : Nat)
      (e : Option SpiError) (id : Option Int) (w' : World)
      (h : spi_setup bd w unit master cs mode speed flags = some (e, id, w')) :
      SpiStep bd w w'
  | pin_map (w : World) (unit : Nat) (miso mosi clk : Int) :
      SpiStep bd w (spi_pin_map bd w unit miso mosi clk).2
  | select (w : World) (deviceid : Int) : SpiStep bd w (spi_select w deviceid).2
  | deselect (w : World) (deviceid : Int) : SpiStep bd w (spi_deselect w deviceid).2
  | unsetup (w : World) (deviceid : Int) : SpiStep bd w (spi_unsetup w deviceid).2
  | get_speed (w : World) (deviceid : Int) : SpiStep bd w (spi_get_speed w deviceid).2
  | set_speed (w : World) (deviceid : Int) (speed : Nat) (e : Option SpiError) (w' : World)
      (h : spi_set_speed bd w deviceid speed = some (e, w')) : SpiStep bd w w'
  | transfer (env : XferEnv) (w : World) (deviceid : Int) (data : Nat)
      (read : Option (List Nat)) (buffer0 : List Nat) (r : OpResult)
      (h : spi_transfer env w deviceid data read buffer0 = Run.done r) : SpiStep bd w r.world
  | bulk_write (env : XferEnv) (w : World) (deviceid : Int) (n : Nat)
      (data buffer0 : List Nat) (r : OpResult)
      (h : spi_bulk_write env w deviceid n data buffer0 = Run.done r) : SpiStep bd w r.world
  | bulk_read (env : XferEnv) (w : World) (deviceid : Int) (n : Nat)
      (data buffer0 : List Nat) (r : OpResult)
      (h : spi_bulk_read env w deviceid n data buffer0 = Run.done r) : SpiStep bd w r.world
  | bulk_rw (env : XferEnv) (w : World) (deviceid : Int) (n : Nat)
      (data tmp buffer0 : List Nat) (r : OpResult)
      (h : spi_bulk_rw env w deviceid n data tmp buffer0 = Run.done r) : SpiStep bd w r.world
  | bulk_write16 (env : XferEnv) (w : World) (deviceid : Int) (n : Nat)
      (data buffer0 : List Nat) (r : OpResult)
      (h : spi_bulk_write16 env w deviceid n data buffer0 = Run.done r) : SpiStep bd w r.world
  | bulk_read16 (env : XferEnv) (w : World) (deviceid : Int) (n : Nat)
      (data buffer0 : List Nat) (r : OpResult)
      (h : spi_bulk_read16 env w deviceid n data buffer0 = Run.done r) : SpiStep bd w r.world
  | bulk_rw16 (env : XferEnv) (w : World) (deviceid : Int) (n : Nat)
      (data tmp buffer0 : List Nat) (r : OpResult)
      (h : spi_bulk_rw16 env w deviceid n data tmp buffer0 = Run.done r) : SpiStep bd w r.world
  | bulk_write32 (env : XferEnv) (w : World) (deviceid : Int) (n : Nat)
      (data buffer0 : List Nat) (r : OpResult)
      (h : spi_bulk_write32 env w deviceid n data buffer0 = Run.done r) : SpiStep bd w r.world
  | bulk_read32 (env : XferEnv) (w : World) (deviceid : Int) (n : Nat)
      (data buffer0 : List Nat) (r : OpResult)
      (h : spi_bulk_read32 env w deviceid n data buffer0 = Run.done r) : SpiStep bd w r.world
  | bulk_rw32 (env : XferEnv) (w : World) (deviceid : Int) (n : Nat)
      (data tmp buffer0 : List Nat) (r : OpResult)
      (h : spi_bulk_rw32 env w deviceid n data tmp buffer0 = Run.done r) : SpiStep bd w r.world

/-- The states reachable from a state by any number of calls of operations of
the driver. -/
inductive SpiReach (bd : Board) : World → World → Prop where
  | refl (w : World) : SpiReach bd w w
  | step (w w1 w2 : World) (h1 : SpiReach bd w w1) (h2 : SpiStep bd w1 w2) : SpiReach bd w w2

/-- How an operation may change a bus entry whose setup state is not zero: the
setup state stays different from zero and the three pins stay as they are. -/
def bus_keeps_pins (b b' : SpiBus) : Prop :=
  b.setup ≠ 0 → b'.setup ≠ 0 ∧ b'.miso = b.miso ∧ b'.mosi = b.mosi ∧ b'.clk = b.clk

/-- The bus table keeps its size, and every bus entry whose setup state is not
zero keeps that and its pins. -/
def World.keeps_pins (w w' : World) : Prop :=
  w'.bus.length = w.bus.length ∧ ∀ u, bus_keeps_pins (w.getBus u) (w'.getBus u)

/-! ## States used as instances -/

/-- The state after `_spi_init` and `spi_pin_map(2, 25, 26, 27)` on the ESP32
board: unit 2 routed to pins that are not its native pins. -/
def esp32_remapped : World :=
  (spi_pin_map esp32_board esp32_init 2 25 26 27).2

/-- The transactions of a list start at the given transmit and receive offsets
and each starts where the one before it ended (`none` for a `NULL` pointer,
which stays `NULL`). -/
def transactions_contiguous : Option Nat → Option Nat → List SpiTransaction → Bool
  | _, _, [] => true
  | tx, rx, t :: ts =>
    decide (t.tx_off = tx) && decide (t.rx_off = rx)
      && transactions_contiguous (tx.map (fun o => o + t.length / 8))
          (rx.map (fun o => o + t.length / 8)) ts

/-- The state after `_spi_init` and a successful
`spi_setup(2, 1, 15, 0, 1000000, SPI_FLAG_WRITE | SPI_FLAG_READ)` on the ESP32
board: slot 0 of unit 2 is a hardware-assisted device. -/
def esp32_dma : World :=
  match spi_setup esp32_board esp32_init 2 1 15 0 1000000 3 with
  | some (_, _, w) => w
  | none => esp32_init

/-- Apply a function to the result of a run. -/
def Run.map {α β : Type} (f : α → β) : Run α → Run β
  | Run.done a => Run.done (f a)
  | Run.aborted => Run.aborted
  | Run.diverged => Run.diverged

/-! ## The PCA9698 expander (`drivers/pca9698.c`)

The object behind the global pointer `pca_9698` is a state that is passed
along; the operations are given for an initialised expander (`pca_9698` not
`NULL`), so the call `if (!pca_9698) pca9698_setup();` at the head of each
operation does nothing. Calls to the mutex, to the transport and to the
registered callbacks are recorded in order. -/

/-- Modelled from the spec: `PCA9698_BANKS` of the missing `drivers/pca9698.h`,
the expander has 5 banks of 8 pins. -/
def PCA9698_BANKS : Nat := 5

/-- Modelled from the spec: `PCA9698_PINS` of the missing `drivers/pca9698.h`,
the size of the callback tables. -/
def PCA9698_PINS : Nat := 40

/-- Modelled from the spec: the macro `PCA9698_GPIO_BANK_NUM` of the missing
`drivers/pca9698.h`, the bank of a pin is `pin / 8`. -/
def PCA9698_GPIO_BANK_NUM (pin : Nat) : Nat := pin / 8

/-- Modelled from the spec: the macro `PCA9698_GPIO_BANK_POS` of the missing
`drivers/pca9698.h`, the bit of a pin in its bank is `pin mod 8`. -/
def PCA9698_GPIO_BANK_POS (pin : Nat) : Nat := pin % 8

/-- Modelled from the spec: the trigger kinds `gpio_int_type_t` of the vendor
header `driver/gpio.h`, which is not part of the sources. -/
inductive gpio_int_type_t where
  | GPIO_INTR_DISABLE
  | GPIO_INTR_POSEDGE
  | GPIO_INTR_NEGEDGE
  | GPIO_INTR_ANYEDGE
  | GPIO_INTR_LOW_LEVEL
  | GPIO_INTR_HIGH_LEVEL
  | GPIO_INTR_MAX
  deriving DecidableEq, Repr

/-- A call made by the expander driver: the recursive mutex, the two transport
functions, and a registered callback (with the pin it is registered for). -/
inductive PcaEvent where
  | lock
  | unlock
  | write_register (reg val : Nat)
  | read_all_register (reg : Nat)
  | isr_call (pin func args : Nat)
  deriving DecidableEq, Repr

/-- The structure `pca_9698_t`: direction and latch shadow of each bank, the
callback tables (a function pointer or argument is a number, `NULL` is 0), and
the record of the calls made. -/
structure pca_9698_t where
  direction : List Nat
  latch : List Nat
  isr_func : List Nat
  isr_args : List Nat
  isr_type : List gpio_int_type_t
  log : List PcaEvent
  deriving DecidableEq, Repr

/-- The object `calloc` returns in `pca9698_setup`: every byte zero. -/
def pca_9698_t.zero : pca_9698_t :=
  { direction := List.replicate PCA9698_BANKS 0,
    latch := List.replicate PCA9698_BANKS 0,
    isr_func := List.replicate PCA9698_PINS 0,
    isr_args := List.replicate PCA9698_PINS 0,
    isr_type := List.replicate PCA9698_PINS gpio_int_type_t.GPIO_INTR_DISABLE,
    log := [] }

/-- The tables of the object have the sizes of the arrays of `pca_9698_t`. -/
def pca_9698_t.wf (s : pca_9698_t) : Bool :=
  s.direction.length == PCA9698_BANKS && s.latch.length == PCA9698_BANKS
    && s.isr_func.length == PCA9698_PINS && s.isr_args.length == PCA9698_PINS
    && s.isr_type.length == PCA9698_PINS

/-- Embedding of `pca_9698_lock`. -/
def pca_9698_lock (s : pca_9698_t) : pca_9698_t :=
  { s with log := s.log ++ [PcaEvent.lock] }

/-- Embedding of `pca_9698_unlock`. -/
def pca_9698_unlock (s : pca_9698_t) : pca_9698_t :=
  { s with log := s.log ++ [PcaEvent.unlock] }

/-- Embedding of `pca9698_write_register(uint8_t reg, uint8_t val)`: the
transfer of the two bytes over the transport. The callers ignore the value
returned, and the outcome of the transfer is not represented. -/
def pca9698_write_register (s : pca_9698_t) (reg val : Nat) : pca_9698_t :=
  { s with log := s.log ++ [PcaEvent.write_register (reg % 256) (val % 256)] }

/-- Embedding of `pca9698_read_all_register(reg, pca_9698->latch)`: `read` is
the five bytes the expander returns, or `none` when the transport fails before
the read, in which case the latch is left as it is. -/
def pca9698_read_all_register (s : pca_9698_t) (reg : Nat) (read : Option (List Nat)) :
    pca_9698_t :=
  let s := { s with log := s.log ++ [PcaEvent.read_all_register (reg % 256)] }
  match read with
  | some bytes => { s with latch := (List.range 5).map (fun k => bytes.getD k 0 % 256) }
  | none => s

/-- The pin mask `(1 << PCA9698_GPIO_BANK_POS(pin))` stored in a `uint8_t`. -/
def pca_pinmask (pin : Nat) : Nat :=
  (1 <<< PCA9698_GPIO_BANK_POS pin) % 256

/-- The C expression `x & ~pinmask` on a `uint8_t` x, stored in a `uint8_t`:
`~pinmask` is computed on the promoted 32-bit value. -/
def u8_clear (x pinmask : Nat) : Nat :=
  (x &&& (4294967295 ^^^ pinmask)) % 256

/-- The C expression `x | pinmask` stored in a `uint8_t`. -/
def u8_set (x pinmask : Nat) : Nat :=
  (x ||| pinmask) % 256

/-- The C expression `(x & ~pinmask) | ((!(x & pinmask)) & pinmask)` stored in
a `uint8_t`; `!` is the logical negation, with value 0 or 1. -/
def u8_inv (x pinmask : Nat) : Nat :=
  ((x &&& (4294967295 ^^^ pinmask)) ||| ((if x &&& pinmask = 0 then 1 else 0) &&& pinmask))
    % 256

/-- The statement `pca_9698->direction[port] = v`. -/
def pca_9698_t.setDirection (s : pca_9698_t) (port v : Nat) : pca_9698_t :=
  { s with direction := s.direction.set port v }

/-- The statement `pca_9698->latch[port] = v`. -/
def pca_9698_t.setLatch (s : pca_9698_t) (port v : Nat) : pca_9698_t :=
  { s with latch := s.latch.set port v }

/-- Embedding of `pca_9698_pin_output_mask`. -/
def pca_9698_pin_output_mask (s : pca_9698_t) (port pinmask : Nat) : pca_9698_t :=
  -- Update direction. For output set bit to 0.
  let s := pca_9698_lock s
  let s := s.setDirection port (u8_clear (s.direction.getD port 0) pinmask)
  let s := pca_9698_unlock s
  pca9698_write_register s (0x18 + port) (s.direction.getD port 0)

/-- Embedding of `pca_9698_pin_input_mask`. -/
def pca_9698_pin_input_mask (s : pca_9698_t) (port pinmask : Nat) : pca_9698_t :=
  -- Update direction. For input set bit to 1.
  let s := pca_9698_lock s
  let s := s.setDirection port (u8_set (s.direction.getD port 0) pinmask)
  let s := pca_9698_unlock s
  pca9698_write_register s (0x18 + port) (s.direction.getD port 0)

/-- Embedding of `pca_9698_pin_set_mask`. -/
def pca_9698_pin_set_mask (s : pca_9698_t) (port pinmask : Nat) : pca_9698_t :=
  let s := pca_9698_lock s
  let s := s.setLatch port (u8_set (s.latch.getD port 0) pinmask)
  let s := pca_9698_unlock s
  pca9698_write_register s (0x08 + port) (s.latch.getD port 0)

/-- Embedding of `pca_9698_pin_clr_mask`. -/
def pca_9698_pin_clr_mask (s : pca_9698_t) (port pinmask : Nat) : pca_9698_t :=
  let s := pca_9698_lock s
  let s := s.setLatch port (u8_clear (s.latch.getD port 0) pinmask)
  let s := pca_9698_unlock s
  pca9698_write_register s (0x08 + port) (s.latch.getD port 0)

/-- Embedding of `pca_9698_pin_inv_mask`. -/
def pca_9698_pin_inv_mask (s : pca_9698_t) (port pinmask : Nat) : pca_9698_t :=
  let s := pca_9698_lock s
  let s := s.setLatch port (u8_inv (s.latch.getD port 0) pinmask)
  let s := pca_9698_unlock s
  pca9698_write_register s (0x08 + port) (s.latch.getD port 0)

/-- Embedding of `pca_9698_pin_get_mask`: the state and the value stored
through `value`. -/
def pca_9698_pin_get_mask (s : pca_9698_t) (port pinmask : Nat) : pca_9698_t × Nat :=
  let s := pca_9698_lock s
  let value := (s.latch.getD port 0 &&& pinmask) % 256
  (pca_9698_unlock s, value)

/-- Embedding of `pca_9698_pin_output`: the body is that of the mask form, on
the bank and the mask of the pin. -/
def pca_9698_pin_output (s : pca_9698_t) (pin : Nat) : pca_9698_t :=
  let port := PCA9698_GPIO_BANK_NUM pin
  let pinmask := pca_pinmask pin
  let s := pca_9698_lock s
  let s := s.setDirection port (u8_clear (s.direction.getD port 0) pinmask)
  let s := pca_9698_unlock s
  pca9698_write_register s (0x18 + port) (s.direction.getD port 0)

/-- Embedding of `pca_9698_pin_input`. -/
def pca_9698_pin_input (s : pca_9698_t) (pin : Nat) : pca_9698_t :=
  let port := PCA9698_GPIO_BANK_NUM pin
  let pinmask := pca_pinmask pin
  let s := pca_9698_lock s
  let s := s.setDirection port (u8_set (s.direction.getD port 0) pinmask)
  let s := pca_9698_unlock s
  pca9698_write_register s (0x18 + port) (s.direction.getD port 0)

/-- Embedding of `pca_9698_pin_set`. -/
def pca_9698_pin_set (s : pca_9698_t) (pin : Nat) : pca_9698_t :=
  let port := PCA9698_GPIO_BANK_NUM pin
  let pinmask := pca_pinmask pin
  let s := pca_9698_lock s
  let s := s.setLatch port (u8_set (s.latch.getD port 0) pinmask)
  let s := pca_9698_unlock s
  pca9698_write_register s (0x08 + port) (s.latch.getD port 0)

/-- Embedding of `pca_9698_pin_clr`. -/
def pca_9698_pin_clr (s : pca_9698_t) (pin : Nat) : pca_9698_t :=
  let port := PCA9698_GPIO_BANK_NUM pin
  let pinmask := pca_pinmask pin
  let s := pca_9698_lock s
  let s := s.setLatch port (u8_clear (s.latch.getD port 0) pinmask)
  let s := pca_9698_unlock s
  pca9698_write_register s (0x08 + port) (s.latch.getD port 0)

/-- Embedding of `pca_9698_pin_inv`. -/
def pca_9698_pin_inv (s : pca_9698_t) (pin : Nat) : pca_9698_t :=
  let port := PCA9698_GPIO_BANK_NUM pin
  let pinmask := pca_pinmask pin
  let s := pca_9698_lock s
  let s := s.setLatch port (u8_inv (s.latch.getD port 0) pinmask)
  let s := pca_9698_unlock s
  pca9698_write_register s (0x08 + port) (s.latch.getD port 0)

/-- Embedding of `pca_9698_pin_get`: the state and the value returned,
`((pca_9698->latch[port] & pinmask) != 0)`. -/
def pca_9698_pin_get (s : pca_9698_t) (pin : Nat) : pca_9698_t × Nat :=
  let port := PCA9698_GPIO_BANK_NUM pin
  let pinmask := pca_pinmask pin
  let s := pca_9698_lock s
  let val := if s.latch.getD port 0 &&& pinmask ≠ 0 then 1 else 0
  (pca_9698_unlock s, val)

/-- Embedding of `pca_9698_isr_attach`. -/
def pca_9698_isr_attach (s : pca_9698_t) (pin gpio_isr : Nat) (type : gpio_int_type_t)
    (args : Nat) : pca_9698_t :=
  let s := pca_9698_lock s
  let s :=
    if type = gpio_int_type_t.GPIO_INTR_DISABLE then
      { s with isr_func := s.isr_func.set pin 0, isr_args := s.isr_args.set pin 0 }
    else
      { s with isr_func := s.isr_func.set pin gpio_isr, isr_args := s.isr_args.set pin args }
  let s := { s with isr_type := s.isr_type.set pin type }
  pca_9698_unlock s

/-- Embedding of `pca_9698_isr_detach`. -/
def pca_9698_isr_detach (s : pca_9698_t) (pin : Nat) : pca_9698_t :=
  let s := pca_9698_lock s
  let s := { s with isr_func := s.isr_func.set pin 0, isr_args := s.isr_args.set pin 0 }
  pca_9698_unlock s

/-- The body of the two loops of `pca_9698_task` for bank `i` and bit `j`: the
callback invoked, if any. `latch` is the local copy of the latch taken before
the read, `s.latch` the latch just read. -/
def pca_9698_task_pin (s : pca_9698_t) (latch : List Nat) (i j : Nat) : List PcaEvent :=
  let pin := ((i <<< 3) + j) % 256
  let call := [PcaEvent.isr_call pin (s.isr_func.getD pin 0) (s.isr_args.getD pin 0)]
  if s.isr_func.getD pin 0 ≠ 0 then
    match s.isr_type.getD pin gpio_int_type_t.GPIO_INTR_DISABLE with
    | gpio_int_type_t.GPIO_INTR_DISABLE => []
    | gpio_int_type_t.GPIO_INTR_POSEDGE | gpio_int_type_t.GPIO_INTR_HIGH_LEVEL =>
      if s.latch.getD i 0 &&& (1 <<< j) ≠ 0 ∧ latch.getD i 0 &&& (1 <<< j) = 0 then call
      else []
    | gpio_int_type_t.GPIO_INTR_NEGEDGE | gpio_int_type_t.GPIO_INTR_LOW_LEVEL =>
      if s.latch.getD i 0 &&& (1 <<< j) = 0 ∧ latch.getD i 0 &&& (1 <<< j) ≠ 0 then call
      else []
    | gpio_int_type_t.GPIO_INTR_ANYEDGE =>
      if s.latch.getD i 0 &&& (1 <<< j) ≠ latch.getD i 0 &&& (1 <<< j) then call else []
    | gpio_int_type_t.GPIO_INTR_MAX => []
  else []

/-- The loops `for (i ...) for (j ...)` of `pca_9698_task`: the callbacks
invoked, in order. -/
def pca_9698_task_scan (s : pca_9698_t) (latch : List Nat) : List PcaEvent :=
  (List.range PCA9698_BANKS).flatMap
    (fun i => (List.range 8).flatMap (fun j => pca_9698_task_pin s latch i j))

/-- One iteration of the loop `for (;;)` of `pca_9698_task`, after
`xQueueReceive` has returned (one drain). The callbacks are taken to return
and to leave the expander as it is. -/
def pca_9698_task (s : pca_9698_t) (read : Option (List Nat)) : pca_9698_t :=
  let s := pca_9698_lock s
  -- Get current latch values
  let latch := s.latch
  -- Read all pins and latch
  let s := pca9698_read_all_register s 0 read
  -- Process interrupts
  let s := { s with log := s.log ++ pca_9698_task_scan s latch }
  pca_9698_unlock s

/-- The event is the invocation of the callback registered for the pin. -/
def PcaEvent.is_call_of (pin : Nat) : PcaEvent → Bool
  | PcaEvent.isr_call p _ _ => p == pin
  | _ => false

/-- The event is a write over the transport. -/
def PcaEvent.is_write : PcaEvent → Bool
  | PcaEvent.write_register _ _ => true
  | _ => false

/-- The nesting depth of the recursive mutex after a sequence of calls that
starts with the mutex free. -/
def pca_mutex_depth (es : List PcaEvent) : Nat :=
  es.foldl (fun d e =>
    match e with
    | PcaEvent.lock => d + 1
    | PcaEvent.unlock => d - 1
    | _ => d) 0

/-- The level of a pin in a latch: bit `pin mod 8` of the byte of bank
`pin / 8`. -/
def pca_bit (latch : List Nat) (pin : Nat) : Bool :=
  (latch.getD (pin / 8) 0).testBit (pin % 8)

/-- The trigger rule in the words of the specification: rising-edge and
high-level fire on a 0 to 1 transition, falling-edge and low-level on a 1 to 0
transition, any-edge on any change, the other kinds never. -/
def trigger_fires (k : gpio_int_type_t) (old new : Bool) : Bool :=
  match k with
  | gpio_int_type_t.GPIO_INTR_POSEDGE | gpio_int_type_t.GPIO_INTR_HIGH_LEVEL => !old && new
  | gpio_int_type_t.GPIO_INTR_NEGEDGE | gpio_int_type_t.GPIO_INTR_LOW_LEVEL => old && !new
  | gpio_int_type_t.GPIO_INTR_ANYEDGE => old != new
  | _ => false

/-- What a direction operation on bank `port` does: it takes and gives the
mutex, then writes register `0x18 + port` with the value `v`, which is the
new direction byte of the bank; the direction bytes of the other banks and the
latch are as before. -/
def pca_direction_op (s s' : pca_9698_t) (port v : Nat) : Prop :=
  s'.log = s.log ++ [PcaEvent.lock, PcaEvent.unlock, PcaEvent.write_register (0x18 + port) v]
  ∧ s'.direction.getD port 0 = v
  ∧ (∀ b < PCA9698_BANKS, b ≠ port → s'.direction.getD b 0 = s.direction.getD b 0)
  ∧ s'.latch = s.latch

/-- What a latch operation on bank `port` does: it takes and gives the mutex,
then writes register `0x08 + port` with the value `v`, which is the new latch
byte of the bank; the latch bytes of the other banks and the direction are as
before. -/
def pca_latch_op (s s' : pca_9698_t) (port v : Nat) : Prop :=
  s'.log = s.log ++ [PcaEvent.lock, PcaEvent.unlock, PcaEvent.write_register (0x08 + port) v]
  ∧ s'.latch.getD port 0 = v
  ∧ (∀ b < PCA9698_BANKS, b ≠ port → s'.latch.getD b 0 = s.latch.getD b 0)
  ∧ s'.direction = s.direction

/-- The latch after a read of all registers that returns `bytes`. -/
def pca_read_latch (bytes : List Nat) : List Nat :=
  (pca9698_read_all_register pca_9698_t.zero 0 (some bytes)).latch

/-- The invocations of the callback of a pin in one drain of the worker task
in which the expander returns `bytes`: the calls added to the record that are
calls of the callback registered for the pin. -/
def pca_9698_task_calls (s : pca_9698_t) (bytes : List Nat) (pin : Nat) : List PcaEvent :=
  ((pca_9698_task s (some bytes)).log.drop s.log.length).filter (PcaEvent.is_call_of pin)

/-! ## Register snapshots and the last-resident device -/

/-- The states reachable from `_spi_init` by calls of `spi_ll_setup` (on a
valid unit), `spi_ll_select`, `spi_ll_deselect`, `spi_ll_set_speed` and
`spi_ll_unsetup`, the last four with a device id that an earlier call of
`spi_ll_setup` has stored; the list holds the ids stored so far. -/
inductive LlReach (bd : Board) : World → List Int → Prop where
  | init (hw2 hw3 : SpiRegs) (foreign : List Int) :
      LlReach bd (spi_init bd hw2 hw3 foreign) []
  | setup (w : World) (ids : List Int) (unit master : Nat) (cs : Int)
      (mode speed flags : Nat) (ret : Int) (id : Option Int) (w' : World)
      (h : LlReach bd w ids) (hu : spi_unit_ok unit = true)
      (hs : spi_ll_setup bd w unit master cs mode speed flags = some (ret, id, w')) :
      LlReach bd w' (id.toList ++ ids)
  | select (w : World) (ids : List Int) (deviceid : Int)
      (h : LlReach bd w ids) (hid : deviceid ∈ ids) :
      LlReach bd (spi_ll_select w deviceid) ids
  | deselect (w : World) (ids : List Int) (deviceid : Int)
      (h : LlReach bd w ids) (hid : deviceid ∈ ids) :
      LlReach bd (spi_ll_deselect w deviceid) ids
  | set_speed (w : World) (ids : List Int) (deviceid : Int) (speed : Nat) (w' : World)
      (h : LlReach bd w ids) (hid : deviceid ∈ ids)
      (hs : spi_ll_set_speed bd w deviceid speed = some w') :
      LlReach bd w' ids
  | unsetup (w : World) (ids : List Int) (deviceid : Int)
      (h : LlReach bd w ids) (hid : deviceid ∈ ids) :
      LlReach bd (spi_ll_unsetup w deviceid) ids

/-- Register-cache coherence of a unit: when the last-resident device of the
bus is not -1, the 14 registers of the unit are the snapshot saved in the slot
of that device. -/
def World.coherent (w : World) (unit : Nat) : Prop :=
  (w.getBus unit).last_device ≠ -1 →
    w.getHw unit = ((w.getBus unit).dev (id_device (w.getBus unit).last_device)).regs

/-- How an operation on a unit may change its bus entry: the device array
keeps its size, and the last-resident device is kept or invalidated. -/
def bus_local (b b' : SpiBus) : Prop :=
  b'.device.length = b.device.length
    ∧ (b'.last_device = b.last_device ∨ b'.last_device = -1)

/-- An operation on a unit leaves the sizes of the tables, and the bus entry
and the registers of every other unit, as they are. -/
def World.local_to (unit : Nat) (w w' : World) : Prop :=
  w'.bus.length = w.bus.length ∧ w'.hw.length = w.hw.length
    ∧ bus_local (w.getBus unit) (w'.getBus unit)
    ∧ ∀ u, spi_idx u ≠ spi_idx unit → w'.getBus u = w.getBus u ∧ w'.getHw u = w.getHw u

/-- No slot of any bus has its configured flag set. -/
def World.no_setup_flag (w : World) : Prop :=
  ∀ u i, ((w.getBus u).dev i).setup = false

/-- The invariant of the states of `LlReach`: tables of the declared sizes, no
configured flag set, every id stored so far names a valid unit and slot 0, and
on each unit a last-resident device other than -1 names slot 0, whose snapshot
the registers of the unit equal. -/
def LlInv (w : World) (ids : List Int) : Prop :=
  w.bus.length = 2 ∧ w.hw.length = 2
    ∧ (∀ u, spi_unit_ok u = true → (w.getBus u).device.length = SPI_BUS_DEVICES)
    ∧ w.no_setup_flag
    ∧ (∀ id ∈ ids, spi_unit_ok (id_unit id) = true ∧ id_device id = 0)
    ∧ (∀ u, spi_unit_ok u = true → (w.getBus u).last_device ≠ -1 →
        id_device (w.getBus u).last_device = 0 ∧ w.getHw u = ((w.getBus u).dev 0).regs)

/-- An operation on a unit leaves the sizes of the tables and of the device
array of the unit, and the bus entry and the registers of every other unit, as
they are. -/
def World.frame_to (unit : Nat) (w w' : World) : Prop :=
  w'.bus.length = w.bus.length ∧ w'.hw.length = w.hw.length
    ∧ (w'.getBus unit).device.length = (w.getBus unit).device.length
    ∧ ∀ u, spi_idx u ≠ spi_idx unit → w'.getBus u = w.getBus u ∧ w'.getHw u = w.getHw u

/-! ## States in which the last-resident device is stale -/

/-- The state `spi_ll_setup` leaves; the state given when `spi_set_clock`
divides by zero. -/
def spi_ll_setup_state (bd : Board) (w : World) (unit master : Nat) (cs : Int)
    (mode speed flags : Nat) : World :=
  match spi_ll_setup bd w unit master cs mode speed flags with
  | some (_, _, w') => w'
  | none => w

/-- The state after `_spi_init`, `spi_ll_select(0x201)` and
`spi_ll_setup(2, 1, 15, 0, 1000000, 7)` on the ESP32 board. -/
def esp32_select_then_setup : World :=
  spi_ll_setup_state esp32_board (spi_ll_select esp32_init 513) 2 1 15 0 1000000 7

/-- The state after `_spi_init` and `spi_ll_setup(2, 1, 15, 0, 1000000, 7)` on
the ESP32 board, with the configured flag of the slot the call used (slot 0)
set, which no code path does. -/
def esp32_first_device : World :=
  (spi_ll_setup_state esp32_board esp32_init 2 1 15 0 1000000 7).withDevice 2 0 15

/-- The state after `spi_ll_select(0x200)`, `spi_ll_deselect(0x200)` and
`spi_ll_setup(2, 1, 16, 3, 2000000, 7)` from `esp32_first_device`: a second
device, with chip-select 16 and mode 3, set up while the first is the
last-resident one. -/
def esp32_second_device : World :=
  spi_ll_setup_state esp32_board
    (spi_ll_deselect (spi_ll_select esp32_first_device 512) 512) 2 1 16 3 2000000 7

/-! ## Properties of the clock divisor synthesis -/

theorem wrapInt32_of_range (x : Int) (h1 : -2147483648 ≤ x) (h2 : x ≤ 2147483647) :
    wrapInt32 x = x := by
  unfold wrapInt32
  omega

theorem c_abs_of_range (x : Int) (h1 : -2147483647 ≤ x) (h2 : x ≤ 2147483647) :
    c_abs x = |x| := by
  unfold c_abs
  split
  · rw [wrapInt32_of_range _ (by omega) (by omega), abs_of_neg (by assumption)]
  · rw [abs_of_nonneg (by omega)]

theorem spi_pre_for_range (fapb hz n : Int) :
    1 ≤ spi_pre_for fapb hz n ∧ spi_pre_for fapb hz n ≤ 8192 := by
  unfold spi_pre_for
  simp only []
  split_ifs <;> omega

theorem spi_clock_search_upto_succ (fapb hz : Int) (k : Nat) :
    spi_clock_search_upto fapb hz (k + 1)
      = spi_clock_step fapb hz (spi_clock_search_upto fapb hz k) (1 + k) := by
  unfold spi_clock_search_upto
  rw [List.range'_concat, List.foldl_append]
  simp

theorem spi_search_inv_upto (fapb hz : Int) (k : Nat) :
    spi_search_inv fapb hz (k + 1) (spi_clock_search_upto fapb hz (k + 1)) := by
  induction k with
  | zero =>
    refine ⟨1, le_refl _, le_refl _, ?_⟩
    simp [spi_clock_search_upto, spi_clock_step, List.range']
    refine ⟨?_, ?_⟩
    · intro m h1 h2
      have : m = 1 := by omega
      subst this; simp
    · intro m h1 h2; omega
  | succ k ih =>
    rw [spi_clock_search_upto_succ]
    obtain ⟨n, hn1, hnk, hbn, hbp, hbe, hmin, hlast⟩ := ih
    unfold spi_clock_step
    simp only []
    by_cases hc : (spi_clock_search_upto fapb hz (k + 1)).bestn = -1 ∨
        spi_err_for fapb hz ((1 + (k + 1) : Nat) : Int)
          ≤ (spi_clock_search_upto fapb hz (k + 1)).besterr
    · rw [if_pos hc]
      have hle : spi_err_for fapb hz ((1 + (k + 1) : Nat) : Int) ≤ spi_err_for fapb hz n := by
        rcases hc with hc | hc
        · rw [hbn] at hc; omega
        · rw [hbe] at hc; exact hc
      refine ⟨1 + (k + 1), by omega, by omega, rfl, rfl, rfl, ?_, ?_⟩
      · intro m h1 h2
        by_cases hm : m = 1 + (k + 1)
        · subst hm; exact le_refl _
        · exact le_trans hle (hmin m h1 (by omega))
      · intro m h1 h2; omega
    · rw [if_neg hc]
      have hlt : spi_err_for fapb hz n < spi_err_for fapb hz ((1 + (k + 1) : Nat) : Int) := by
        have := fun h => hc (Or.inr h)
        rw [hbe] at this
        omega
      refine ⟨n, hn1, by omega, hbn, hbp, hbe, ?_, ?_⟩
      · intro m h1 h2
        by_cases hm : m = 1 + (k + 1)
        · subst hm; exact le_of_lt hlt
        · exact hmin m h1 (by omega)
      · intro m h1 h2
        by_cases hm : m = 1 + (k + 1)
        · subst hm; exact hlt
        · exact hlast m h1 (by omega)

theorem spi_clock_search_inv (fapb hz : Int) :
    spi_search_inv fapb hz 64 (spi_clock_search fapb hz) :=
  spi_search_inv_upto fapb hz 63


theorem spi_high_for_eq (duty n : Int) (hd0 : 0 ≤ duty) (hd1 : duty ≤ 255)
    (hn0 : 1 ≤ n) (hn1 : n ≤ 64) :
    spi_high_for duty n = max 1 ((duty * n + 127) / 256)
      ∧ 1 ≤ spi_high_for duty n ∧ spi_high_for duty n ≤ n := by
  have hp0 : 0 ≤ duty * n := mul_nonneg hd0 (by omega)
  have hp1 : duty * n ≤ 255 * n := mul_le_mul_of_nonneg_right hd1 (by omega)
  unfold spi_high_for
  rw [wrapInt32_of_range (duty * n) (by omega) (by omega),
    wrapInt32_of_range (duty * n + 127) (by omega) (by omega),
    Int.tdiv_eq_ediv (by omega) (by omega)]
  simp only []
  generalize duty * n = p at *
  split_ifs <;> omega

theorem spi_not_bypass (fapb hz : Int) (hf0 : 0 < fapb) (hf1 : fapb ≤ 2147483647)
    (hz1 : hz ≤ fapb / 4 * 3) : ¬ hz > wrapInt32 (Int.tdiv fapb 4 * 3) := by
  rw [Int.tdiv_eq_ediv (by omega) (by omega), wrapInt32_of_range _ (by omega) (by omega)]
  omega

/-- The shape of the result of `spi_set_clock` in the divided (non-bypass) case. -/
theorem spi_set_clock_divided (fapb hz duty : Int) (hf0 : 0 < fapb)
    (hf1 : fapb ≤ 2147483647) (hz0 : 1 ≤ hz) (hz1 : hz ≤ fapb / 4 * 3)
    (hd0 : 0 ≤ duty) (hd1 : duty ≤ 255) :
    ∃ pre n h : Nat, (1 ≤ pre ∧ pre ≤ 8192) ∧ (1 ≤ n ∧ n ≤ 64) ∧ (1 ≤ h ∧ h ≤ n)
      ∧ (n : Int) = (spi_clock_search fapb hz).bestn
      ∧ (pre : Int) = (spi_clock_search fapb hz).bestpre
      ∧ (pre : Int) = spi_pre_for fapb hz n
      ∧ (h : Int) = spi_high_for duty n
      ∧ spi_set_clock fapb hz duty
        = some ((pre - 1) * 2 ^ 18 + (n - 1) * 2 ^ 12 + (h - 1) * 2 ^ 6 + (n - 1),
            (fapb / ((pre : Int) * n)).toNat) := by
  obtain ⟨n, hn1, hn64, hbn, hbp, -, -, -⟩ := spi_clock_search_inv fapb hz
  obtain ⟨hp1, hp2⟩ := spi_pre_for_range fapb hz n
  obtain ⟨hh, hh1, hh2⟩ := spi_high_for_eq duty n hd0 hd1 (by omega) (by omega)
  obtain ⟨pre, hpre⟩ : ∃ pre : Nat, (pre : Int) = spi_pre_for fapb hz n :=
    ⟨(spi_pre_for fapb hz n).toNat, by omega⟩
  obtain ⟨h, hh'⟩ : ∃ h : Nat, (h : Int) = spi_high_for duty n :=
    ⟨(spi_high_for duty n).toNat, by omega⟩
  have hprod0 : (1 : Int) ≤ (pre : Int) * n := by
    have : (1 : Int) * 1 ≤ (pre : Int) * n := mul_le_mul (by omega) (by omega) (by omega) (by omega)
    omega
  have hprod1 : (pre : Int) * n ≤ 8192 * 64 :=
    mul_le_mul (by omega) (by omega) (by omega) (by omega)
  have hq0 : 0 ≤ fapb / ((pre : Int) * n) := Int.ediv_nonneg (by omega) (by omega)
  have hq1 : fapb / ((pre : Int) * n) ≤ fapb := Int.ediv_le_self _ (by omega)
  refine ⟨pre, n, h, ⟨by omega, by omega⟩, ⟨hn1, hn64⟩, ⟨by omega, by omega⟩,
    hbn.symm, by rw [hbp, hpre], hpre, hh', ?_⟩
  unfold spi_set_clock
  rw [if_neg (spi_not_bypass fapb hz hf0 hf1 hz1), if_neg (by omega)]
  simp only [hbn, hbp, ← hpre, ← hh']
  unfold spi_freq_for_pre_n
  rw [wrapInt32_of_range _ (by omega) (by omega), Int.tdiv_eq_ediv (by omega) (by omega)]
  refine congrArg some (Prod.ext ?_ ?_)
  · simp only [spiClk_t.regValue, toBitField]
    have e1 : (((n : Int) - 1) % ((2 ^ 6 : Nat) : Int)).toNat = n - 1 := by
      norm_num; omega
    have e2 : (((h : Int) - 1) % ((2 ^ 6 : Nat) : Int)).toNat = h - 1 := by
      norm_num; omega
    have e3 : (((pre : Int) - 1) % ((2 ^ 13 : Nat) : Int)).toNat = pre - 1 := by
      norm_num; omega
    rw [e1, e2, e3]
    norm_num
    omega
  · simp only [toUInt32]
    rw [Int.emod_eq_of_lt hq0 (by omega)]


theorem spi_pre_err_exact (fapb hz : Int) (m : Nat) (hf0 : 0 < fapb)
    (hz0 : 1 ≤ hz) (hz1 : hz ≤ fapb / 4 * 3) (hov : fapb + hz / 2 ≤ 2147483647)
    (hm0 : 1 ≤ m) (hm64 : m ≤ 64) :
    spi_pre_for fapb hz m = max 1 (min 8192 ((fapb / m + hz / 2) / hz))
      ∧ spi_err_for fapb hz m = |fapb / (spi_pre_for fapb hz m * m) - hz| := by
  have hm : (1 : Int) ≤ (m : Int) := by exact_mod_cast hm0
  have hq0 : 0 ≤ fapb / (m : Int) := Int.ediv_nonneg (by omega) (by omega)
  have hq1 : fapb / (m : Int) ≤ fapb := Int.ediv_le_self _ (by omega)
  have hs0 : 0 ≤ (fapb / (m : Int) + hz / 2) / hz := Int.ediv_nonneg (by omega) (by omega)
  obtain ⟨hp1, hp2⟩ := spi_pre_for_range fapb hz m
  have e1 : Int.tdiv fapb (m : Int) = fapb / (m : Int) :=
    Int.tdiv_eq_ediv (by omega) (by omega)
  have e2 : Int.tdiv hz 2 = hz / 2 := Int.tdiv_eq_ediv (by omega) (by omega)
  constructor
  · unfold spi_pre_for
    rw [e1, e2, wrapInt32_of_range _ (by omega) (by omega),
      Int.tdiv_eq_ediv (by omega) (by omega)]
    simp only []
    generalize (fapb / (m : Int) + hz / 2) / hz = q at *
    split_ifs <;> omega
  · have hprod0 : (1 : Int) ≤ spi_pre_for fapb hz m * m := by
      have : (1 : Int) * 1 ≤ spi_pre_for fapb hz m * m :=
        mul_le_mul hp1 hm (by omega) (by omega)
      omega
    have hprod1 : spi_pre_for fapb hz m * m ≤ 8192 * m :=
      mul_le_mul_of_nonneg_right hp2 (by omega)
    have hr0 : 0 ≤ fapb / (spi_pre_for fapb hz m * m) := Int.ediv_nonneg (by omega) (by omega)
    have hr1 : fapb / (spi_pre_for fapb hz m * m) ≤ fapb := Int.ediv_le_self _ (by omega)
    unfold spi_err_for spi_freq_for_pre_n
    rw [wrapInt32_of_range (spi_pre_for fapb hz m * m) (by omega) (by omega),
      Int.tdiv_eq_ediv (by omega) (by omega),
      wrapInt32_of_range _ (by omega) (by omega), c_abs_of_range _ (by omega) (by omega)]

/-- Claim C1. For a source frequency `fapb > 0` and a target `hz` above
three quarters of it (any duty value) `spi_set_clock` returns the bypass word
`0x80000000`: bit 31 set, the fields pre, n, h and l all zero; the effective
frequency it reports is `fapb`. -/
theorem spi_set_clock_bypass (fapb hz duty : Int) (hf0 : 0 < fapb)
    (hf1 : fapb ≤ 2147483647) (hhz : 3 * fapb < 4 * hz) :
    ∃ w eff, spi_set_clock fapb hz duty = some (w, eff) ∧ w = 0x80000000
      ∧ clk_equ w = 1 ∧ clk_pre w = 0 ∧ clk_n w = 0 ∧ clk_h w = 0 ∧ clk_l w = 0
      ∧ (eff : Int) = fapb := by
  have hc : hz > wrapInt32 (Int.tdiv fapb 4 * 3) := by
    rw [Int.tdiv_eq_ediv (by omega) (by omega), wrapInt32_of_range _ (by omega) (by omega)]
    omega
  refine ⟨0x80000000, fapb.toNat, ?_, rfl, by decide, by decide, by decide, by decide,
    by decide, by omega⟩
  unfold spi_set_clock
  rw [if_pos hc]
  refine congrArg some (Prod.ext ?_ ?_)
  · simp [spiClk_t.regValue]
  · simp only [toUInt32]
    rw [Int.emod_eq_of_lt (by omega) (by omega)]

/-- Instance of claim C1 at `fapb = hz = 80,000,000`. -/
theorem spi_set_clock_bypass_witness :
    ∃ w eff, spi_set_clock 80000000 80000000 128 = some (w, eff) ∧ w = 0x80000000
      ∧ clk_equ w = 1 ∧ clk_pre w = 0 ∧ clk_n w = 0 ∧ clk_h w = 0 ∧ clk_l w = 0
      ∧ (eff : Int) = 80000000 :=
  spi_set_clock_bypass 80000000 80000000 128 (by decide) (by decide) (by decide)


/-- Decoding a word assembled from four in-range fields gives the fields back. -/
theorem clk_decode (a b c d : Nat) (ha : a < 8192) (hb : b < 64) (hc : c < 64)
    (hd : d < 64) :
    clk_equ (a * 2 ^ 18 + b * 2 ^ 12 + c * 2 ^ 6 + d) = 0
      ∧ clk_pre (a * 2 ^ 18 + b * 2 ^ 12 + c * 2 ^ 6 + d) = a
      ∧ clk_n (a * 2 ^ 18 + b * 2 ^ 12 + c * 2 ^ 6 + d) = b
      ∧ clk_h (a * 2 ^ 18 + b * 2 ^ 12 + c * 2 ^ 6 + d) = c
      ∧ clk_l (a * 2 ^ 18 + b * 2 ^ 12 + c * 2 ^ 6 + d) = d := by
  unfold clk_equ clk_pre clk_n clk_h clk_l
  norm_num
  have h1 : (a * 262144 + b * 4096 + c * 64 + d) / 2147483648 = 0 := by omega
  have h2 : (a * 262144 + b * 4096 + c * 64 + d) / 262144 = a := by omega
  have h3 : (a * 262144 + b * 4096 + c * 64 + d) / 4096 = a * 64 + b := by omega
  have h4 : (a * 262144 + b * 4096 + c * 64 + d) / 64 = a * 4096 + b * 64 + c := by omega
  rw [h1, h2, h3, h4]
  omega

theorem spi_set_clock_divided_freq (fapb hz duty : Int) (hf0 : 0 < fapb)
    (hf1 : fapb ≤ 2147483647) (hz0 : 1 ≤ hz) (hz1 : hz ≤ fapb / 4 * 3)
    (hd0 : 0 ≤ duty) (hd1 : duty ≤ 255) :
    ∃ w eff, spi_set_clock fapb hz duty = some (w, eff) ∧ clk_equ w = 0
      ∧ (eff : Int) = fapb / (((clk_pre w + 1) * (clk_n w + 1) : Nat) : Int) := by
  obtain ⟨pre, n, h, ⟨hp0, hp1⟩, ⟨hn0, hn1⟩, ⟨hh0, hh1⟩, -, -, -, -, heq⟩ :=
    spi_set_clock_divided fapb hz duty hf0 hf1 hz0 hz1 hd0 hd1
  obtain ⟨d0, d1, d2, -, -⟩ := clk_decode (pre - 1) (n - 1) (h - 1) (n - 1)
    (by omega) (by omega) (by omega) (by omega)
  refine ⟨_, _, heq, d0, ?_⟩
  rw [d1, d2, Nat.sub_add_cancel hp0, Nat.sub_add_cancel hn0]
  have hprod0 : (0 : Int) ≤ (pre : Int) * n := by positivity
  have hq0 : 0 ≤ fapb / ((pre : Int) * n) := Int.ediv_nonneg (by omega) hprod0
  rw [Int.toNat_of_nonneg hq0]
  push_cast
  rfl

set_option maxRecDepth 100000 in
/-- Claim C2. In the divided case (`fapb > 0`, `1 ≤ hz ≤ (fapb/4)*3`, duty in
`[0,255]`) the word returned by `spi_set_clock` has the bypass bit clear and
the reported effective frequency is `fapb / (pre*n)`, with `pre-1` and `n-1`
the 13-bit and 6-bit fields decoded from the word. For `fapb = 80,000,000`,
`hz = 1,000,000`, `duty = 128` the reported frequency is exactly 1,000,000. -/
theorem spi_set_clock_effective_freq :
    (∀ fapb hz duty : Int, 0 < fapb → fapb ≤ 2147483647 → 1 ≤ hz → hz ≤ fapb / 4 * 3 →
      0 ≤ duty → duty ≤ 255 →
      ∃ w eff, spi_set_clock fapb hz duty = some (w, eff) ∧ clk_equ w = 0
        ∧ (eff : Int) = fapb / (((clk_pre w + 1) * (clk_n w + 1) : Nat) : Int))
    ∧ (∃ w, spi_set_clock 80000000 1000000 128 = some (w, 1000000) ∧ clk_equ w = 0
        ∧ 80000000 / ((clk_pre w + 1) * (clk_n w + 1)) = 1000000) :=
  ⟨spi_set_clock_divided_freq, 423143, by decide, by decide, by decide⟩

/-- Instance of claim C2 at `fapb = 80,000,000`, `hz = 1,000,000`, `duty = 128`. -/
theorem spi_set_clock_effective_freq_witness :
    ∃ w eff, spi_set_clock 80000000 1000000 128 = some (w, eff) ∧ clk_equ w = 0
      ∧ (eff : Int) = 80000000 / (((clk_pre w + 1) * (clk_n w + 1) : Nat) : Int) :=
  spi_set_clock_effective_freq.1 80000000 1000000 128 (by decide) (by decide) (by decide)
    (by decide) (by decide) (by decide)

/-- Claim C3. In the divided case the divisor `n` encoded by `spi_set_clock`
minimises the error computed by the search loop over all `n` in `[1,64]`, and
is the largest `n` in `[1,64]` attaining that minimum. The error of the loop
is `|fapb/(pre(n)*n) - hz|` with `pre(n) = ((fapb/n) + hz/2)/hz` clamped to
`[1,8192]`, whenever `fapb + hz/2` is representable as an `int`. -/
theorem spi_set_clock_best_n (fapb hz duty : Int) (hf0 : 0 < fapb)
    (hf1 : fapb ≤ 2147483647) (hz0 : 1 ≤ hz) (hz1 : hz ≤ fapb / 4 * 3)
    (hd0 : 0 ≤ duty) (hd1 : duty ≤ 255) :
    ∃ w eff, spi_set_clock fapb hz duty = some (w, eff)
      ∧ ((clk_n w + 1 : Nat) : Int) = (spi_clock_search fapb hz).bestn
      ∧ 1 ≤ clk_n w + 1 ∧ clk_n w + 1 ≤ 64
      ∧ (∀ m : Nat, 1 ≤ m → m ≤ 64 →
          spi_err_for fapb hz (clk_n w + 1 : Nat) ≤ spi_err_for fapb hz m)
      ∧ (∀ m : Nat, 1 ≤ m → m ≤ 64 →
          spi_err_for fapb hz m = spi_err_for fapb hz (clk_n w + 1 : Nat) → m ≤ clk_n w + 1)
      ∧ (fapb + hz / 2 ≤ 2147483647 → ∀ m : Nat, 1 ≤ m → m ≤ 64 →
          spi_pre_for fapb hz m = max 1 (min 8192 ((fapb / m + hz / 2) / hz))
            ∧ spi_err_for fapb hz m = |fapb / (spi_pre_for fapb hz m * m) - hz|) := by
  obtain ⟨pre, n, h, ⟨hp0, hp1⟩, ⟨hn0, hn1⟩, ⟨hh0, hh1⟩, hbn, -, -, -, heq⟩ :=
    spi_set_clock_divided fapb hz duty hf0 hf1 hz0 hz1 hd0 hd1
  obtain ⟨n', -, -, hbn', -, -, hmin, hlast⟩ := spi_clock_search_inv fapb hz
  have hnn : n' = n := by
    have : (n' : Int) = n := by rw [hbn, hbn']
    exact_mod_cast this
  subst hnn
  obtain ⟨-, -, d2, -, -⟩ := clk_decode (pre - 1) (n' - 1) (h - 1) (n' - 1)
    (by omega) (by omega) (by omega) (by omega)
  refine ⟨_, _, heq, ?_⟩
  rw [d2, Nat.sub_add_cancel hn0]
  refine ⟨hbn, hn0, hn1, hmin, ?_, ?_⟩
  · intro m hm0 hm1 he
    by_contra hlt
    have := hlast m (by omega) hm1
    omega
  · intro hov m hm0 hm1
    exact spi_pre_err_exact fapb hz m hf0 hz0 hz1 hov hm0 hm1

set_option maxRecDepth 100000 in
/-- Instance of claim C3 at `fapb = 80,000,000`, `hz = 1,000,000`, `duty = 128`:
the chosen divisor is `n = 40` (with `pre = 2`, error 0); `n = 80` would be the
next divisor giving error 0 and lies outside `[1,64]`. -/
theorem spi_set_clock_best_n_witness :
    (∃ w eff, spi_set_clock 80000000 1000000 128 = some (w, eff)
      ∧ ((clk_n w + 1 : Nat) : Int) = (spi_clock_search 80000000 1000000).bestn
      ∧ 1 ≤ clk_n w + 1 ∧ clk_n w + 1 ≤ 64
      ∧ (∀ m : Nat, 1 ≤ m → m ≤ 64 →
          spi_err_for 80000000 1000000 (clk_n w + 1 : Nat) ≤ spi_err_for 80000000 1000000 m)
      ∧ (∀ m : Nat, 1 ≤ m → m ≤ 64 →
          spi_err_for 80000000 1000000 m = spi_err_for 80000000 1000000 (clk_n w + 1 : Nat)
            → m ≤ clk_n w + 1)
      ∧ ((80000000 : Int) + 1000000 / 2 ≤ 2147483647 → ∀ m : Nat, 1 ≤ m → m ≤ 64 →
          spi_pre_for 80000000 1000000 m
              = max 1 (min 8192 (((80000000 : Int) / m + 1000000 / 2) / 1000000))
            ∧ spi_err_for 80000000 1000000 m
              = |80000000 / (spi_pre_for 80000000 1000000 m * m) - 1000000|))
    ∧ (spi_clock_search 80000000 1000000).bestn = 40 :=
  ⟨spi_set_clock_best_n 80000000 1000000 128 (by decide) (by decide) (by decide)
    (by decide) (by decide) (by decide), by decide⟩


set_option maxRecDepth 100000 in
/-- Claim C4, as stated, fails: for `fapb = 80,000,000`, `hz = 1,000,000` and
`duty = 7` the winning divisor is `n = 40`, the encoded high-phase width is
`h = 1`, whereas `max(1, ceil(7*40/256)) = 2` (the ceiling of `x/256` written
`(x + 255) / 256`). -/
theorem spi_set_clock_high_not_ceil :
    ∃ w eff, spi_set_clock 80000000 1000000 7 = some (w, eff)
      ∧ clk_n w + 1 = 40 ∧ clk_h w + 1 = 1 ∧ clk_l w + 1 = 40
      ∧ max 1 ((7 * (clk_n w + 1) + 255) / 256) = 2
      ∧ clk_h w + 1 ≠ max 1 ((7 * (clk_n w + 1) + 255) / 256) :=
  ⟨421927, 1000000, by decide, by decide, by decide, by decide, by decide, by decide⟩

/-- Claim C4, amended. In the divided case, for every duty in `[0,255]` and the
winning divisor `n`, the high-phase width encoded by `spi_set_clock` is
`h = max(1, (duty*n + 127) / 256)` (integer division: `duty*n/256` rounded to
the nearest integer, halves rounded down) and the low-phase width is `l = n`. -/
theorem spi_set_clock_high_low (fapb hz duty : Int) (hf0 : 0 < fapb)
    (hf1 : fapb ≤ 2147483647) (hz0 : 1 ≤ hz) (hz1 : hz ≤ fapb / 4 * 3)
    (hd0 : 0 ≤ duty) (hd1 : duty ≤ 255) :
    ∃ w eff, spi_set_clock fapb hz duty = some (w, eff)
      ∧ ((clk_n w + 1 : Nat) : Int) = (spi_clock_search fapb hz).bestn
      ∧ ((clk_h w + 1 : Nat) : Int) = max 1 ((duty * (clk_n w + 1 : Nat) + 127) / 256)
      ∧ clk_l w + 1 = clk_n w + 1 := by
  obtain ⟨pre, n, h, ⟨hp0, hp1⟩, ⟨hn0, hn1⟩, ⟨hh0, hh1⟩, hbn, -, -, hh, heq⟩ :=
    spi_set_clock_divided fapb hz duty hf0 hf1 hz0 hz1 hd0 hd1
  obtain ⟨-, -, d2, d3, d4⟩ := clk_decode (pre - 1) (n - 1) (h - 1) (n - 1)
    (by omega) (by omega) (by omega) (by omega)
  refine ⟨_, _, heq, ?_⟩
  rw [d2, d3, d4, Nat.sub_add_cancel hn0, Nat.sub_add_cancel hh0]
  exact ⟨hbn, by rw [hh, (spi_high_for_eq duty n hd0 hd1 (by omega) (by omega)).1], rfl⟩

/-- Instance of the amended claim C4 at `fapb = 80,000,000`, `hz = 1,000,000`,
`duty = 7`. -/
theorem spi_set_clock_high_low_witness :
    ∃ w eff, spi_set_clock 80000000 1000000 7 = some (w, eff)
      ∧ ((clk_n w + 1 : Nat) : Int) = (spi_clock_search 80000000 1000000).bestn
      ∧ ((clk_h w + 1 : Nat) : Int) = max 1 (((7 : Int) * (clk_n w + 1 : Nat) + 127) / 256)
      ∧ clk_l w + 1 = clk_n w + 1 :=
  spi_set_clock_high_low 80000000 1000000 7 (by decide) (by decide) (by decide)
    (by decide) (by decide) (by decide)

/-- Claim C5. In the divided case the word returned by `spi_set_clock` is
`(pre-1)*2^18 + (n-1)*2^12 + (h-1)*2^6 + (l-1)` with bit 31 clear, where
`pre`, `n`, `h`, `l` are the values computed by the function and satisfy
`1 ≤ pre ≤ 8192` and `1 ≤ h ≤ l = n ≤ 64`; each of them is recovered exactly by
decoding its bit field (13, 6, 6 and 6 bits below the bypass bit). -/
theorem spi_set_clock_encoding (fapb hz duty : Int) (hf0 : 0 < fapb)
    (hf1 : fapb ≤ 2147483647) (hz0 : 1 ≤ hz) (hz1 : hz ≤ fapb / 4 * 3)
    (hd0 : 0 ≤ duty) (hd1 : duty ≤ 255) :
    ∃ pre n h l w eff : Nat, spi_set_clock fapb hz duty = some (w, eff)
      ∧ (pre : Int) = (spi_clock_search fapb hz).bestpre
      ∧ (n : Int) = (spi_clock_search fapb hz).bestn
      ∧ (h : Int) = spi_high_for duty n
      ∧ l = n
      ∧ (1 ≤ pre ∧ pre ≤ 8192) ∧ (1 ≤ h ∧ h ≤ l ∧ n ≤ 64)
      ∧ w = (pre - 1) * 2 ^ 18 + (n - 1) * 2 ^ 12 + (h - 1) * 2 ^ 6 + (l - 1)
      ∧ w < 2 ^ 31 ∧ clk_equ w = 0
      ∧ clk_pre w + 1 = pre ∧ clk_n w + 1 = n ∧ clk_h w + 1 = h ∧ clk_l w + 1 = l := by
  obtain ⟨pre, n, h, ⟨hp0, hp1⟩, ⟨hn0, hn1⟩, ⟨hh0, hh1⟩, hbn, hbp, -, hh, heq⟩ :=
    spi_set_clock_divided fapb hz duty hf0 hf1 hz0 hz1 hd0 hd1
  obtain ⟨d0, d1, d2, d3, d4⟩ := clk_decode (pre - 1) (n - 1) (h - 1) (n - 1)
    (by omega) (by omega) (by omega) (by omega)
  refine ⟨pre, n, h, n, _, _, heq, hbp, hbn, hh, rfl, ⟨hp0, hp1⟩, ⟨hh0, hh1, hn1⟩, rfl,
    ?_, d0, ?_, ?_, ?_, ?_⟩
  · norm_num
    omega
  · rw [d1, Nat.sub_add_cancel hp0]
  · rw [d2, Nat.sub_add_cancel hn0]
  · rw [d3, Nat.sub_add_cancel hh0]
  · rw [d4, Nat.sub_add_cancel hn0]

/-- Instance of claim C5 at `fapb = 80,000,000`, `hz = 1,000,000`, `duty = 128`. -/
theorem spi_set_clock_encoding_witness :
    ∃ pre n h l w eff : Nat, spi_set_clock 80000000 1000000 128 = some (w, eff)
      ∧ (pre : Int) = (spi_clock_search 80000000 1000000).bestpre
      ∧ (n : Int) = (spi_clock_search 80000000 1000000).bestn
      ∧ (h : Int) = spi_high_for 128 n
      ∧ l = n
      ∧ (1 ≤ pre ∧ pre ≤ 8192) ∧ (1 ≤ h ∧ h ≤ l ∧ n ≤ 64)
      ∧ w = (pre - 1) * 2 ^ 18 + (n - 1) * 2 ^ 12 + (h - 1) * 2 ^ 6 + (l - 1)
      ∧ w < 2 ^ 31 ∧ clk_equ w = 0
      ∧ clk_pre w + 1 = pre ∧ clk_n w + 1 = n ∧ clk_h w + 1 = h ∧ clk_l w + 1 = l :=
  spi_set_clock_encoding 80000000 1000000 128 (by decide) (by decide) (by decide)
    (by decide) (by decide) (by decide)


/-! ### The configured flag is written by no setup path -/

theorem map_set_same {α β : Type} (f : α → β) (l : List α) (k : Nat) (x dflt : α)
    (h : f x = f (l.getD k dflt)) : (l.set k x).map f = l.map f := by
  induction l generalizing k with
  | nil => simp
  | cons a t ih =>
    cases k with
    | zero => simpa using h
    | succ k =>
      simp only [List.set_cons_succ, List.map_cons]
      rw [ih k (by simpa using h)]

theorem setup_flags_emit (w : World) (e : Event) :
    setup_flags (w.emit e) = setup_flags w := rfl

theorem setup_flags_setHw (w : World) (unit : Nat) (r : SpiRegs) :
    setup_flags (w.setHw unit r) = setup_flags w := rfl

theorem setup_flags_setBus (w : World) (unit : Nat) (b : SpiBus)
    (h : b.device.map (fun d => d.setup) = (w.getBus unit).device.map (fun d => d.setup)) :
    setup_flags (w.setBus unit b) = setup_flags w := by
  unfold setup_flags World.setBus
  exact map_set_same _ _ _ _ _ h

theorem setup_flags_updBus (w : World) (unit : Nat) (f : SpiBus → SpiBus) :
    setup_flags (w.updBus unit f) = setup_flags w :=
  setup_flags_setBus w unit _ rfl

theorem setup_flags_updDev (w : World) (unit i : Nat) (f : SpiDevice → SpiDevice)
    (h : ∀ d, (f d).setup = d.setup) :
    setup_flags (w.updDev unit i f) = setup_flags w := by
  refine setup_flags_setBus w unit _ ?_
  unfold SpiBus.setDev
  exact map_set_same _ _ _ _ SpiDevice.zero (h _)

theorem dev_setup_of_flags (w : World) (unit i : Nat) :
    ((w.getBus unit).dev i).setup
      = ((setup_flags w).getD (spi_idx unit) []).getD i false := by
  unfold setup_flags World.getBus SpiBus.dev
  simp only [List.getD_eq_getElem?_getD, List.getElem?_map]
  cases h : w.bus[spi_idx unit]? with
  | none => simp [SpiDevice.zero]
  | some b =>
    simp only [Option.map_some', Option.getD_some, List.getElem?_map]
    cases h2 : b.device[i]? with
    | none => simp [SpiDevice.zero]
    | some d => simp

theorem setup_flags_driver_lock (w : World) (unit : Nat) (pin : Int) :
    setup_flags (driver_lock w unit pin).2 = setup_flags w := by
  unfold driver_lock
  simp only []
  split_ifs <;> rfl

theorem setup_flags_spi_lock_pin (w : World) (unit : Nat) (pin : Int) :
    setup_flags (spi_lock_pin w unit pin).2 = setup_flags w := by
  unfold spi_lock_pin
  split_ifs <;> exact setup_flags_driver_lock w unit pin

theorem setup_flags_spi_lock_pin_if (c : Bool) (w : World) (unit : Nat) (pin : Int) :
    setup_flags (spi_lock_pin_if c w unit pin).2 = setup_flags w := by
  unfold spi_lock_pin_if
  split_ifs
  · exact setup_flags_spi_lock_pin w unit pin
  · rfl

theorem setup_flags_spi_lock_then (r : Option SpiError × World) (c : Bool) (unit : Nat)
    (pin : Int) : setup_flags (spi_lock_then r c unit pin).2 = setup_flags r.2 := by
  unfold spi_lock_then
  split_ifs
  · rfl
  · exact setup_flags_spi_lock_pin_if c r.2 unit pin

theorem setup_flags_spi_lock_bus_resources (w : World) (unit flags : Nat) :
    setup_flags (spi_lock_bus_resources w unit flags).2 = setup_flags w := by
  unfold spi_lock_bus_resources
  rw [setup_flags_spi_lock_then, setup_flags_spi_lock_then, setup_flags_spi_lock_pin_if]

theorem setup_flags_spi_setup_locks (w : World) (unit flags : Nat) (cs : Int) :
    setup_flags (spi_setup_locks w unit flags cs).2 = setup_flags w := by
  unfold spi_setup_locks
  rw [setup_flags_spi_lock_then]
  split_ifs
  · exact setup_flags_spi_lock_bus_resources w unit flags
  · rfl

theorem setup_flags_spi_setup_bus (bd : Board) (w : World) (unit flags : Nat) :
    setup_flags (spi_setup_bus bd w unit flags) = setup_flags w := by
  rfl

theorem setup_flags_spi_ll_save_registers (w : World) (unit device : Nat) :
    setup_flags (spi_ll_save_registers w unit device) = setup_flags w := by
  unfold spi_ll_save_registers
  exact setup_flags_updDev w unit device _ (fun _ => rfl)

theorem setup_flags_spi_ll_setup_slot (w : World) (unit : Nat) (cs : Int) (device : Nat)
    (w0 : World) (h : spi_ll_setup_slot w unit cs = some (device, w0)) :
    setup_flags w0 = setup_flags w := by
  unfold spi_ll_setup_slot at h
  simp only [] at h
  split_ifs at h <;> simp only [Option.some.injEq, Prod.mk.injEq] at h <;>
    obtain ⟨-, rfl⟩ := h
  · rfl
  · rw [setup_flags_emit, setup_flags_updBus]
  · rw [setup_flags_updBus]
  · rfl
  · rfl

theorem setup_flags_spi_ll_setup_path (bd : Board) (w : World)
    (unit device mode speed flags : Nat) (w5 : World)
    (h : spi_ll_setup_path bd w unit device mode speed flags = some w5) :
    setup_flags w5 = setup_flags w := by
  unfold spi_ll_setup_path at h
  split_ifs at h
  · split at h
    · exact absurd h (by simp)
    · simp only [Option.some.injEq] at h
      subst h
      rw [setup_flags_updBus, setup_flags_setHw]
  · simp only [Option.some.injEq] at h
    subst h
    rw [setup_flags_updBus]
    refine (setup_flags_updDev _ _ _ _ ?_).trans ?_
    · intro d; rfl
    · rfl

/-- The state reached by `spi_ll_setup` before the transfer path is chosen
has the configured flags of the state after slot selection. -/
theorem setup_flags_spi_ll_setup_pre (bd : Board) (w0 : World) (unit device : Nat)
    (cs : Int) (flags : Nat) (w1 w2 : World)
    (h1 : w1 = if (w0.getBus unit).setup &&& SPI_DMA_SETUP = 0 then
      spi_setup_bus bd w0 unit flags else w0)
    (h2 : w2 = if (w1.getBus unit).setup = 0 ∧ flags &&& (SPI_FLAG_READ ||| SPI_FLAG_WRITE) ≠ 0
      then w1.emit (Event.syslog unit) else w1) :
    setup_flags (((w2.emit (Event.gpio_pin_output cs)).emit
      (Event.gpio_ll_pin_set cs)).updDev unit device (fun d => { d with cs := cs }))
      = setup_flags w0 := by
  refine (setup_flags_updDev _ _ _ _ ?_).trans ?_
  · intro d; rfl
  rw [setup_flags_emit, setup_flags_emit]
  have e1 : setup_flags w1 = setup_flags w0 := by
    rw [h1]; split_ifs
    · exact setup_flags_spi_setup_bus bd w0 unit flags
    · rfl
  have e2 : setup_flags w2 = setup_flags w1 := by
    rw [h2]; split_ifs <;> rfl
  rw [e2, e1]

/-- No call of `spi_ll_setup` changes the configured flag of any slot. -/
theorem setup_flags_spi_ll_setup (bd : Board) (w : World) (unit master : Nat) (cs : Int)
    (mode speed flags : Nat) (ret : Int) (id : Option Int) (w' : World)
    (h : spi_ll_setup bd w unit master cs mode speed flags = some (ret, id, w')) :
    setup_flags w' = setup_flags w := by
  unfold spi_ll_setup at h
  simp only [] at h
  split at h
  · simp only [Option.some.injEq, Prod.mk.injEq] at h
    obtain ⟨-, -, rfl⟩ := h
    rfl
  · rename_i device w0 hslot
    split at h
    · exact absurd h (by simp)
    · rename_i w5 hpath
      simp only [Option.some.injEq, Prod.mk.injEq] at h
      obtain ⟨-, -, rfl⟩ := h
      rw [setup_flags_spi_ll_save_registers]
      refine (setup_flags_updDev _ _ _ _ ?_).trans ?_
      · intro d; rfl
      rw [setup_flags_spi_ll_setup_path bd _ unit device mode _ flags w5 hpath,
        setup_flags_spi_ll_setup_pre bd w0 unit device cs flags _ _ rfl rfl,
        setup_flags_spi_ll_setup_slot w unit cs device w0 hslot]

/-- No call of `spi_setup` changes the configured flag of any slot. -/
theorem setup_flags_spi_setup (bd : Board) (w : World) (unit master : Nat) (cs : Int)
    (mode speed flags : Nat) (e : Option SpiError) (id : Option Int) (w' : World)
    (h : spi_setup bd w unit master cs mode speed flags = some (e, id, w')) :
    setup_flags w' = setup_flags w := by
  unfold spi_setup at h
  split at h
  · simp only [Option.some.injEq, Prod.mk.injEq] at h
    obtain ⟨-, -, rfl⟩ := h
    rfl
  · split at h
    · simp only [Option.some.injEq, Prod.mk.injEq] at h
      obtain ⟨-, -, rfl⟩ := h
      exact setup_flags_spi_setup_locks w unit flags _
    · split at h
      · exact absurd h (by simp)
      · rename_i ret id1 w1 hll
        simp only [Option.some.injEq, Prod.mk.injEq] at h
        obtain ⟨-, -, rfl⟩ := h
        have hfl := setup_flags_spi_ll_setup bd _ unit master _ mode speed flags ret id1 w1 hll
        show setup_flags w1 = setup_flags w
        rw [hfl]
        exact setup_flags_spi_setup_locks w unit flags _

/-! ## Properties of the bus/device registry -/

set_option maxRecDepth 1000000 in
/-- Claim C6 evaluated on the code: nine `spi_setup` calls on unit 2 with the
nine distinct chip-selects 15, 16, 17, 18, 19, 21, 22, 23, 25 (software path)
all succeed and all return the device id `0x200`; no slot is ever marked
configured, and the ninth call overwrites the chip-select of slot 0 (23
before, 25 after). -/
theorem spi_setup_ninth_device_accepted :
    (spi_setup_all esp32_board 0 1000000 7 esp32_init
        [15, 16, 17, 18, 19, 21, 22, 23]).map
      (fun r => (r.1, ((r.2.getBus 2).dev 0).cs, spi_num_devices r.2 2))
      = some (List.replicate 8 (none, some 512), 23, 0)
    ∧ (spi_setup_all esp32_board 0 1000000 7 esp32_init
        [15, 16, 17, 18, 19, 21, 22, 23, 25]).map
      (fun r => (r.1, ((r.2.getBus 2).dev 0).cs, spi_num_devices r.2 2))
      = some (List.replicate 9 (none, some 512), 25, 0) :=
  ⟨by decide, by decide⟩

set_option maxRecDepth 1000000 in
/-- Claim C7 evaluated on the code: no call of `spi_setup`, on any board, state
and arguments, changes the configured flag of any slot; in particular
`spi_setup` on unit 2 with chip-select 15 after initialisation succeeds and
returns the device id `0x200`, the slot is not marked configured, and the
following `spi_select(0x200)` fails with device-not-configured. -/
theorem spi_setup_leaves_slot_unconfigured :
    (∀ (bd : Board) (w : World) (unit master : Nat) (cs : Int) (mode speed flags : Nat)
        (e : Option SpiError) (id : Option Int) (w' : World),
        spi_setup bd w unit master cs mode speed flags = some (e, id, w') →
        ∀ u i, ((w'.getBus u).dev i).setup = ((w.getBus u).dev i).setup)
    ∧ (spi_setup esp32_board esp32_init 2 1 15 0 1000000 7).map
        (fun r => (r.1, r.2.1, ((r.2.2.getBus 2).dev 0).setup, (spi_select r.2.2 512).1))
      = some (none, some 512, false, some SpiError.DeviceNotSetup) := by
  refine ⟨?_, by decide⟩
  intro bd w unit master cs mode speed flags e id w' h u i
  rw [dev_setup_of_flags, dev_setup_of_flags,
    setup_flags_spi_setup bd w unit master cs mode speed flags e id w' h]

set_option maxRecDepth 1000000 in
/-- Claim C8 evaluated on the code: two successive `spi_setup` calls on unit 2
with the same chip-select 15 on the hardware-assisted path both return the
device id `0x200`; the vendor driver is asked for a device twice (handles 1
and 2) and never asked to remove the first one. -/
theorem spi_setup_same_cs_keeps_old_handle :
    (spi_setup_all esp32_board 0 1000000 3 esp32_init [15, 15]).map
      (fun r => (r.1, ((r.2.getBus 2).dev 0).h, vendor_device_calls r.2.log))
      = some ([(none, some 512), (none, some 512)], 2,
          [Event.spi_bus_add_device 1 1000000 0 1,
           Event.spi_bus_add_device 1 1000000 0 2]) := by
  decide

set_option maxRecDepth 1000000 in
/-- Claim C9 evaluated on the code: with the slots 0 (chip-select 15) and 2
(chip-select 16) of unit 2 configured, `spi_unsetup(0x200)` succeeds, slot 0
is still configured afterwards (a following `spi_select(0x200)` succeeds) and
the configured flag of slot 2 has been cleared. -/
theorem spi_unsetup_clears_slot_of_unit :
    (((esp32_init.withDevice 2 0 15).withDevice 2 2 16).getBus 2).device.map
        (fun d => d.setup)
      = [true, false, true, false, false, false, false, false]
    ∧ (spi_unsetup ((esp32_init.withDevice 2 0 15).withDevice 2 2 16) 512).1 = none
    ∧ ((spi_unsetup ((esp32_init.withDevice 2 0 15).withDevice 2 2 16) 512).2.getBus 2).device.map
        (fun d => d.setup)
      = [true, false, false, false, false, false, false, false]
    ∧ (spi_select (spi_unsetup ((esp32_init.withDevice 2 0 15).withDevice 2 2 16) 512).2 512).1
      = none :=
  ⟨by decide, by decide, by decide, by decide⟩

set_option maxRecDepth 1000000 in
/-- Claim C10 evaluated on the code: after `spi_pin_map(2, -1, -1, 34)` the
clock pin of unit 2 is pin 34, which cannot be an output; `spi_setup` on that
bus (master, mode 0, chip-select 15) nevertheless succeeds. -/
theorem spi_setup_accepts_input_only_clk :
    (spi_pin_map esp32_board esp32_init 2 (-1) (-1) 34).1 = none
    ∧ ((spi_pin_map esp32_board esp32_init 2 (-1) (-1) 34).2.getBus 2).clk = 34
    ∧ gpio_mask_test esp32_board.GPIO_ALL_OUT 34 = false
    ∧ (spi_setup esp32_board (spi_pin_map esp32_board esp32_init 2 (-1) (-1) 34).2
        2 1 15 0 1000000 7).map (fun r => (r.1, r.2.1)) = some (none, some 512) :=
  ⟨by decide, by decide, by decide, by decide⟩

/-! ## Argument and pin validation of `spi_setup` -/

theorem spi_unit_ok_iff (unit : Nat) :
    spi_unit_ok unit = true ↔ CPU_FIRST_SPI ≤ unit ∧ unit ≤ CPU_LAST_SPI := by
  unfold spi_unit_ok
  simp only [Bool.not_eq_true', Bool.or_eq_false_iff, decide_eq_false_iff_not]
  omega

theorem TEST_UNIQUE4_false (a b c d : Int)
    (h : a = b ∨ a = c ∨ a = d ∨ b = c ∨ b = d ∨ c = d) : TEST_UNIQUE4 a b c d = false := by
  unfold TEST_UNIQUE4
  rcases h with h | h | h | h | h | h <;> subst h <;> simp

theorem spi_setup_of_checks (bd : Board) (w : World) (unit master : Nat) (cs : Int)
    (mode speed flags : Nat) (e : SpiError)
    (h : spi_setup_checks bd w unit master cs mode flags = some e) :
    spi_setup bd w unit master cs mode speed flags = some (some e, none, w) := by
  unfold spi_setup
  rw [h]

/-- Claim C11. For a valid unit, a master request and `mode ≤ 3`, when two of
the data-out, data-in and clock pins of the bus and the resolved chip-select
are the same pin, `spi_setup` fails with pin-not-allowed and returns the state
it was given: bus/device table, registers and the record of calls (so no lock
request) are unchanged, and no device id is stored. -/
theorem spi_setup_rejects_shared_pin (bd : Board) (w : World) (unit master : Nat) (cs : Int)
    (mode speed flags : Nat)
    (hu : CPU_FIRST_SPI ≤ unit ∧ unit ≤ CPU_LAST_SPI) (hm : master = 1) (hmode : mode ≤ 3)
    (hp : (w.getBus unit).mosi = (w.getBus unit).miso
      ∨ (w.getBus unit).mosi = (w.getBus unit).clk
      ∨ (w.getBus unit).mosi = spi_default_cs bd unit cs
      ∨ (w.getBus unit).miso = (w.getBus unit).clk
      ∨ (w.getBus unit).miso = spi_default_cs bd unit cs
      ∨ (w.getBus unit).clk = spi_default_cs bd unit cs) :
    ∃ d, spi_setup bd w unit master cs mode speed flags
      = some (some (SpiError.PinNotAllowed d), none, w) := by
  have hok : spi_unit_ok unit = true := (spi_unit_ok_iff unit).2 hu
  have hq := TEST_UNIQUE4_false _ _ _ _ hp
  have hc : ∃ d, spi_setup_checks bd w unit master cs mode flags
      = some (SpiError.PinNotAllowed d) := by
    unfold spi_setup_checks
    rw [hok, hq]
    simp only [Bool.not_true, Bool.false_eq_true, if_false, Bool.not_false, if_true]
    split_ifs
    · omega
    · omega
    · exact ⟨_, rfl⟩
    · exact ⟨_, rfl⟩
    · exact ⟨_, rfl⟩
    · exact ⟨_, rfl⟩
    · exact ⟨_, rfl⟩
    · exact ⟨_, rfl⟩
  obtain ⟨d, hd⟩ := hc
  exact ⟨d, spi_setup_of_checks bd w unit master cs mode speed flags _ hd⟩

set_option maxRecDepth 1000000 in
/-- Instance of claim C11: on the ESP32 board after initialisation, `spi_setup`
on unit 2 with chip-select 12, the data-in pin of the bus. -/
theorem spi_setup_rejects_shared_pin_witness :
    ∃ d, spi_setup esp32_board esp32_init 2 1 12 0 1000000 7
      = some (some (SpiError.PinNotAllowed d), none, esp32_init) :=
  spi_setup_rejects_shared_pin esp32_board esp32_init 2 1 12 0 1000000 7
    (by decide) rfl (by decide) (by decide)

/-- Claim C12. `spi_setup` returns invalid-unit when `unit` is outside the
range of bus units, whatever the other arguments; otherwise slave-not-allowed
when `master` is not 1; otherwise invalid-mode when `mode > 3`. In the three
cases it returns the state it was given (bus/device table unchanged, no call
recorded, so no lock request) and stores no device id. -/
theorem spi_setup_argument_errors (bd : Board) (w : World) (unit master : Nat) (cs : Int)
    (mode speed flags : Nat) :
    (unit < CPU_FIRST_SPI ∨ CPU_LAST_SPI < unit →
      spi_setup bd w unit master cs mode speed flags
        = some (some SpiError.InvalidUnit, none, w))
    ∧ (CPU_FIRST_SPI ≤ unit ∧ unit ≤ CPU_LAST_SPI → master ≠ 1 →
      spi_setup bd w unit master cs mode speed flags
        = some (some SpiError.SlaveNotAllowed, none, w))
    ∧ (CPU_FIRST_SPI ≤ unit ∧ unit ≤ CPU_LAST_SPI → master = 1 → 3 < mode →
      spi_setup bd w unit master cs mode speed flags
        = some (some SpiError.InvalidMode, none, w)) := by
  refine ⟨?_, ?_, ?_⟩
  · intro hu
    have hok : spi_unit_ok unit = false := by
      cases h : spi_unit_ok unit
      · rfl
      · have := (spi_unit_ok_iff unit).1 h
        omega
    refine spi_setup_of_checks bd w unit master cs mode speed flags _ ?_
    unfold spi_setup_checks
    rw [hok]
    rfl
  · intro hu hm
    refine spi_setup_of_checks bd w unit master cs mode speed flags _ ?_
    unfold spi_setup_checks
    rw [(spi_unit_ok_iff unit).2 hu]
    simp [hm]
  · intro hu hm hmode
    refine spi_setup_of_checks bd w unit master cs mode speed flags _ ?_
    unfold spi_setup_checks
    rw [(spi_unit_ok_iff unit).2 hu]
    simp [hm, hmode]

set_option maxRecDepth 1000000 in
/-- Instances of claim C12 on the ESP32 board after initialisation: unit 1,
a slave request on unit 2, and mode 4 on unit 2. -/
theorem spi_setup_argument_errors_witness :
    spi_setup esp32_board esp32_init 1 1 15 0 1000000 7
        = some (some SpiError.InvalidUnit, none, esp32_init)
    ∧ spi_setup esp32_board esp32_init 2 0 15 0 1000000 7
        = some (some SpiError.SlaveNotAllowed, none, esp32_init)
    ∧ spi_setup esp32_board esp32_init 2 1 15 4 1000000 7
        = some (some SpiError.InvalidMode, none, esp32_init) :=
  ⟨(spi_setup_argument_errors esp32_board esp32_init 1 1 15 0 1000000 7).1 (by decide),
   (spi_setup_argument_errors esp32_board esp32_init 2 0 15 0 1000000 7).2.1 (by decide)
     (by decide),
   (spi_setup_argument_errors esp32_board esp32_init 2 1 15 4 1000000 7).2.2 (by decide)
     rfl (by decide)⟩

/-! ## Device ids -/

theorem find_range_lt (p : Nat → Bool) (n i : Nat)
    (h : (List.range n).find? p = some i) : i < n :=
  List.mem_range.1 (List.mem_of_find?_eq_some h)

theorem spi_ll_setup_slot_lt (w : World) (unit : Nat) (cs : Int) (s : Nat) (w0 : World)
    (h : spi_ll_setup_slot w unit cs = some (s, w0)) : s < SPI_BUS_DEVICES := by
  unfold spi_ll_setup_slot at h
  simp only [] at h
  have hfree : ∀ i : Int, spi_get_free_device w unit = i → ¬ i < 0 → i.toNat < SPI_BUS_DEVICES := by
    intro i hi hneg
    unfold spi_get_free_device at hi
    split at hi
    · rename_i j hj
      have := find_range_lt _ _ _ hj
      subst hi
      simpa using this
    · omega
  have hcs : ∀ i : Int, spi_get_device_by_cs w unit cs = i → ¬ i < 0 →
      i.toNat < SPI_BUS_DEVICES := by
    intro i hi hneg
    unfold spi_get_device_by_cs at hi
    split at hi
    · rename_i j hj
      have := find_range_lt _ _ _ hj
      subst hi
      simpa using this
    · omega
  split_ifs at h <;> simp only [Option.some.injEq, Prod.mk.injEq] at h <;>
    obtain ⟨rfl, -⟩ := h
  · exact hfree _ rfl (by assumption)
  all_goals exact hcs _ rfl (by assumption)

theorem spi_ll_setup_id (bd : Board) (w : World) (unit master : Nat) (cs : Int)
    (mode speed flags : Nat) (id : Option Int) (w' : World)
    (h : spi_ll_setup bd w unit master cs mode speed flags = some (0, id, w')) :
    ∃ s w0, spi_ll_setup_slot w unit cs = some (s, w0) ∧ s < SPI_BUS_DEVICES
      ∧ id = some ((unit <<< 8 ||| s : Nat) : Int) := by
  unfold spi_ll_setup at h
  simp only [] at h
  split at h
  · simp at h
  · rename_i s w0 hslot
    split at h
    · exact absurd h (by simp)
    · simp only [Option.some.injEq, Prod.mk.injEq, true_and] at h
      exact ⟨s, w0, hslot, spi_ll_setup_slot_lt w unit cs s w0 hslot, h.1.symm⟩

theorem id_decode (u s : Nat) (hu : CPU_FIRST_SPI ≤ u ∧ u ≤ CPU_LAST_SPI)
    (hs : s < SPI_BUS_DEVICES) :
    id_unit ((u <<< 8 ||| s : Nat) : Int) = u ∧ id_device ((u <<< 8 ||| s : Nat) : Int) = s := by
  unfold CPU_FIRST_SPI CPU_LAST_SPI at hu
  unfold SPI_BUS_DEVICES at hs
  obtain ⟨h1, h2⟩ := hu
  interval_cases u <;> interval_cases s <;> exact ⟨by decide, by decide⟩

/-- Claim C14. The device id stored by a successful `spi_setup` on unit `u` is
`(u << 8) | s`, with `s` the slot (below 8) chosen by the slot selection of
`spi_ll_setup`; for every valid unit `u` and slot `s` in `[0,8)` the decoding
`((id & 0xff00) >> 8, id & 0xff)` of that id gives back `(u, s)`; and two valid
(unit, slot) pairs with the same id are equal. -/
theorem spi_device_id_encoding :
    (∀ (bd : Board) (w : World) (unit master : Nat) (cs : Int) (mode speed flags : Nat)
        (id : Option Int) (w' : World),
        spi_setup bd w unit master cs mode speed flags = some (none, id, w') →
        ∃ s w0,
          spi_ll_setup_slot
              (spi_lock (spi_setup_locks w unit flags (spi_default_cs bd unit cs)).2 unit)
              unit (spi_default_cs bd unit cs) = some (s, w0)
            ∧ s < SPI_BUS_DEVICES ∧ id = some ((unit <<< 8 ||| s : Nat) : Int))
    ∧ (∀ u s : Nat, CPU_FIRST_SPI ≤ u ∧ u ≤ CPU_LAST_SPI → s < SPI_BUS_DEVICES →
        id_unit ((u <<< 8 ||| s : Nat) : Int) = u
          ∧ id_device ((u <<< 8 ||| s : Nat) : Int) = s)
    ∧ (∀ u s u' s' : Nat, CPU_FIRST_SPI ≤ u ∧ u ≤ CPU_LAST_SPI → s < SPI_BUS_DEVICES →
        CPU_FIRST_SPI ≤ u' ∧ u' ≤ CPU_LAST_SPI → s' < SPI_BUS_DEVICES →
        ((u <<< 8 ||| s : Nat) : Int) = ((u' <<< 8 ||| s' : Nat) : Int) → u = u' ∧ s = s') := by
  refine ⟨?_, id_decode, ?_⟩
  · intro bd w unit master cs mode speed flags id w' h
    unfold spi_setup at h
    split at h
    · simp at h
    · split at h
      · simp at h
      · split at h
        · exact absurd h (by simp)
        · rename_i ret id1 w1 hll
          simp only [Option.some.injEq, Prod.mk.injEq] at h
          obtain ⟨hret, rfl, -⟩ := h
          have hr0 : ret = 0 := by
            by_contra hne
            rw [if_pos hne] at hret
            exact absurd hret (by simp)
          subst hr0
          exact spi_ll_setup_id bd _ unit master _ mode speed flags id1 w1 hll
  · intro u s u' s' hu hs hu' hs' he
    obtain ⟨a1, a2⟩ := id_decode u s hu hs
    obtain ⟨b1, b2⟩ := id_decode u' s' hu' hs'
    rw [he] at a1 a2
    exact ⟨a1.symm.trans b1, a2.symm.trans b2⟩

set_option maxRecDepth 1000000 in
/-- Instance of claim C14: `spi_setup` on unit 2 after initialisation stores the
id `0x200 = (2 << 8) | 0`, which decodes to unit 2, slot 0. -/
theorem spi_device_id_encoding_witness :
    (spi_setup esp32_board esp32_init 2 1 15 0 1000000 7).map (fun r => (r.1, r.2.1))
        = some (none, some (((2 <<< 8 ||| 0 : Nat) : Int)))
    ∧ id_unit ((2 <<< 8 ||| 0 : Nat) : Int) = 2 ∧ id_device ((2 <<< 8 ||| 0 : Nat) : Int) = 0 :=
  ⟨by decide, spi_device_id_encoding.2.1 2 0 (by decide) (by decide)⟩

/-! ## Reading the state back after a store -/

theorem wf_lengths (w : World) (h : w.wf = true) :
    w.bus.length = 2 ∧ w.hw.length = 2 ∧ ∀ b ∈ w.bus, b.device.length = SPI_BUS_DEVICES := by
  unfold World.wf at h
  simp only [Bool.and_eq_true, beq_iff_eq, List.all_eq_true] at h
  exact ⟨h.1.1, h.1.2, h.2⟩

theorem spi_idx_lt_two (unit : Nat) (h : spi_unit_ok unit = true) : spi_idx unit < 2 := by
  have := (spi_unit_ok_iff unit).1 h
  unfold CPU_FIRST_SPI CPU_LAST_SPI at this
  unfold spi_idx CPU_FIRST_SPI
  omega

theorem getD_set_same {α : Type} (l : List α) (k : Nat) (x d : α) (h : k < l.length) :
    (l.set k x).getD k d = x := by
  simp [List.getD_eq_getElem?_getD, List.getElem?_set, h]

theorem getD_set_other {α : Type} (l : List α) (k j : Nat) (x d : α) (h : k ≠ j) :
    (l.set k x).getD j d = l.getD j d := by
  simp [List.getD_eq_getElem?_getD, List.getElem?_set, h]

theorem getBus_setBus (w : World) (unit : Nat) (b : SpiBus) (h : spi_idx unit < w.bus.length) :
    (w.setBus unit b).getBus unit = b := by
  unfold World.getBus World.setBus
  exact getD_set_same _ _ _ _ h

theorem getBus_setBus_other (w : World) (unit u : Nat) (b : SpiBus)
    (h : spi_idx unit ≠ spi_idx u) : (w.setBus unit b).getBus u = w.getBus u := by
  unfold World.getBus World.setBus
  exact getD_set_other _ _ _ _ _ h

theorem getHw_setHw (w : World) (unit : Nat) (r : SpiRegs) (h : spi_idx unit < w.hw.length) :
    (w.setHw unit r).getHw unit = r := by
  unfold World.getHw World.setHw
  exact getD_set_same _ _ _ _ h

theorem getBus_setHw (w : World) (unit u : Nat) (r : SpiRegs) :
    (w.setHw unit r).getBus u = w.getBus u := rfl

theorem getHw_setBus (w : World) (unit u : Nat) (b : SpiBus) :
    (w.setBus unit b).getHw u = w.getHw u := rfl

theorem getBus_emit (w : World) (e : Event) (u : Nat) : (w.emit e).getBus u = w.getBus u := rfl

theorem getHw_emit (w : World) (e : Event) (u : Nat) : (w.emit e).getHw u = w.getHw u := rfl

theorem getBus_updBus (w : World) (unit : Nat) (f : SpiBus → SpiBus)
    (h : spi_idx unit < w.bus.length) :
    (w.updBus unit f).getBus unit
      = { (f (w.getBus unit)) with device := (w.getBus unit).device } := by
  unfold World.updBus
  exact getBus_setBus w unit _ h

theorem getHw_updBus (w : World) (unit u : Nat) (f : SpiBus → SpiBus) :
    (w.updBus unit f).getHw u = w.getHw u := rfl

theorem pin_level_clr (log : List Event) (pin : Int) :
    pin_level (log ++ [Event.gpio_ll_pin_clr pin]) pin = some false := by
  unfold pin_level
  rw [List.foldl_append]
  simp

theorem pin_level_set (log : List Event) (pin : Int) :
    pin_level (log ++ [Event.gpio_ll_pin_set pin]) pin = some true := by
  unfold pin_level
  rw [List.foldl_append]
  simp

/-! ## Select and deselect -/

theorem bus_length_updBus (w : World) (unit : Nat) (f : SpiBus → SpiBus) :
    (w.updBus unit f).bus.length = w.bus.length := by
  simp [World.updBus, World.setBus]

theorem bus_emit (w : World) (e : Event) : (w.emit e).bus = w.bus := rfl

theorem hw_length_updBus (w : World) (unit : Nat) (f : SpiBus → SpiBus) :
    (w.updBus unit f).hw.length = w.hw.length := rfl

theorem hw_length_setHw (w : World) (unit : Nat) (r : SpiRegs) :
    (w.setHw unit r).hw.length = w.hw.length := by
  simp [World.setHw]

/-- The tail of `spi_ll_select`: record the device as last resident and
selected, then drive its chip-select low. -/
theorem spi_select_tail (w2 : World) (unit device : Nat) (deviceid : Int)
    (hb : spi_idx unit < w2.bus.length) (R : World)
    (hR : R = (w2.updBus unit
        (fun b => { b with last_device := deviceid, selected_device := deviceid })).emit
      (Event.gpio_ll_pin_clr (((w2.updBus unit
        (fun b => { b with last_device := deviceid, selected_device := deviceid })).getBus
          unit).dev device).cs)) :
    R.getHw unit = w2.getHw unit
    ∧ (R.getBus unit).last_device = deviceid
    ∧ (R.getBus unit).selected_device = deviceid
    ∧ (R.getBus unit).device = (w2.getBus unit).device
    ∧ R.bus.length = w2.bus.length
    ∧ R.hw.length = w2.hw.length
    ∧ R.log.getLast? = some (Event.gpio_ll_pin_clr ((w2.getBus unit).dev device).cs)
    ∧ pin_level R.log ((w2.getBus unit).dev device).cs = some false := by
  have hg := getBus_updBus w2 unit
    (fun b => { b with last_device := deviceid, selected_device := deviceid }) hb
  rw [hg] at hR
  subst hR
  refine ⟨rfl, ?_, ?_, ?_, ?_, rfl, ?_, ?_⟩
  · rw [getBus_emit, hg]
  · rw [getBus_emit, hg]
  · rw [getBus_emit, hg]
  · rw [bus_emit]
    exact bus_length_updBus _ _ _
  · simp [World.emit, SpiBus.dev]
  · exact pin_level_clr _ _

theorem spi_ll_select_spec (w : World) (deviceid : Int)
    (hb : spi_idx (id_unit deviceid) < w.bus.length)
    (hh : spi_idx (id_unit deviceid) < w.hw.length) :
    ((w.getBus (id_unit deviceid)).last_device ≠ deviceid →
        (spi_ll_select w deviceid).getHw (id_unit deviceid)
          = ((w.getBus (id_unit deviceid)).dev (id_device deviceid)).regs)
    ∧ ((w.getBus (id_unit deviceid)).last_device = deviceid →
        (spi_ll_select w deviceid).getHw (id_unit deviceid) = w.getHw (id_unit deviceid))
    ∧ ((spi_ll_select w deviceid).getBus (id_unit deviceid)).last_device = deviceid
    ∧ ((spi_ll_select w deviceid).getBus (id_unit deviceid)).selected_device = deviceid
    ∧ ((spi_ll_select w deviceid).getBus (id_unit deviceid)).device
        = (w.getBus (id_unit deviceid)).device
    ∧ (spi_ll_select w deviceid).bus.length = w.bus.length
    ∧ (spi_ll_select w deviceid).hw.length = w.hw.length
    ∧ (spi_ll_select w deviceid).log.getLast?
        = some (Event.gpio_ll_pin_clr
            ((w.getBus (id_unit deviceid)).dev (id_device deviceid)).cs)
    ∧ pin_level (spi_ll_select w deviceid).log
        ((w.getBus (id_unit deviceid)).dev (id_device deviceid)).cs = some false := by
  by_cases hl : (w.getBus (id_unit deviceid)).last_device ≠ deviceid
  · obtain ⟨t1, t2, t3, t4, t5, t6, t7, t8⟩ := spi_select_tail
      (spi_ll_restore_registers (spi_lock w (id_unit deviceid)) (id_unit deviceid)
        (id_device deviceid))
      (id_unit deviceid) (id_device deviceid) deviceid hb (spi_ll_select w deviceid)
      (by unfold spi_ll_select; simp only []; rw [if_pos (show
            ((spi_lock w (id_unit deviceid)).getBus (id_unit deviceid)).last_device
              ≠ deviceid from hl)])
    refine ⟨fun _ => ?_, fun h => absurd h hl, t2, t3, t4, t5, ?_, t7, t8⟩
    · rw [t1]
      exact getHw_setHw (spi_lock w (id_unit deviceid)) _ _ hh
    · rw [t6]
      exact hw_length_setHw _ _ _
  · obtain ⟨t1, t2, t3, t4, t5, t6, t7, t8⟩ := spi_select_tail
      (spi_lock w (id_unit deviceid))
      (id_unit deviceid) (id_device deviceid) deviceid hb (spi_ll_select w deviceid)
      (by unfold spi_ll_select; simp only []; rw [if_neg (show
            ¬ ((spi_lock w (id_unit deviceid)).getBus (id_unit deviceid)).last_device
              ≠ deviceid from hl)])
    exact ⟨fun h => absurd h hl, fun _ => t1, t2, t3, t4, t5, t6, t7, t8⟩

theorem spi_ll_deselect_spec (w : World) (deviceid : Int)
    (hb : spi_idx (id_unit deviceid) < w.bus.length) :
    ((spi_ll_deselect w deviceid).getBus (id_unit deviceid)).last_device
        = (w.getBus (id_unit deviceid)).last_device
    ∧ ((spi_ll_deselect w deviceid).getBus (id_unit deviceid)).selected_device = -1
    ∧ ((spi_ll_deselect w deviceid).getBus (id_unit deviceid)).device
        = (w.getBus (id_unit deviceid)).device
    ∧ (spi_ll_deselect w deviceid).getHw (id_unit deviceid) = w.getHw (id_unit deviceid)
    ∧ (spi_ll_deselect w deviceid).bus.length = w.bus.length
    ∧ (spi_ll_deselect w deviceid).hw.length = w.hw.length := by
  have hg := getBus_updBus
    (w.emit (Event.gpio_ll_pin_set ((w.getBus (id_unit deviceid)).dev (id_device deviceid)).cs))
    (id_unit deviceid) (fun b => { b with selected_device := -1 }) hb
  have he : spi_ll_deselect w deviceid
      = spi_unlock ((w.emit (Event.gpio_ll_pin_set
          ((w.getBus (id_unit deviceid)).dev (id_device deviceid)).cs)).updBus
          (id_unit deviceid) (fun b => { b with selected_device := -1 }))
        (id_unit deviceid) := rfl
  rw [he]
  unfold spi_unlock
  refine ⟨?_, ?_, ?_, rfl, ?_, rfl⟩
  · rw [getBus_emit, hg]; rfl
  · rw [getBus_emit, hg]
  · rw [getBus_emit, hg]; rfl
  · rw [bus_emit, bus_length_updBus, bus_emit]

/-- Claim C15. `spi_ll_select(id)` leaves the registers of the unit equal to
the snapshot saved in the slot of `id` when the last-resident device of the
bus differs from `id`, and leaves them as they are (whatever the snapshot)
when the last-resident device is `id`; in both cases last-resident and
selected device are `id` afterwards and the last call drives the chip-select
of the device low. After select, deselect, the last-resident device is still
`id`, so the second select leaves the registers as it finds them. -/
theorem spi_ll_select_restores_iff_not_resident (w : World) (deviceid : Int)
    (hwf : w.wf = true) (hu : spi_unit_ok (id_unit deviceid) = true) :
    ((w.getBus (id_unit deviceid)).last_device ≠ deviceid →
        (spi_ll_select w deviceid).getHw (id_unit deviceid)
          = ((w.getBus (id_unit deviceid)).dev (id_device deviceid)).regs)
    ∧ ((w.getBus (id_unit deviceid)).last_device = deviceid →
        (spi_ll_select w deviceid).getHw (id_unit deviceid) = w.getHw (id_unit deviceid))
    ∧ ((spi_ll_select w deviceid).getBus (id_unit deviceid)).last_device = deviceid
    ∧ ((spi_ll_select w deviceid).getBus (id_unit deviceid)).selected_device = deviceid
    ∧ (spi_ll_select w deviceid).log.getLast?
        = some (Event.gpio_ll_pin_clr
            ((w.getBus (id_unit deviceid)).dev (id_device deviceid)).cs)
    ∧ pin_level (spi_ll_select w deviceid).log
        ((w.getBus (id_unit deviceid)).dev (id_device deviceid)).cs = some false
    ∧ ((spi_ll_deselect (spi_ll_select w deviceid) deviceid).getBus
        (id_unit deviceid)).last_device = deviceid
    ∧ (spi_ll_select (spi_ll_deselect (spi_ll_select w deviceid) deviceid) deviceid).getHw
        (id_unit deviceid)
      = (spi_ll_deselect (spi_ll_select w deviceid) deviceid).getHw (id_unit deviceid) := by
  obtain ⟨hbl, hhl, -⟩ := wf_lengths w hwf
  have hi := spi_idx_lt_two _ hu
  have hb : spi_idx (id_unit deviceid) < w.bus.length := by omega
  have hh : spi_idx (id_unit deviceid) < w.hw.length := by omega
  obtain ⟨s1, s2, s3, s4, -, s6, s7, s8, s9⟩ := spi_ll_select_spec w deviceid hb hh
  have hb1 : spi_idx (id_unit deviceid) < (spi_ll_select w deviceid).bus.length := by omega
  obtain ⟨d1, -, -, -, d5, d6⟩ := spi_ll_deselect_spec (spi_ll_select w deviceid) deviceid hb1
  have hlast : ((spi_ll_deselect (spi_ll_select w deviceid) deviceid).getBus
      (id_unit deviceid)).last_device = deviceid := by rw [d1, s3]
  refine ⟨s1, s2, s3, s4, s8, s9, hlast, ?_⟩
  exact (spi_ll_select_spec _ deviceid (by omega) (by omega)).2.1 hlast

set_option maxRecDepth 1000000 in
/-- Instance of claim C15: the device id `0x200` on the ESP32 board after
initialisation. -/
theorem spi_ll_select_restores_iff_not_resident_witness :
    ((spi_ll_select esp32_init 512).getBus 2).last_device = 512
    ∧ ((spi_ll_select esp32_init 512).getBus 2).selected_device = 512
    ∧ (spi_ll_select (spi_ll_deselect (spi_ll_select esp32_init 512) 512) 512).getHw 2
      = (spi_ll_deselect (spi_ll_select esp32_init 512) 512).getHw 2 :=
  ⟨(spi_ll_select_restores_iff_not_resident esp32_init 512 (by decide) (by decide)).2.2.1,
   (spi_ll_select_restores_iff_not_resident esp32_init 512 (by decide) (by decide)).2.2.2.1,
   (spi_ll_select_restores_iff_not_resident esp32_init 512 (by decide)
     (by decide)).2.2.2.2.2.2.2⟩

/-! ## Operations on a device that is not configured or not selected -/

theorem spi_check_device_unconfigured (w : World) (deviceid : Int)
    (hu : spi_unit_ok (id_unit deviceid) = true) (hs : id_device deviceid < SPI_BUS_DEVICES)
    (hc : ((w.getBus (id_unit deviceid)).dev (id_device deviceid)).setup = false) :
    spi_check_device w deviceid = some SpiError.DeviceNotSetup := by
  unfold spi_check_device
  simp only [hu, hc]
  rw [if_neg (by simp), if_neg (by omega)]
  simp

theorem spi_check_device_configured (w : World) (deviceid : Int)
    (hu : spi_unit_ok (id_unit deviceid) = true) (hs : id_device deviceid < SPI_BUS_DEVICES)
    (hc : ((w.getBus (id_unit deviceid)).dev (id_device deviceid)).setup = true) :
    spi_check_device w deviceid = none := by
  unfold spi_check_device
  simp only [hu, hc]
  rw [if_neg (by simp), if_neg (by omega)]
  simp

theorem spi_checked_op_unselected (w : World) (deviceid : Int) (data : Option (List Nat))
    (ll : Run OpResult)
    (hu : spi_unit_ok (id_unit deviceid) = true) (hs : id_device deviceid < SPI_BUS_DEVICES)
    (hc : ((w.getBus (id_unit deviceid)).dev (id_device deviceid)).setup = true)
    (hsel : (w.getBus (id_unit deviceid)).selected_device ≠ deviceid) :
    spi_checked_op w deviceid data ll
      = Run.done { error := some SpiError.DeviceNotSelected, world := w, data := data,
                   chunks := [], transactions := [] } := by
  unfold spi_checked_op spi_check_selected
  rw [spi_check_device_configured w deviceid hu hs hc]
  simp only []
  rw [if_pos hsel]

/-- Claim C13. `spi_select` on a valid unit and slot whose configured flag is
clear returns device-not-configured, and `spi_transfer` and the nine bulk
operations on a configured device that is not the selected device of its bus
return device-not-selected. In both cases the state returned is the state
given (bus/device table with last-resident and selected device, registers,
record of calls and so the chip-select levels), the caller's buffer is as it
was, and no chunk or transaction is performed. -/
theorem spi_unconfigured_or_unselected_rejected (env : XferEnv) (w : World) (deviceid : Int)
    (n byte : Nat) (read : Option (List Nat)) (data tmp buffer0 : List Nat)
    (hu : spi_unit_ok (id_unit deviceid) = true) (hs : id_device deviceid < SPI_BUS_DEVICES) :
    (((w.getBus (id_unit deviceid)).dev (id_device deviceid)).setup = false →
      spi_select w deviceid = (some SpiError.DeviceNotSetup, w))
    ∧ (((w.getBus (id_unit deviceid)).dev (id_device deviceid)).setup = true →
       (w.getBus (id_unit deviceid)).selected_device ≠ deviceid →
        spi_transfer env w deviceid byte read buffer0
          = Run.done { error := some SpiError.DeviceNotSelected, world := w, data := read,
                       chunks := [], transactions := [] }
        ∧ ∀ r ∈ [spi_bulk_write env w deviceid n data buffer0,
                 spi_bulk_read env w deviceid n data buffer0,
                 spi_bulk_rw env w deviceid n data tmp buffer0,
                 spi_bulk_write16 env w deviceid n data buffer0,
                 spi_bulk_read16 env w deviceid n data buffer0,
                 spi_bulk_rw16 env w deviceid n data tmp buffer0,
                 spi_bulk_write32 env w deviceid n data buffer0,
                 spi_bulk_read32 env w deviceid n data buffer0,
                 spi_bulk_rw32 env w deviceid n data tmp buffer0],
            r = Run.done { error := some SpiError.DeviceNotSelected, world := w,
                           data := some data, chunks := [], transactions := [] }) := by
  refine ⟨fun hc => ?_, fun hc hsel => ⟨?_, ?_⟩⟩
  · unfold spi_select
    rw [spi_check_device_unconfigured w deviceid hu hs hc]
  · exact spi_checked_op_unselected w deviceid _ _ hu hs hc hsel
  · intro r hr
    simp only [List.mem_cons, List.mem_singleton, List.not_mem_nil, or_false] at hr
    rcases hr with h | h | h | h | h | h | h | h | h <;> subst h <;>
      exact spi_checked_op_unselected w deviceid _ _ hu hs hc hsel

set_option maxRecDepth 1000000 in
/-- Instance of claim C13 on the ESP32 board: slot 0 of unit 2 after
initialisation (not configured), and the same slot marked configured with
chip-select 15 while no device is selected. -/
theorem spi_unconfigured_or_unselected_rejected_witness :
    spi_select esp32_init 512 = (some SpiError.DeviceNotSetup, esp32_init)
    ∧ spi_transfer test_env (esp32_init.withDevice 2 0 15) 512 0x55 none []
      = Run.done { error := some SpiError.DeviceNotSelected,
                   world := esp32_init.withDevice 2 0 15, data := none,
                   chunks := [], transactions := [] } :=
  ⟨(spi_unconfigured_or_unselected_rejected test_env esp32_init 512 0 0 none [] [] []
      (by decide) (by decide)).1 (by decide),
   ((spi_unconfigured_or_unselected_rejected test_env (esp32_init.withDevice 2 0 15) 512 0
      0x55 none [] [] [] (by decide) (by decide)).2 (by decide) (by decide)).1⟩

/-! ## The pin assignment of a bus that has been set up -/

theorem keeps_pins_refl (w : World) : w.keeps_pins w :=
  ⟨rfl, fun _ h => ⟨h, rfl, rfl, rfl⟩⟩

theorem keeps_pins_trans (w1 w2 w3 : World) (h12 : w1.keeps_pins w2) (h23 : w2.keeps_pins w3) :
    w1.keeps_pins w3 := by
  refine ⟨h23.1.trans h12.1, fun u h => ?_⟩
  obtain ⟨a, b, c, d⟩ := h12.2 u h
  obtain ⟨a', b', c', d'⟩ := h23.2 u a
  exact ⟨a', b'.trans b, c'.trans c, d'.trans d⟩

theorem keeps_pins_of_bus_eq (w w' : World) (h : w'.bus = w.bus) : w.keeps_pins w' := by
  refine ⟨by rw [h], fun u hs => ?_⟩
  have : w'.getBus u = w.getBus u := by unfold World.getBus; rw [h]
  rw [this]
  exact ⟨hs, rfl, rfl, rfl⟩

theorem getBus_setBus_cases (w : World) (unit u : Nat) (b : SpiBus) :
    (w.setBus unit b).getBus u = w.getBus u
      ∨ ((w.setBus unit b).getBus u = b ∧ w.getBus u = w.getBus unit) := by
  by_cases hi : spi_idx unit = spi_idx u
  · by_cases hl : spi_idx unit < w.bus.length
    · right
      constructor
      · unfold World.getBus World.setBus
        rw [← hi]
        exact getD_set_same _ _ _ _ hl
      · unfold World.getBus
        rw [hi]
    · left
      unfold World.getBus World.setBus
      rw [List.set_eq_of_length_le (by omega)]
  · left
    exact getBus_setBus_other w unit u b hi

theorem keeps_pins_setBus (w : World) (unit : Nat) (b : SpiBus)
    (h : bus_keeps_pins (w.getBus unit) b) : w.keeps_pins (w.setBus unit b) := by
  refine ⟨by simp [World.setBus], fun u hs => ?_⟩
  rcases getBus_setBus_cases w unit u b with hc | ⟨hc, he⟩
  · rw [hc]; exact ⟨hs, rfl, rfl, rfl⟩
  · rw [hc, he]
    rw [he] at hs
    exact h hs

theorem keeps_pins_updDev (w : World) (unit i : Nat) (f : SpiDevice → SpiDevice) :
    w.keeps_pins (w.updDev unit i f) :=
  keeps_pins_setBus w unit _ (fun hs => ⟨hs, rfl, rfl, rfl⟩)

theorem keeps_pins_updBus (w : World) (unit : Nat) (f : SpiBus → SpiBus)
    (h : ∀ b, bus_keeps_pins b (f b)) : w.keeps_pins (w.updBus unit f) :=
  keeps_pins_setBus w unit _ (fun hs => h _ hs)

theorem lor_ne_zero (a b : Nat) (hb : b ≠ 0) : a ||| b ≠ 0 := by
  intro h
  obtain ⟨i, hi⟩ := Nat.ne_zero_implies_bit_true hb
  have := Nat.testBit_or a b i
  rw [h, Nat.zero_testBit, hi, Bool.or_true] at this
  exact absurd this (by simp)

theorem bus_driver_lock (w : World) (unit : Nat) (pin : Int) :
    (driver_lock w unit pin).2.bus = w.bus := by
  unfold driver_lock
  simp only []
  split_ifs <;> rfl

theorem bus_driver_unlock (w : World) (unit : Nat) (pin : Int) :
    (driver_unlock w unit pin).bus = w.bus := rfl

theorem bus_spi_lock_pin (w : World) (unit : Nat) (pin : Int) :
    (spi_lock_pin w unit pin).2.bus = w.bus := by
  unfold spi_lock_pin
  split_ifs <;> exact bus_driver_lock w unit pin

theorem bus_spi_lock_pin_if (c : Bool) (w : World) (unit : Nat) (pin : Int) :
    (spi_lock_pin_if c w unit pin).2.bus = w.bus := by
  unfold spi_lock_pin_if
  split_ifs
  · exact bus_spi_lock_pin w unit pin
  · rfl

theorem bus_spi_lock_then (r : Option SpiError × World) (c : Bool) (unit : Nat) (pin : Int) :
    (spi_lock_then r c unit pin).2.bus = r.2.bus := by
  unfold spi_lock_then
  split_ifs
  · rfl
  · exact bus_spi_lock_pin_if c r.2 unit pin

theorem bus_spi_lock_bus_resources (w : World) (unit flags : Nat) :
    (spi_lock_bus_resources w unit flags).2.bus = w.bus := by
  unfold spi_lock_bus_resources
  rw [bus_spi_lock_then, bus_spi_lock_then, bus_spi_lock_pin_if]

theorem bus_spi_setup_locks (w : World) (unit flags : Nat) (cs : Int) :
    (spi_setup_locks w unit flags cs).2.bus = w.bus := by
  unfold spi_setup_locks
  rw [bus_spi_lock_then]
  split_ifs
  · exact bus_spi_lock_bus_resources w unit flags
  · rfl

theorem bus_spi_unlock_bus_resources (w : World) (unit : Nat) :
    (spi_unlock_bus_resources w unit).bus = w.bus := by
  unfold spi_unlock_bus_resources
  simp only []
  split_ifs <;> rfl

theorem keeps_pins_spi_ll_save_registers (w : World) (unit device : Nat) :
    w.keeps_pins (spi_ll_save_registers w unit device) :=
  keeps_pins_updDev w unit device _

theorem keeps_pins_spi_ll_setup_slot (w : World) (unit : Nat) (cs : Int) (device : Nat)
    (w0 : World) (h : spi_ll_setup_slot w unit cs = some (device, w0)) : w.keeps_pins w0 := by
  have hu : w.keeps_pins (w.updBus unit (fun b => { b with last_device := -1 })) :=
    keeps_pins_updBus w unit _ (fun b hs => ⟨hs, rfl, rfl, rfl⟩)
  unfold spi_ll_setup_slot at h
  simp only [] at h
  split_ifs at h <;> simp only [Option.some.injEq, Prod.mk.injEq] at h <;>
    obtain ⟨-, rfl⟩ := h
  · exact keeps_pins_refl w
  · exact keeps_pins_trans _ _ _ hu (keeps_pins_of_bus_eq _ _ rfl)
  · exact hu
  · exact keeps_pins_of_bus_eq _ _ rfl
  · exact keeps_pins_refl w

theorem keeps_pins_spi_ll_setup_path (bd : Board) (w : World)
    (unit device mode speed flags : Nat) (w5 : World)
    (h : spi_ll_setup_path bd w unit device mode speed flags = some w5) :
    w.keeps_pins w5 := by
  unfold spi_ll_setup_path at h
  split_ifs at h
  · split at h
    · exact absurd h (by simp)
    · simp only [Option.some.injEq] at h
      subst h
      exact keeps_pins_trans _ _ _ (keeps_pins_of_bus_eq _ _ rfl)
        (keeps_pins_updBus _ unit _ (fun b _ => ⟨lor_ne_zero _ _ (by decide), rfl, rfl, rfl⟩))
  · simp only [Option.some.injEq] at h
    subst h
    refine keeps_pins_trans _ _ _ ?_
      (keeps_pins_updBus _ unit _ (fun b _ => ⟨lor_ne_zero _ _ (by decide), rfl, rfl, rfl⟩))
    exact keeps_pins_trans _ _ _ (keeps_pins_of_bus_eq w _ rfl) (keeps_pins_updDev _ unit device _)

/-- After either transfer path of `spi_ll_setup` the setup state of the bus
is not zero. -/
theorem setup_ne_zero_spi_ll_setup_path (bd : Board) (w : World)
    (unit device mode speed flags : Nat) (w5 : World) (hb : spi_idx unit < w.bus.length)
    (h : spi_ll_setup_path bd w unit device mode speed flags = some w5) :
    (w5.getBus unit).setup ≠ 0 := by
  unfold spi_ll_setup_path at h
  split_ifs at h
  · split at h
    · exact absurd h (by simp)
    · simp only [Option.some.injEq] at h
      subst h
      rw [getBus_updBus _ _ _ (by exact hb)]
      exact lor_ne_zero _ _ (by decide)
  · simp only [Option.some.injEq] at h
    subst h
    rw [getBus_updBus _ _ _ (by
      show spi_idx unit < (World.updDev _ _ _ _).bus.length
      simp only [World.updDev, World.setBus, List.length_set]
      exact hb)]
    exact lor_ne_zero _ _ (by decide)

theorem keeps_pins_spi_ll_setup_pre (bd : Board) (w0 : World) (unit device : Nat)
    (cs : Int) (flags : Nat) (w1 w2 : World)
    (h1 : w1 = if (w0.getBus unit).setup &&& SPI_DMA_SETUP = 0 then
      spi_setup_bus bd w0 unit flags else w0)
    (h2 : w2 = if (w1.getBus unit).setup = 0 ∧ flags &&& (SPI_FLAG_READ ||| SPI_FLAG_WRITE) ≠ 0
      then w1.emit (Event.syslog unit) else w1) :
    w0.keeps_pins (((w2.emit (Event.gpio_pin_output cs)).emit
      (Event.gpio_ll_pin_set cs)).updDev unit device (fun d => { d with cs := cs })) := by
  have e1 : w1.bus = w0.bus := by
    rw [h1]; split_ifs <;> rfl
  have e2 : w2.bus = w1.bus := by
    rw [h2]; split_ifs <;> rfl
  refine keeps_pins_trans _ _ _ (keeps_pins_of_bus_eq w0 _ ?_) (keeps_pins_updDev _ unit device _)
  show w2.bus = w0.bus
  rw [e2, e1]

/-- `spi_ll_setup` keeps the pins of every bus that has a setup state, and a
call that returns 0 leaves the bus of the unit with a setup state. -/
theorem keeps_pins_spi_ll_setup (bd : Board) (w : World) (unit master : Nat) (cs : Int)
    (mode speed flags : Nat) (ret : Int) (id : Option Int) (w' : World)
    (h : spi_ll_setup bd w unit master cs mode speed flags = some (ret, id, w')) :
    w.keeps_pins w' ∧ (ret = 0 → spi_idx unit < w.bus.length → (w'.getBus unit).setup ≠ 0) := by
  unfold spi_ll_setup at h
  simp only [] at h
  split at h
  · simp only [Option.some.injEq, Prod.mk.injEq] at h
    obtain ⟨hr, -, rfl⟩ := h
    exact ⟨keeps_pins_refl w, fun h0 => absurd (hr.trans h0) (by decide)⟩
  · rename_i device w0 hslot
    split at h
    · exact absurd h (by simp)
    · rename_i w5 hpath
      simp only [Option.some.injEq, Prod.mk.injEq] at h
      obtain ⟨-, -, rfl⟩ := h
      have k0 := keeps_pins_spi_ll_setup_slot w unit cs device w0 hslot
      have k1 := keeps_pins_spi_ll_setup_pre bd w0 unit device cs flags _ _ rfl rfl
      have k2 := keeps_pins_spi_ll_setup_path bd _ unit device mode _ flags w5 hpath
      have k3 : w5.keeps_pins (spi_ll_save_registers (w5.updDev unit device (fun d =>
          { d with mode := mode, dma := decide (flags &&& SPI_FLAG_NO_DMA = 0) }))
          unit device) :=
        keeps_pins_trans _ _ _ (keeps_pins_updDev _ unit device _)
          (keeps_pins_spi_ll_save_registers _ unit device)
      refine ⟨keeps_pins_trans _ _ _ (keeps_pins_trans _ _ _ (keeps_pins_trans _ _ _ k0 k1) k2) k3,
        fun _ hb => ?_⟩
      have hlen := (keeps_pins_trans _ _ _ k0 k1).1
      have h5 := setup_ne_zero_spi_ll_setup_path bd _ unit device mode _ flags w5
        (by rw [hlen]; exact hb) hpath
      exact (k3.2 unit h5).1

theorem keeps_pins_spi_setup (bd : Board) (w : World) (unit master : Nat) (cs : Int)
    (mode speed flags : Nat) (e : Option SpiError) (id : Option Int) (w' : World)
    (h : spi_setup bd w unit master cs mode speed flags = some (e, id, w')) :
    w.keeps_pins w' ∧ (e = none → spi_idx unit < w.bus.length → (w'.getBus unit).setup ≠ 0) := by
  unfold spi_setup at h
  split at h
  · simp only [Option.some.injEq, Prod.mk.injEq] at h
    obtain ⟨he, -, rfl⟩ := h
    exact ⟨keeps_pins_refl w, fun h0 => absurd (he.trans h0) (by simp)⟩
  · split at h
    · simp only [Option.some.injEq, Prod.mk.injEq] at h
      obtain ⟨he, -, rfl⟩ := h
      exact ⟨keeps_pins_of_bus_eq _ _ (bus_spi_setup_locks w unit flags _),
        fun h0 => absurd (he.trans h0) (by simp)⟩
    · split at h
      · exact absurd h (by simp)
      · rename_i ret id1 w1 hll
        simp only [Option.some.injEq, Prod.mk.injEq] at h
        obtain ⟨he, -, rfl⟩ := h
        obtain ⟨k, ks⟩ := keeps_pins_spi_ll_setup bd _ unit master _ mode speed flags ret id1
          w1 hll
        have kl : w.keeps_pins
            (spi_lock (spi_setup_locks w unit flags (spi_default_cs bd unit cs)).2 unit) :=
          keeps_pins_of_bus_eq _ _ (bus_spi_setup_locks w unit flags _)
        have ku : w1.keeps_pins (spi_unlock w1 unit) := keeps_pins_of_bus_eq _ _ rfl
        refine ⟨keeps_pins_trans _ _ _ (keeps_pins_trans _ _ _ kl k) ku, fun h0 hb => ?_⟩
        have hr0 : ret = 0 := by
          by_contra hne
          rw [if_pos hne] at he
          exact absurd (he.trans h0) (by simp)
        have h1 := ks hr0 (by rw [kl.1]; exact hb)
        exact (ku.2 unit h1).1

theorem keeps_pins_updBus_unlocked (w : World) (unit : Nat) (f : SpiBus → SpiBus)
    (h0 : (w.getBus unit).setup = 0) : w.keeps_pins (w.updBus unit f) := by
  refine keeps_pins_setBus w unit _ (fun hs => absurd h0 hs)

theorem setup_updBus (w : World) (unit : Nat) (f : SpiBus → SpiBus)
    (hf : ∀ b, (f b).setup = b.setup) :
    ((w.updBus unit f).getBus unit).setup = (w.getBus unit).setup := by
  unfold World.updBus
  rcases getBus_setBus_cases w unit unit
      { (f (w.getBus unit)) with device := (w.getBus unit).device } with hc | ⟨hc, -⟩
  · rw [hc]
  · rw [hc]
    exact hf _

theorem keeps_pins_updBus_if (c : Prop) [Decidable c] (w : World) (unit : Nat)
    (f : SpiBus → SpiBus) (hf : ∀ b, (f b).setup = b.setup)
    (h0 : (w.getBus unit).setup = 0) :
    w.keeps_pins (if c then w.updBus unit f else w)
      ∧ ((if c then w.updBus unit f else w).getBus unit).setup = 0 := by
  split_ifs
  · exact ⟨keeps_pins_updBus_unlocked w unit f h0, (setup_updBus w unit f hf).trans h0⟩
  · exact ⟨keeps_pins_refl w, h0⟩

theorem spi_pin_map_world (bd : Board) (w : World) (unit : Nat) (miso mosi clk : Int) :
    (spi_pin_map bd w unit miso mosi clk).2 = w
    ∨ (spi_pin_map bd w unit miso mosi clk).2 = spi_unlock (spi_lock w unit) unit
    ∨ ((w.getBus unit).setup = 0
       ∧ (spi_pin_map bd w unit miso mosi clk).2
          = spi_unlock
              (if 0 ≤ clk then
                (if 0 ≤ mosi then
                  (if 0 ≤ miso then
                    (spi_lock w unit).updBus unit (fun b => { b with miso := miso })
                   else spi_lock w unit).updBus unit (fun b => { b with mosi := mosi })
                 else
                  (if 0 ≤ miso then
                    (spi_lock w unit).updBus unit (fun b => { b with miso := miso })
                   else spi_lock w unit)).updBus unit (fun b => { b with clk := clk })
               else
                (if 0 ≤ mosi then
                  (if 0 ≤ miso then
                    (spi_lock w unit).updBus unit (fun b => { b with miso := miso })
                   else spi_lock w unit).updBus unit (fun b => { b with mosi := mosi })
                 else
                  (if 0 ≤ miso then
                    (spi_lock w unit).updBus unit (fun b => { b with miso := miso })
                   else spi_lock w unit))) unit) := by
  unfold spi_pin_map
  by_cases h1 : (!spi_unit_ok unit) = true
  · left; rw [if_pos h1]
  · rw [if_neg h1]
    simp only []
    by_cases h2 : ((spi_lock w unit).getBus unit).setup ≠ 0
    · right; left; rw [if_pos h2]
    · rw [if_neg h2]
      by_cases h3 : (!gpio_mask_test bd.GPIO_ALL_IN ((spi_lock w unit).getBus unit).miso) = true
          ∧ 0 ≤ miso
      · right; left; rw [if_pos h3]
      rw [if_neg h3]
      by_cases h4 : (!gpio_mask_test bd.GPIO_ALL_OUT ((spi_lock w unit).getBus unit).mosi) = true
          ∧ 0 ≤ mosi
      · right; left; rw [if_pos h4]
      rw [if_neg h4]
      by_cases h5 : (!gpio_mask_test bd.GPIO_ALL_IN ((spi_lock w unit).getBus unit).clk) = true
          ∧ 0 ≤ clk
      · right; left; rw [if_pos h5]
      rw [if_neg h5]
      by_cases h6 : (!TEST_UNIQUE3 ((spi_lock w unit).getBus unit).mosi
          ((spi_lock w unit).getBus unit).miso ((spi_lock w unit).getBus unit).clk) = true
      · right; left; rw [if_pos h6]
      rw [if_neg h6]
      right; right
      refine ⟨not_not.1 h2, ?_⟩
      split_ifs <;> rfl

theorem keeps_pins_spi_pin_map (bd : Board) (w : World) (unit : Nat) (miso mosi clk : Int) :
    w.keeps_pins (spi_pin_map bd w unit miso mosi clk).2 := by
  rcases spi_pin_map_world bd w unit miso mosi clk with h | h | ⟨h0, h⟩
  · rw [h]; exact keeps_pins_refl w
  · rw [h]; exact keeps_pins_of_bus_eq _ _ rfl
  · rw [h]
    have hl0 : ((spi_lock w unit).getBus unit).setup = 0 := h0
    obtain ⟨k1, z1⟩ := keeps_pins_updBus_if (0 ≤ miso) (spi_lock w unit) unit
      (fun b => { b with miso := miso }) (fun _ => rfl) hl0
    obtain ⟨k2, z2⟩ := keeps_pins_updBus_if (0 ≤ mosi) _ unit
      (fun b => { b with mosi := mosi }) (fun _ => rfl) z1
    obtain ⟨k3, -⟩ := keeps_pins_updBus_if (0 ≤ clk) _ unit
      (fun b => { b with clk := clk }) (fun _ => rfl) z2
    have kl : w.keeps_pins (spi_lock w unit) := keeps_pins_of_bus_eq _ _ rfl
    exact keeps_pins_trans _ _ _ (keeps_pins_trans _ _ _ (keeps_pins_trans _ _ _
      (keeps_pins_trans _ _ _ kl k1) k2) k3) (keeps_pins_of_bus_eq _ _ rfl)

theorem keeps_pins_emit (w w1 : World) (e : Event) (h : w.keeps_pins w1) :
    w.keeps_pins (w1.emit e) :=
  keeps_pins_trans _ _ _ h (keeps_pins_of_bus_eq _ _ rfl)

theorem keeps_pins_then_updBus (w w1 : World) (unit : Nat) (f : SpiBus → SpiBus)
    (h : w.keeps_pins w1) (hf : ∀ b, bus_keeps_pins b (f b)) :
    w.keeps_pins (w1.updBus unit f) :=
  keeps_pins_trans _ _ _ h (keeps_pins_updBus w1 unit f hf)

theorem keeps_pins_then_updDev (w w1 : World) (unit i : Nat) (f : SpiDevice → SpiDevice)
    (h : w.keeps_pins w1) : w.keeps_pins (w1.updDev unit i f) :=
  keeps_pins_trans _ _ _ h (keeps_pins_updDev w1 unit i f)

theorem keeps_pins_spi_ll_restore_registers (w : World) (unit device : Nat) :
    w.keeps_pins (spi_ll_restore_registers w unit device) :=
  keeps_pins_of_bus_eq _ _ rfl

theorem keeps_pins_spi_ll_select (w : World) (deviceid : Int) :
    w.keeps_pins (spi_ll_select w deviceid) := by
  unfold spi_ll_select
  simp only []
  refine keeps_pins_emit _ _ _ (keeps_pins_then_updBus _ _ _ _ ?_
    (fun b hs => ⟨hs, rfl, rfl, rfl⟩))
  split_ifs
  · exact keeps_pins_trans _ _ _ (keeps_pins_emit w w _ (keeps_pins_refl w))
      (keeps_pins_spi_ll_restore_registers _ _ _)
  · exact keeps_pins_emit w w _ (keeps_pins_refl w)

theorem keeps_pins_spi_select (w : World) (deviceid : Int) :
    w.keeps_pins (spi_select w deviceid).2 := by
  unfold spi_select
  split
  · exact keeps_pins_refl w
  · exact keeps_pins_spi_ll_select w deviceid

theorem keeps_pins_spi_ll_deselect (w : World) (deviceid : Int) :
    w.keeps_pins (spi_ll_deselect w deviceid) := by
  unfold spi_ll_deselect
  simp only []
  exact keeps_pins_emit _ _ _ (keeps_pins_then_updBus _ _ _ _
    (keeps_pins_emit w w _ (keeps_pins_refl w)) (fun b hs => ⟨hs, rfl, rfl, rfl⟩))

theorem keeps_pins_spi_deselect (w : World) (deviceid : Int) :
    w.keeps_pins (spi_deselect w deviceid).2 := by
  unfold spi_deselect
  split
  · exact keeps_pins_refl w
  · exact keeps_pins_spi_ll_deselect w deviceid

theorem keeps_pins_spi_ll_unsetup (w : World) (deviceid : Int) :
    w.keeps_pins (spi_ll_unsetup w deviceid) := by
  unfold spi_ll_unsetup
  simp only []
  refine keeps_pins_emit _ _ _ (keeps_pins_trans _ _ _ ?_
    (keeps_pins_of_bus_eq _ _ (bus_spi_unlock_bus_resources _ _)))
  have h0 : w.keeps_pins (spi_lock w (id_unit deviceid)) :=
    keeps_pins_emit w w _ (keeps_pins_refl w)
  split_ifs
  · exact keeps_pins_then_updDev _ _ _ _ _
      (keeps_pins_trans _ _ _ h0 (keeps_pins_of_bus_eq _ _ rfl))
  · exact keeps_pins_then_updDev _ _ _ _ _
      (keeps_pins_trans _ _ _ h0 (keeps_pins_of_bus_eq _ _ rfl))
  · exact h0

theorem keeps_pins_spi_unsetup (w : World) (deviceid : Int) :
    w.keeps_pins (spi_unsetup w deviceid).2 := by
  unfold spi_unsetup
  split
  · exact keeps_pins_refl w
  · exact keeps_pins_spi_ll_unsetup w deviceid

theorem keeps_pins_spi_get_speed (w : World) (deviceid : Int) :
    w.keeps_pins (spi_get_speed w deviceid).2 := by
  unfold spi_get_speed
  split
  · exact keeps_pins_refl w
  · exact keeps_pins_of_bus_eq _ _ rfl

theorem keeps_pins_spi_ll_set_speed_path (w : World) (unit device speed : Nat) (w2 : World)
    (h : spi_ll_set_speed_path w unit device speed = some w2) : w.keeps_pins w2 := by
  unfold spi_ll_set_speed_path at h
  split_ifs at h
  · split at h
    · exact absurd h (by simp)
    · simp only [Option.some.injEq] at h
      subst h
      exact keeps_pins_of_bus_eq _ _ rfl
  · simp only [Option.some.injEq] at h
    subst h
    exact keeps_pins_then_updDev _ _ _ _ _ (keeps_pins_of_bus_eq w _ rfl)

theorem keeps_pins_spi_ll_set_speed (bd : Board) (w : World) (deviceid : Int) (speed : Nat)
    (w' : World) (h : spi_ll_set_speed bd w deviceid speed = some w') : w.keeps_pins w' := by
  unfold spi_ll_set_speed at h
  simp only [] at h
  split at h
  · exact absurd h (by simp)
  · rename_i w2 hp
    simp only [Option.some.injEq] at h
    subst h
    have h1 := keeps_pins_updBus w (id_unit deviceid)
      (fun b => { b with last_device := -1 }) (fun b hs => ⟨hs, rfl, rfl, rfl⟩)
    have h2 := keeps_pins_spi_ll_set_speed_path _ _ _ _ w2 hp
    exact keeps_pins_trans _ _ _ (keeps_pins_trans _ _ _ h1 h2)
      (keeps_pins_spi_ll_save_registers w2 _ _)

theorem keeps_pins_spi_set_speed (bd : Board) (w : World) (deviceid : Int) (speed : Nat)
    (e : Option SpiError) (w' : World) (h : spi_set_speed bd w deviceid speed = some (e, w')) :
    w.keeps_pins w' := by
  unfold spi_set_speed at h
  split at h
  · simp only [Option.some.injEq, Prod.mk.injEq] at h
    obtain ⟨-, rfl⟩ := h
    exact keeps_pins_refl w
  · split at h
    · exact absurd h (by simp)
    · rename_i w1 hll
      simp only [Option.some.injEq, Prod.mk.injEq] at h
      obtain ⟨-, rfl⟩ := h
      exact keeps_pins_emit _ _ _ (keeps_pins_trans _ _ _
        (keeps_pins_emit w w _ (keeps_pins_refl w))
        (keeps_pins_spi_ll_set_speed bd _ deviceid speed w1 hll))

/-! ### Transfers leave the bus table as it is -/

theorem bus_spi_master_op (env : XferEnv) (w : World) (deviceid : Int) (word_size len : Nat)
    (inp out : Option (List Nat)) (buffer0 : List Nat) (x : XferResult)
    (h : spi_master_op env w deviceid word_size len inp out buffer0 = Run.done x) :
    x.world.bus = w.bus := by
  unfold spi_master_op at h
  simp only [] at h
  by_cases hd : (!((w.getBus (id_unit deviceid)).dev (id_device deviceid)).dma) = true
  · rw [if_pos hd] at h
    split at h
    · simp only [Run.done.injEq] at h
      subst h
      rfl
    · exact absurd h (by simp)
    · exact absurd h (by simp)
  · rw [if_neg hd] at h
    by_cases hm : inp.isSome = true ∧ env.in_rodata = true ∧ (!env.malloc_ok) = true
    · rw [if_pos hm] at h
      exact absurd h (by simp)
    · rw [if_neg hm] at h
      split at h
      · simp only [Run.done.injEq] at h
        subst h
        rfl
      · exact absurd h (by simp)
      · exact absurd h (by simp)

theorem bus_op_of_xfer (w : World) (data : Option (List Nat)) (r : Run XferResult)
    (o : OpResult) (hr : ∀ x, r = Run.done x → x.world.bus = w.bus)
    (h : op_of_xfer data r = Run.done o) : o.world.bus = w.bus := by
  unfold op_of_xfer at h
  split at h
  · rename_i x
    simp only [Run.done.injEq] at h
    subst h
    exact hr x rfl
  · exact absurd h (by simp)
  · exact absurd h (by simp)

theorem bus_spi_ll_rw_body (env : XferEnv) (w : World) (deviceid : Int)
    (word_size len copy : Nat) (data tmp buffer0 : List Nat) (o : OpResult)
    (h : spi_ll_rw_body env w deviceid word_size len copy data tmp buffer0 = Run.done o) :
    o.world.bus = w.bus := by
  unfold spi_ll_rw_body at h
  split_ifs at h
  · split at h
    · rename_i x hx
      simp only [Run.done.injEq] at h
      subst h
      exact bus_spi_master_op env w deviceid word_size len _ _ buffer0 x hx
    · exact absurd h (by simp)
    · exact absurd h (by simp)
  · simp only [Run.done.injEq] at h
    subst h
    rfl

theorem bus_spi_checked_op (w : World) (deviceid : Int) (data : Option (List Nat))
    (ll : Run OpResult) (o : OpResult) (hl : ∀ x, ll = Run.done x → x.world.bus = w.bus)
    (h : spi_checked_op w deviceid data ll = Run.done o) : o.world.bus = w.bus := by
  unfold spi_checked_op at h
  split at h
  · simp only [Run.done.injEq] at h
    subst h
    rfl
  · exact hl o h

theorem keeps_pins_spi_step (bd : Board) (w w' : World) (h : SpiStep bd w w') :
    w.keeps_pins w' := by
  cases h with
  | setup _ unit master cs mode speed flags e id _ h =>
    exact (keeps_pins_spi_setup bd w unit master cs mode speed flags e id w' h).1
  | pin_map _ unit miso mosi clk => exact keeps_pins_spi_pin_map bd w unit miso mosi clk
  | select _ deviceid => exact keeps_pins_spi_select w deviceid
  | deselect _ deviceid => exact keeps_pins_spi_deselect w deviceid
  | unsetup _ deviceid => exact keeps_pins_spi_unsetup w deviceid
  | get_speed _ deviceid => exact keeps_pins_spi_get_speed w deviceid
  | set_speed _ deviceid speed e _ h => exact keeps_pins_spi_set_speed bd w deviceid speed e w' h
  | transfer env _ deviceid data read buffer0 r h =>
    exact keeps_pins_of_bus_eq _ _ (bus_spi_checked_op w deviceid _ _ r
      (fun x hx => bus_op_of_xfer w _ _ x
        (fun y hy => bus_spi_master_op env w deviceid _ _ _ _ _ y hy) hx) h)
  | bulk_write env _ deviceid n data buffer0 r h =>
    exact keeps_pins_of_bus_eq _ _ (bus_spi_checked_op w deviceid _ _ r
      (fun x hx => bus_op_of_xfer w _ _ x
        (fun y hy => bus_spi_master_op env w deviceid _ _ _ _ _ y hy) hx) h)
  | bulk_read env _ deviceid n data buffer0 r h =>
    exact keeps_pins_of_bus_eq _ _ (bus_spi_checked_op w deviceid _ _ r
      (fun x hx => bus_op_of_xfer w _ _ x
        (fun y hy => bus_spi_master_op env w deviceid _ _ _ _ _ y hy) hx) h)
  | bulk_rw env _ deviceid n data tmp buffer0 r h =>
    exact keeps_pins_of_bus_eq _ _ (bus_spi_checked_op w deviceid _ _ r
      (fun x hx => bus_spi_ll_rw_body env w deviceid _ _ _ _ _ _ x hx) h)
  | bulk_write16 env _ deviceid n data buffer0 r h =>
    exact keeps_pins_of_bus_eq _ _ (bus_spi_checked_op w deviceid _ _ r
      (fun x hx => bus_op_of_xfer w _ _ x
        (fun y hy => bus_spi_master_op env w deviceid _ _ _ _ _ y hy) hx) h)
  | bulk_read16 env _ deviceid n data buffer0 r h =>
    exact keeps_pins_of_bus_eq _ _ (bus_spi_checked_op w deviceid _ _ r
      (fun x hx => bus_op_of_xfer w _ _ x
        (fun y hy => bus_spi_master_op env w deviceid _ _ _ _ _ y hy) hx) h)
  | bulk_rw16 env _ deviceid n data tmp buffer0 r h =>
    exact keeps_pins_of_bus_eq _ _ (bus_spi_checked_op w deviceid _ _ r
      (fun x hx => bus_spi_ll_rw_body env w deviceid _ _ _ _ _ _ x hx) h)
  | bulk_write32 env _ deviceid n data buffer0 r h =>
    exact keeps_pins_of_bus_eq _ _ (bus_spi_checked_op w deviceid _ _ r
      (fun x hx => bus_op_of_xfer w _ _ x
        (fun y hy => bus_spi_master_op env w deviceid _ _ _ _ _ y hy) hx) h)
  | bulk_read32 env _ deviceid n data buffer0 r h =>
    exact keeps_pins_of_bus_eq _ _ (bus_spi_checked_op w deviceid _ _ r
      (fun x hx => bus_op_of_xfer w _ _ x
        (fun y hy => bus_spi_master_op env w deviceid _ _ _ _ _ y hy) hx) h)
  | bulk_rw32 env _ deviceid n data tmp buffer0 r h =>
    exact keeps_pins_of_bus_eq _ _ (bus_spi_checked_op w deviceid _ _ r
      (fun x hx => bus_spi_ll_rw_body env w deviceid _ _ _ _ _ _ x hx) h)

theorem keeps_pins_spi_reach (bd : Board) (w w' : World) (h : SpiReach bd w w') :
    w.keeps_pins w' := by
  induction h with
  | refl => exact keeps_pins_refl w
  | step w1 w2 _ h2 ih => exact keeps_pins_trans _ _ _ ih (keeps_pins_spi_step bd w1 w2 h2)

theorem spi_pin_map_locked (bd : Board) (w : World) (unit : Nat) (miso mosi clk : Int)
    (hu : spi_unit_ok unit = true) (hs : (w.getBus unit).setup ≠ 0) :
    (spi_pin_map bd w unit miso mosi clk).1 = some SpiError.CannotChangePinMap
    ∧ (spi_pin_map bd w unit miso mosi clk).2.bus = w.bus := by
  unfold spi_pin_map
  rw [if_neg (by simp [hu])]
  simp only []
  rw [if_pos (show ((spi_lock w unit).getBus unit).setup ≠ 0 from hs)]
  exact ⟨rfl, rfl⟩

/-- Claim C16. After a `spi_setup` that succeeded on a bus, in every state
reachable by further calls of operations of the driver, `spi_pin_map` on that
bus fails with cannot-change-pin-map and leaves the bus table as it is, and
the data-in, data-out and clock pins of the bus are those it had when
`spi_setup` returned (which are those it had when `spi_setup` was called). -/
theorem spi_pin_map_locked_after_setup (bd : Board) (w w1 w2 : World) (unit master : Nat)
    (cs : Int) (mode speed flags : Nat) (id : Option Int) (miso mosi clk : Int)
    (hwf : w.wf = true)
    (hs : spi_setup bd w unit master cs mode speed flags = some (none, id, w1))
    (hr : SpiReach bd w1 w2) :
    (spi_pin_map bd w2 unit miso mosi clk).1 = some SpiError.CannotChangePinMap
    ∧ (spi_pin_map bd w2 unit miso mosi clk).2.bus = w2.bus
    ∧ (w2.getBus unit).miso = (w1.getBus unit).miso
    ∧ (w2.getBus unit).mosi = (w1.getBus unit).mosi
    ∧ (w2.getBus unit).clk = (w1.getBus unit).clk
    ∧ ((spi_pin_map bd w2 unit miso mosi clk).2.getBus unit).miso = (w1.getBus unit).miso
    ∧ ((spi_pin_map bd w2 unit miso mosi clk).2.getBus unit).mosi = (w1.getBus unit).mosi
    ∧ ((spi_pin_map bd w2 unit miso mosi clk).2.getBus unit).clk = (w1.getBus unit).clk := by
  have hu : spi_unit_ok unit = true := by
    cases hk : spi_unit_ok unit
    · exfalso
      have hc : spi_setup_checks bd w unit master cs mode flags = some SpiError.InvalidUnit := by
        unfold spi_setup_checks
        rw [hk]; rfl
      rw [spi_setup_of_checks bd w unit master cs mode speed flags _ hc] at hs
      simp at hs
    · rfl
  obtain ⟨hbl, -, -⟩ := wf_lengths w hwf
  have hi := spi_idx_lt_two unit hu
  obtain ⟨-, h1⟩ := keeps_pins_spi_setup bd w unit master cs mode speed flags none id w1 hs
  have hs1 : (w1.getBus unit).setup ≠ 0 := h1 rfl (by omega)
  obtain ⟨hs2, p1, p2, p3⟩ := (keeps_pins_spi_reach bd w1 w2 hr).2 unit hs1
  obtain ⟨e1, e2⟩ := spi_pin_map_locked bd w2 unit miso mosi clk hu hs2
  have hg : (spi_pin_map bd w2 unit miso mosi clk).2.getBus unit = w2.getBus unit := by
    unfold World.getBus
    rw [e2]
  exact ⟨e1, e2, p1, p2, p3, by rw [hg, p1], by rw [hg, p2], by rw [hg, p3]⟩

set_option maxRecDepth 1000000 in
/-- Instance of claim C16: `spi_setup` on unit 2 of the ESP32 board after
initialisation, then `spi_pin_map(2, 25, 26, 27)` in the state it leaves. -/
theorem spi_pin_map_locked_after_setup_witness :
    ∃ w1, (spi_setup esp32_board esp32_init 2 1 15 0 1000000 7).map (fun r => r.2.2) = some w1
      ∧ (spi_pin_map esp32_board w1 2 25 26 27).1 = some SpiError.CannotChangePinMap
      ∧ ((spi_pin_map esp32_board w1 2 25 26 27).2.getBus 2).miso = 12
      ∧ ((spi_pin_map esp32_board w1 2 25 26 27).2.getBus 2).mosi = 13
      ∧ ((spi_pin_map esp32_board w1 2 25 26 27).2.getBus 2).clk = 14 := by
  cases hs : spi_setup esp32_board esp32_init 2 1 15 0 1000000 7 with
  | none => exact absurd hs (by decide)
  | some r =>
    obtain ⟨e, id, w1⟩ := r
    have he : e = none := by
      have : (spi_setup esp32_board esp32_init 2 1 15 0 1000000 7).map (fun r => r.1)
          = some none := by decide
      rw [hs] at this
      simpa using this
    subst he
    have hp : ((w1.getBus 2).miso, (w1.getBus 2).mosi, (w1.getBus 2).clk) = (12, 13, 14) := by
      have : (spi_setup esp32_board esp32_init 2 1 15 0 1000000 7).map
          (fun r => ((r.2.2.getBus 2).miso, (r.2.2.getBus 2).mosi, (r.2.2.getBus 2).clk))
          = some (12, 13, 14) := by decide
      rw [hs] at this
      simpa using this
    simp only [Prod.mk.injEq] at hp
    obtain ⟨a, b, c, d, f, g, h, i⟩ := spi_pin_map_locked_after_setup esp32_board esp32_init
      w1 w1 2 1 15 0 1000000 7 id 25 26 27 (by decide) hs (SpiReach.refl w1)
    exact ⟨w1, rfl, a, by rw [g, hp.1], by rw [h, hp.2.1], by rw [i, hp.2.2]⟩

/-! ## The slot range test -/

/-- Claim C27 (refuted as stated). The device id `0x208` names unit 2 and slot
8, one past the last slot of the bus. The range test of the device operations
is `device > SPI_BUS_DEVICES`, which slot 8 passes: in no state does
`spi_select`, `spi_deselect`, `spi_unsetup`, `spi_get_speed` or `spi_set_speed`
answer invalid-device for this id; the configured flag of `device[8]` is
consulted instead. -/
theorem spi_slot_eight_not_invalid_device (bd : Board) (w : World) :
    id_unit 520 = 2 ∧ id_device 520 = SPI_BUS_DEVICES
    ∧ spi_check_device w 520
        = (if ((w.getBus 2).dev 8).setup then none else some SpiError.DeviceNotSetup)
    ∧ (spi_select w 520).1 ≠ some SpiError.InvalidDevice
    ∧ (spi_deselect w 520).1 ≠ some SpiError.InvalidDevice
    ∧ (spi_unsetup w 520).1 ≠ some SpiError.InvalidDevice
    ∧ (spi_get_speed w 520).1 ≠ some SpiError.InvalidDevice
    ∧ (∀ speed, (spi_set_speed bd w 520 speed).map (fun r => r.1)
        ≠ some (some SpiError.InvalidDevice))
    ∧ spi_check_selected w 520 ≠ some SpiError.InvalidDevice := by
  have hu : id_unit 520 = 2 := by decide
  have hd : id_device 520 = 8 := by decide
  have hc : spi_check_device w 520
      = (if ((w.getBus 2).dev 8).setup then none else some SpiError.DeviceNotSetup) := by
    unfold spi_check_device
    simp only [hu, hd]
    rw [if_neg (by decide), if_neg (by decide)]
    cases ((w.getBus 2).dev 8).setup <;> rfl
  have hne : spi_check_device w 520 ≠ some SpiError.InvalidDevice := by
    rw [hc]
    split_ifs <;> simp
  refine ⟨hu, hd, hc, ?_, ?_, ?_, ?_, ?_, ?_⟩
  · unfold spi_select
    split
    · rename_i e he
      intro h
      simp only [Option.some.injEq] at h
      exact hne (he.trans (congrArg some h))
    · simp
  · unfold spi_deselect
    split
    · rename_i e he
      intro h
      simp only [Option.some.injEq] at h
      exact hne (he.trans (congrArg some h))
    · simp
  · unfold spi_unsetup
    split
    · rename_i e he
      intro h
      simp only [Option.some.injEq] at h
      exact hne (he.trans (congrArg some h))
    · simp
  · unfold spi_get_speed
    split
    · rename_i e he
      intro h
      simp only [Option.some.injEq] at h
      exact hne (he.trans (congrArg some h))
    · simp
  · intro speed
    unfold spi_set_speed
    split
    · rename_i e he
      intro h
      simp only [Option.map_some', Option.some.injEq] at h
      exact hne (he.trans (congrArg some h))
    · split <;> simp
  · unfold spi_check_selected
    split
    · rename_i e he
      intro h
      simp only [Option.some.injEq] at h
      exact hne (he.trans (congrArg some h))
    · split_ifs <;> simp

/-! ## The speed on pins that are not the native pins -/

/-- Claim C29 (refuted as stated). When the bus does not use its native pins,
`spi_ll_setup` and `spi_ll_set_speed` replace every requested speed by
26,000,000, also one below it: the result of either function does not depend
on the requested speed and is the result for the speed 26,000,000. -/
theorem spi_speed_replaced_on_remapped_pins (bd : Board) (w : World) (unit master : Nat)
    (cs : Int) (mode speed flags : Nat) (deviceid : Int)
    (hn : spi_use_native_pins bd w unit = false) (hd : id_unit deviceid = unit) :
    spi_ll_setup bd w unit master cs mode speed flags
      = spi_ll_setup bd w unit master cs mode 26000000 flags
    ∧ spi_ll_set_speed bd w deviceid speed = spi_ll_set_speed bd w deviceid 26000000 := by
  constructor
  · unfold spi_ll_setup
    simp only [hn, Bool.not_false, if_true]
  · unfold spi_ll_set_speed
    simp only [hd, hn, Bool.not_false, if_true]

set_option maxRecDepth 1000000 in
/-- Instance of claim C29: on the ESP32 board with unit 2 routed to the pins
25, 26 and 27, a request for 1 MHz programs the clock register with the word
for 26 MHz (`0x2002`, 80 MHz / 3), not with the word for 1 MHz (`0x674e7`,
80 MHz / (2 * 40)). -/
theorem spi_speed_replaced_on_remapped_pins_witness :
    spi_use_native_pins esp32_board esp32_remapped 2 = false
    ∧ id_unit 512 = 2
    ∧ (spi_ll_setup esp32_board esp32_remapped 2 1 15 0 1000000 7
        = spi_ll_setup esp32_board esp32_remapped 2 1 15 0 26000000 7
      ∧ spi_ll_set_speed esp32_board esp32_remapped 512 1000000
        = spi_ll_set_speed esp32_board esp32_remapped 512 26000000)
    ∧ (spi_ll_set_speed esp32_board esp32_remapped 512 1000000).map
        (fun w => (w.getHw 2).CLOCK) = some 0x2002
    ∧ (spi_set_clock APB_CLK_FREQ 1000000 128).map (fun r => r.1) = some 0x674e7
    ∧ (spi_set_clock APB_CLK_FREQ 26000000 128).map (fun r => r.1) = some 0x2002 :=
  ⟨by decide, by decide,
   spi_speed_replaced_on_remapped_pins esp32_board esp32_remapped 2 1 15 0 1000000 7 512
     (by decide) (by decide),
   by decide, by decide, by decide⟩

/-! ## The checks of `spi_pin_map` -/

set_option maxRecDepth 1000000 in
/-- Claim C30 (refuted as stated). On the ESP32 board after initialisation,
with no device configured, `spi_pin_map(2, 5, 5, 5)` succeeds and assigns pin 5
to the data-in, the data-out and the clock signal of the bus: the test for
mutually distinct pins reads the pins assigned before the call (12, 13, 14),
not the requested ones. -/
theorem spi_pin_map_accepts_equal_pins :
    (esp32_init.getBus 2).setup = 0
    ∧ (spi_pin_map esp32_board esp32_init 2 5 5 5).1 = none
    ∧ ((spi_pin_map esp32_board esp32_init 2 5 5 5).2.getBus 2).miso = 5
    ∧ ((spi_pin_map esp32_board esp32_init 2 5 5 5).2.getBus 2).mosi = 5
    ∧ ((spi_pin_map esp32_board esp32_init 2 5 5 5).2.getBus 2).clk = 5 := by
  refine ⟨by decide, by decide, by decide, by decide, by decide⟩

/-! ## The software path of `spi_master_op` -/

theorem write_at_zero (buf src : List Nat) :
    write_at buf 0 src = src ++ buf.drop src.length := by
  unfold write_at
  simp

theorem spi_sw_chunk_bytes (env : XferEnv) (s : SwLoop) :
    (spi_sw_chunk env s).2.bytes = s.bytes - (if s.bytes > 64 then 64 else s.bytes) := by
  unfold spi_sw_chunk
  cases s.out <;> rfl

theorem spi_sw_chunk_inp (env : XferEnv) (s : SwLoop) :
    (spi_sw_chunk env s).2.inp
      = s.inp.map (fun src => src.drop (if s.bytes > 64 then 64 else s.bytes)) := by
  unfold spi_sw_chunk
  cases s.out <;> rfl

theorem spi_sw_chunk_dbitlen (env : XferEnv) (s : SwLoop) :
    (spi_sw_chunk env s).1.mosi_dbitlen
        = ((((if s.bytes > 64 then 64 else s.bytes) <<< 3) % 65536) - 1) &&& SPI_USR_MOSI_DBITLEN
    ∧ (spi_sw_chunk env s).1.miso_dbitlen
        = ((((if s.bytes > 64 then 64 else s.bytes) <<< 3) % 65536) - 1) &&& SPI_USR_MISO_DBITLEN := by
  unfold spi_sw_chunk
  cases s.out <;> exact ⟨rfl, rfl⟩

theorem spi_sw_chunk_tx (env : XferEnv) (s : SwLoop) :
    (spi_sw_chunk env s).1.tx
      = (((match s.inp with
            | some src => write_at s.buffer 0 (src.take (if s.bytes > 64 then 64 else s.bytes))
            | none => write_at s.buffer 0
                (List.replicate (if s.bytes > 64 then 64 else s.bytes) 0xff)).take
          (4 * ((((if s.bytes > 64 then 64 else s.bytes) <<< 3) % 65536 + 31) / 32))).take
          (if s.bytes > 64 then 64 else s.bytes)) := by
  unfold spi_sw_chunk
  cases s.out <;> rfl

theorem take_take_write_at (buf l : List Nat) (c k : Nat) (hl : l.length = c) (hk : c ≤ k) :
    ((write_at buf 0 l).take k).take c = l := by
  rw [write_at_zero, List.take_take, Nat.min_eq_left hk, List.take_append_of_le_length (by omega),
    List.take_of_length_le (by omega)]

/-- The bytes a chunk of the software path shifts out. -/
theorem spi_sw_chunk_tx_eq (env : XferEnv) (s : SwLoop)
    (hin : ∀ src, s.inp = some src → s.bytes ≤ src.length) :
    (spi_sw_chunk env s).1.tx
      = (match s.inp with
         | some src => src.take (if s.bytes > 64 then 64 else s.bytes)
         | none => List.replicate (if s.bytes > 64 then 64 else s.bytes) 0xff) := by
  rw [spi_sw_chunk_tx]
  have hc : (if s.bytes > 64 then 64 else s.bytes) ≤ 64 := by split_ifs <;> omega
  have hcb : (if s.bytes > 64 then 64 else s.bytes) ≤ s.bytes := by split_ifs <;> omega
  generalize (if s.bytes > 64 then 64 else s.bytes) = c at hc hcb ⊢
  have hk : c ≤ 4 * (((c <<< 3) % 65536 + 31) / 32) := by
    rw [Nat.shiftLeft_eq]
    omega
  cases hi : s.inp with
  | none =>
    simp only []
    exact take_take_write_at _ _ _ _ (by simp) hk
  | some src =>
    simp only []
    have := hin src hi
    exact take_take_write_at _ _ _ _ (by rw [List.length_take]; omega) hk

theorem and_mask24 (n : Nat) (h : n < 16777216) : n &&& 0x00FFFFFF = n := by
  have : (0x00FFFFFF : Nat) = 2 ^ 24 - 1 := by norm_num
  rw [this, Nat.and_pow_two_sub_one_eq_mod]
  exact Nat.mod_eq_of_lt (by norm_num; exact h)

theorem spi_sw_chunk_dbitlen_eq (env : XferEnv) (s : SwLoop) :
    (spi_sw_chunk env s).1.mosi_dbitlen = 8 * (if s.bytes > 64 then 64 else s.bytes) - 1
    ∧ (spi_sw_chunk env s).1.miso_dbitlen = 8 * (if s.bytes > 64 then 64 else s.bytes) - 1 := by
  obtain ⟨h1, h2⟩ := spi_sw_chunk_dbitlen env s
  rw [h1, h2]
  have hc : (if s.bytes > 64 then 64 else s.bytes) ≤ 64 := by split_ifs <;> omega
  generalize (if s.bytes > 64 then 64 else s.bytes) = c at hc ⊢
  have e : (c <<< 3) % 65536 = 8 * c := by
    rw [Nat.shiftLeft_eq]
    omega
  rw [e]
  unfold SPI_USR_MOSI_DBITLEN SPI_USR_MISO_DBITLEN
  exact ⟨and_mask24 _ (by omega), and_mask24 _ (by omega)⟩

/-- What the software loop does with `s.bytes` bytes left, given at least that
many iterations. -/
theorem spi_sw_loop_spec (env : XferEnv) :
    ∀ (fuel : Nat) (s : SwLoop), s.bytes ≤ fuel →
      (∀ src, s.inp = some src → s.bytes ≤ src.length) →
      ∃ cs sf, spi_sw_loop env fuel s = Run.done (cs, sf)
        ∧ cs.length = (s.bytes + 63) / 64
        ∧ (∀ c ∈ cs, 1 ≤ c.tx.length ∧ c.tx.length ≤ 64
            ∧ c.mosi_dbitlen = 8 * c.tx.length - 1 ∧ c.miso_dbitlen = 8 * c.tx.length - 1)
        ∧ (∀ c ∈ cs.dropLast, c.tx.length = 64)
        ∧ (cs.map (fun c => c.tx)).flatten
            = (s.inp.map (fun src => src.take s.bytes)).getD
                (List.replicate s.bytes 0xff) := by
  intro fuel
  induction fuel with
  | zero =>
    intro s hf _
    have hb : s.bytes = 0 := by omega
    refine ⟨[], s, ?_, ?_, ?_, ?_, ?_⟩
    · unfold spi_sw_loop
      rw [if_pos hb]
    · rw [hb]; rfl
    · intro c hc; cases hc
    · intro c hc; cases hc
    · rw [hb]
      cases s.inp <;> simp
  | succ n ih =>
    intro s hf hin
    by_cases hb : s.bytes = 0
    · refine ⟨[], s, ?_, ?_, ?_, ?_, ?_⟩
      · unfold spi_sw_loop
        rw [if_pos hb]
      · rw [hb]; rfl
      · intro c hc; cases hc
      · intro c hc; cases hc
      · rw [hb]
        cases s.inp <;> simp
    · have hlen : (spi_sw_chunk env s).1.tx.length = (if s.bytes > 64 then 64 else s.bytes) := by
        rw [spi_sw_chunk_tx_eq env s hin]
        cases hi : s.inp with
        | none => simp
        | some src =>
          have := hin src hi
          simp only [List.length_take]
          split_ifs <;> omega
      have hb2 := spi_sw_chunk_bytes env s
      have hi2 := spi_sw_chunk_inp env s
      have hin2 : ∀ src, (spi_sw_chunk env s).2.inp = some src →
          (spi_sw_chunk env s).2.bytes ≤ src.length := by
        intro src hs
        rw [hi2] at hs
        cases hi : s.inp with
        | none => rw [hi] at hs; cases hs
        | some src0 =>
          rw [hi] at hs
          simp only [Option.map_some', Option.some.injEq] at hs
          have := hin src0 hi
          rw [← hs, hb2, List.length_drop]
          omega
      obtain ⟨cs, sf, hrun, hl, hall, hfull, hjoin⟩ :=
        ih (spi_sw_chunk env s).2 (by rw [hb2]; split_ifs <;> omega) hin2
      refine ⟨(spi_sw_chunk env s).1 :: cs, sf, ?_, ?_, ?_, ?_, ?_⟩
      · rw [spi_sw_loop, if_neg hb, hrun]
      · rw [List.length_cons, hl, hb2]
        split_ifs <;> omega
      · intro c hc
        rcases List.mem_cons.1 hc with h | h
        · subst h
          obtain ⟨d1, d2⟩ := spi_sw_chunk_dbitlen_eq env s
          rw [hlen]
          refine ⟨?_, ?_, d1, d2⟩ <;> split_ifs <;> omega
        · exact hall c h
      · intro c hc
        cases cs with
        | nil => simp at hc
        | cons c1 cs1 =>
          rw [List.dropLast_cons₂] at hc
          rcases List.mem_cons.1 hc with h | h
          · subst h
            rw [hlen]
            have : (spi_sw_chunk env s).2.bytes ≠ 0 := by
              intro h0
              rw [h0] at hl
              simp at hl
            rw [hb2] at this
            split_ifs at this ⊢ <;> omega
          · exact hfull c h
      · rw [List.map_cons, List.flatten_cons, hjoin, spi_sw_chunk_tx_eq env s hin, hi2, hb2]
        cases hi : s.inp with
        | none =>
          simp only [Option.map_none', Option.getD_none]
          rw [← List.replicate_add]
          congr 1
          split_ifs <;> omega
        | some src =>
          simp only [Option.map_some', Option.getD_some]
          rw [← List.take_add]
          congr 1
          split_ifs <;> omega

/-- Claim C18. On the software path (device without the hardware-assisted
flag), `spi_master_op` with `B = word_size * len` bytes (as a 32-bit unsigned
value) returns, given that each wait for the peripheral returns, after exactly
`ceil(B / 64)` chunks and no transaction; each chunk shifts out between 1 and
64 bytes, all chunks but the last exactly 64; the two bit-length fields of a
chunk of `c` bytes are programmed with `8 * c - 1`; and the bytes shifted out,
in chunk order, are the first `B` bytes of the source buffer, or `B` bytes
`0xFF` when there is no source buffer. -/
theorem spi_master_op_software_chunks (env : XferEnv) (w : World) (deviceid : Int)
    (word_size len : Nat) (inp out : Option (List Nat)) (buffer0 : List Nat)
    (hd : ((w.getBus (id_unit deviceid)).dev (id_device deviceid)).dma = false)
    (hin : ∀ src, inp = some src → (word_size * len) % 4294967296 ≤ src.length) :
    ∃ x, spi_master_op env w deviceid word_size len inp out buffer0 = Run.done x
      ∧ x.transactions = []
      ∧ x.chunks.length = ((word_size * len) % 4294967296 + 63) / 64
      ∧ (∀ c ∈ x.chunks, 1 ≤ c.tx.length ∧ c.tx.length ≤ 64
          ∧ c.mosi_dbitlen = 8 * c.tx.length - 1 ∧ c.miso_dbitlen = 8 * c.tx.length - 1)
      ∧ (∀ c ∈ x.chunks.dropLast, c.tx.length = 64)
      ∧ (x.chunks.map (fun c => c.tx)).flatten
          = (inp.map (fun src => src.take ((word_size * len) % 4294967296))).getD
              (List.replicate ((word_size * len) % 4294967296) 0xff) := by
  obtain ⟨cs, sf, hrun, h1, h2, h3, h4⟩ := spi_sw_loop_spec env
    ((word_size * len) % 4294967296)
    { bytes := (word_size * len) % 4294967296, inp := inp, out := out, pos := 0,
      buffer := buffer0, cmd := (w.getHw (id_unit deviceid)).CMD } (Nat.le_refl _) hin
  refine ⟨{ world := w.setHw (id_unit deviceid)
              { (w.getHw (id_unit deviceid)) with CMD := sf.cmd },
            out := sf.out, chunks := cs, transactions := [] }, ?_, rfl, h1, h2, h3, h4⟩
  unfold spi_master_op
  simp only []
  rw [if_pos (by rw [hd]; rfl), hrun]

set_option maxRecDepth 1000000 in
/-- Instance of claim C18: 130 bytes `7` written to slot 0 of unit 2 of the
ESP32 board, which is not hardware-assisted. -/
theorem spi_master_op_software_chunks_witness :
    ((esp32_init.getBus (id_unit 512)).dev (id_device 512)).dma = false
    ∧ ∃ x, spi_master_op test_env esp32_init 512 1 130 (some (List.replicate 130 7)) none []
          = Run.done x
      ∧ x.transactions = []
      ∧ x.chunks.length = ((1 * 130) % 4294967296 + 63) / 64
      ∧ (∀ c ∈ x.chunks, 1 ≤ c.tx.length ∧ c.tx.length ≤ 64
          ∧ c.mosi_dbitlen = 8 * c.tx.length - 1 ∧ c.miso_dbitlen = 8 * c.tx.length - 1)
      ∧ (∀ c ∈ x.chunks.dropLast, c.tx.length = 64)
      ∧ (x.chunks.map (fun c => c.tx)).flatten
          = ((some (List.replicate 130 7)).map
              (fun src => src.take ((1 * 130) % 4294967296))).getD
              (List.replicate ((1 * 130) % 4294967296) 0xff) :=
  ⟨by decide,
   spi_master_op_software_chunks test_env esp32_init 512 1 130 (some (List.replicate 130 7))
     none [] (by decide) (by
       intro src h
       cases h
       simp)⟩

/-! ## The hardware-assisted path of `spi_master_op` -/

/-- What the hardware-assisted loop does with `s.len` elements left, given at
least that many iterations and transactions that succeed. -/
theorem spi_dma_loop_spec (env : XferEnv) (word_size : Nat)
    (hws : word_size = 1 ∨ word_size = 2 ∨ word_size = 4)
    (hok : ∀ k, env.transmit_ok k = true) :
    ∀ (fuel : Nat) (s : DmaLoop), s.len ≤ fuel →
      ∃ ts sf, spi_dma_loop env word_size fuel s = Run.done (ts, sf)
        ∧ ts.length = (s.len + 4092 / word_size - 1) / (4092 / word_size)
        ∧ (∀ t ∈ ts, 0 < t.length ∧ t.length ≤ 4092 * 8)
        ∧ (ts.map (fun t => t.length)).sum = 8 * (word_size * s.len)
        ∧ transactions_contiguous s.bin (s.out.map (fun _ => s.pos)) ts = true := by
  intro fuel
  induction fuel with
  | zero =>
    intro s hf
    have hb : s.len = 0 := by omega
    refine ⟨[], s, ?_, ?_, ?_, ?_, rfl⟩
    · unfold spi_dma_loop
      rw [if_pos hb]
    · rw [hb]
      rcases hws with h | h | h <;> subst h <;> rfl
    · intro c hc; cases hc
    · rw [hb]; rfl
  | succ n ih =>
    intro s hf
    by_cases hb : s.len = 0
    · refine ⟨[], s, ?_, ?_, ?_, ?_, rfl⟩
      · unfold spi_dma_loop
        rw [if_pos hb]
      · rw [hb]
        rcases hws with h | h | h <;> subst h <;> rfl
      · intro c hc; cases hc
      · rw [hb]; rfl
    · have hsz : spi_dma_size word_size s.len
          = if s.len > 4092 / word_size then 4092 / word_size else s.len := rfl
      have hst : (spi_dma_step env word_size s).2.len = s.len - spi_dma_size word_size s.len := rfl
      have hlen : (spi_dma_step env word_size s).1.length
          = (spi_dma_size word_size s.len * word_size * 8) % 4294967296 := rfl
      have htx : (spi_dma_step env word_size s).1.tx_off = s.bin := rfl
      have hrx : (spi_dma_step env word_size s).1.rx_off = s.out.map (fun _ => s.pos) := rfl
      have hbin : (spi_dma_step env word_size s).2.bin
          = s.bin.map (fun o => o + spi_dma_size word_size s.len * word_size) := rfl
      have hpos : (spi_dma_step env word_size s).2.out.map
            (fun _ => (spi_dma_step env word_size s).2.pos)
          = (s.out.map (fun _ => s.pos)).map
              (fun o => o + spi_dma_size word_size s.len * word_size) := by
        show (s.out.map _).map _ = _
        cases s.out <;> rfl
      have hsz1 : 0 < spi_dma_size word_size s.len
          ∧ spi_dma_size word_size s.len ≤ 4092 / word_size
          ∧ spi_dma_size word_size s.len ≤ s.len := by
        rw [hsz]
        rcases hws with h | h | h <;> subst h <;> split_ifs <;> omega
      have hlen2 : (spi_dma_step env word_size s).1.length
          = spi_dma_size word_size s.len * word_size * 8 := by
        rw [hlen]
        apply Nat.mod_eq_of_lt
        rcases hws with h | h | h <;> subst h <;> omega
      obtain ⟨ts, sf, hrun, h1, h2, h3, h4⟩ :=
        ih (spi_dma_step env word_size s).2 (by rw [hst]; omega)
      refine ⟨(spi_dma_step env word_size s).1 :: ts, sf, ?_, ?_, ?_, ?_, ?_⟩
      · rw [spi_dma_loop, if_neg hb, if_neg (by rw [hok]; simp), hrun]
      · rw [List.length_cons, h1, hst, hsz]
        rcases hws with h | h | h <;> subst h <;> split_ifs <;> omega
      · intro t ht
        rcases List.mem_cons.1 ht with h | h
        · subst h
          rw [hlen2]
          rcases hws with h | h | h <;> subst h <;> omega
        · exact h2 t h
      · rw [List.map_cons, List.sum_cons, h3, hlen2, hst]
        rcases hws with h | h | h <;> subst h <;> omega
      · unfold transactions_contiguous
        rw [htx, hrx, hbin, hpos] at *
        simp only [decide_True, Bool.true_and]
        have e : (spi_dma_step env word_size s).1.length / 8
            = spi_dma_size word_size s.len * word_size := by
          rw [hlen2]
          omega
        rw [e]
        exact h4

/-- Claim C19. On the hardware-assisted path, for a word size of 1, 2 or 4
bytes and every `len`, `spi_master_op` returns (given that the vendor
transactions succeed and that the copy of a source in read-only storage can be
allocated) after `ceil(len / (4092 / word_size))` transactions and no chunk;
each transaction carries more than 0 and at most `4092 * 8` bits; the lengths
sum to `8 * word_size * len` bits; and the first transaction starts at the
start of the caller's buffers, each later one where the one before it ended. -/
theorem spi_master_op_dma_transactions (env : XferEnv) (w : World) (deviceid : Int)
    (word_size len : Nat) (inp out : Option (List Nat)) (buffer0 : List Nat)
    (hd : ((w.getBus (id_unit deviceid)).dev (id_device deviceid)).dma = true)
    (hws : word_size = 1 ∨ word_size = 2 ∨ word_size = 4)
    (hok : ∀ k, env.transmit_ok k = true)
    (hm : inp.isSome = true → env.in_rodata = true → env.malloc_ok = true) :
    ∃ x, spi_master_op env w deviceid word_size len inp out buffer0 = Run.done x
      ∧ x.chunks = []
      ∧ x.transactions.length = (len + 4092 / word_size - 1) / (4092 / word_size)
      ∧ (∀ t ∈ x.transactions, 0 < t.length ∧ t.length ≤ 4092 * 8)
      ∧ (x.transactions.map (fun t => t.length)).sum = 8 * (word_size * len)
      ∧ transactions_contiguous (inp.map (fun _ => 0)) (out.map (fun _ => 0))
          x.transactions = true := by
  obtain ⟨ts, sf, hrun, h1, h2, h3, h4⟩ := spi_dma_loop_spec env word_size hws hok len
    { len := len, bin := inp.map (fun _ => 0), out := out, pos := 0, count := 0 }
    (Nat.le_refl _)
  refine ⟨{ world := w, out := sf.out, chunks := [], transactions := ts }, ?_, rfl,
    h1, h2, h3, h4⟩
  unfold spi_master_op
  simp only []
  rw [if_neg (by rw [hd]; simp), if_neg ?_, hrun]
  rintro ⟨a, b, c⟩
  have := hm a b
  rw [this] at c
  simp at c

set_option maxRecDepth 1000000 in
/-- Instance of claim C19: 5000 bytes read and written on the
hardware-assisted device in slot 0 of unit 2 of the ESP32 board. -/
theorem spi_master_op_dma_transactions_witness :
    ((esp32_dma.getBus (id_unit 512)).dev (id_device 512)).dma = true
    ∧ ∃ x, spi_master_op test_env esp32_dma 512 1 5000 (some (List.replicate 5000 7))
          (some (List.replicate 5000 0)) [] = Run.done x
      ∧ x.chunks = []
      ∧ x.transactions.length = (5000 + 4092 / 1 - 1) / (4092 / 1)
      ∧ (∀ t ∈ x.transactions, 0 < t.length ∧ t.length ≤ 4092 * 8)
      ∧ (x.transactions.map (fun t => t.length)).sum = 8 * (1 * 5000)
      ∧ transactions_contiguous ((some (List.replicate 5000 7)).map (fun _ => 0))
          ((some (List.replicate 5000 0)).map (fun _ => 0)) x.transactions = true :=
  ⟨by decide,
   spi_master_op_dma_transactions test_env esp32_dma 512 1 5000 (some (List.replicate 5000 7))
          (some (List.replicate 5000 0)) []
     (by decide) (Or.inl rfl) (fun _ => rfl) (fun _ _ => rfl)⟩

/-! ## The read+write wrappers -/

set_option maxRecDepth 1000000 in
/-- Claim C17 (refuted as stated). On slot 0 of unit 2 of the ESP32 board the
slave answers `0xAB, 0xCD, 0xEF, 0x11`. `spi_ll_bulk_rw` of 2 bytes leaves both
received bytes in the caller's buffer. `spi_ll_bulk_rw16` of one 16-bit element
leaves only the first received byte there, the second byte of the element
keeps the value sent; `spi_ll_bulk_rw32` of one 32-bit element leaves only the
first received byte, the three others keep the values sent: both copy back
`nelements` bytes, not `nelements` elements. When the allocation fails each of
the three returns the failure and the buffer as it was. -/
theorem spi_ll_bulk_rw16_copies_half (env : XferEnv) (w : World) (id : Int) (n : Nat)
    (data tmp buffer0 : List Nat) :
    (spi_ll_bulk_rw test_env esp32_init 512 2 [1, 2] [0, 0] []).map
        (fun o => (o.error, o.data)) = Run.done (none, some [0xAB, 0xCD])
    ∧ (spi_ll_bulk_rw16 test_env esp32_init 512 1 [1, 2] [0, 0] []).map
        (fun o => (o.error, o.data)) = Run.done (none, some [0xAB, 2])
    ∧ (spi_ll_bulk_rw32 test_env esp32_init 512 1 [1, 2, 3, 4] [0, 0, 0, 0] []).map
        (fun o => (o.error, o.data)) = Run.done (none, some [0xAB, 2, 3, 4])
    ∧ (spi_ll_bulk_rw { env with malloc_ok := false } w id n data tmp buffer0).map
        (fun o => (o.error, o.data)) = Run.done (some SpiError.NotEnoughMemory, some data)
    ∧ (spi_ll_bulk_rw16 { env with malloc_ok := false } w id n data tmp buffer0).map
        (fun o => (o.error, o.data)) = Run.done (some SpiError.NotEnoughMemory, some data)
    ∧ (spi_ll_bulk_rw32 { env with malloc_ok := false } w id n data tmp buffer0).map
        (fun o => (o.error, o.data)) = Run.done (some SpiError.NotEnoughMemory, some data) :=
  ⟨by decide, by decide, by decide, rfl, rfl, rfl⟩

/-! ## The PCA9698 expander: bits of a shadow byte -/

theorem pca_pinmask_eq (pin : Nat) : pca_pinmask pin = 2 ^ (pin % 8) := by
  unfold pca_pinmask PCA9698_GPIO_BANK_POS
  rw [Nat.one_shiftLeft]
  apply Nat.mod_eq_of_lt
  have h : pin % 8 < 8 := Nat.mod_lt _ (by norm_num)
  calc 2 ^ (pin % 8) < 2 ^ 8 := Nat.pow_lt_pow_right (by norm_num) h
    _ = 256 := by norm_num

theorem and_two_pow_ne_zero (x k : Nat) : x &&& 2 ^ k ≠ 0 ↔ x.testBit k = true := by
  rw [Nat.and_two_pow]
  cases x.testBit k <;> simp

theorem and_two_pow_eq_zero (x k : Nat) : x &&& 2 ^ k = 0 ↔ x.testBit k = false := by
  rw [Nat.and_two_pow]
  cases x.testBit k <;> simp

theorem testBit_u8_set (x k j : Nat) (hj : j < 8) :
    (u8_set x (2 ^ k)).testBit j = (x.testBit j || decide (k = j)) := by
  unfold u8_set
  have : (256 : Nat) = 2 ^ 8 := by norm_num
  rw [this, Nat.testBit_mod_two_pow, Nat.testBit_or, Nat.testBit_two_pow]
  simp [hj]

theorem testBit_u8_clear (x k j : Nat) (hj : j < 8) :
    (u8_clear x (2 ^ k)).testBit j = (x.testBit j && !decide (k = j)) := by
  unfold u8_clear
  have h1 : (256 : Nat) = 2 ^ 8 := by norm_num
  have h2 : (4294967295 : Nat) = 2 ^ 32 - 1 := by norm_num
  rw [h1, h2, Nat.testBit_mod_two_pow, Nat.testBit_and, Nat.testBit_xor,
    Nat.testBit_two_pow_sub_one, Nat.testBit_two_pow]
  have : j < 32 := by omega
  by_cases hkj : k = j <;> simp [hj, this, hkj]

/-- For a bit other than bit 0 the inversion expression is the clearing
expression: `!(x & pinmask)` is 0 or 1 and has no bit in common with the mask. -/
theorem u8_inv_eq_clear (x k : Nat) (hk : 0 < k) :
    u8_inv x (2 ^ k) = u8_clear x (2 ^ k) := by
  unfold u8_inv u8_clear
  have h : ∀ b : Nat, b < 2 → b &&& 2 ^ k = 0 := by
    intro b hb
    rw [and_two_pow_eq_zero]
    apply Nat.testBit_lt_two_pow
    calc b < 2 := hb
      _ = 2 ^ 1 := by norm_num
      _ ≤ 2 ^ k := Nat.pow_le_pow_right (by norm_num) hk
  rw [h _ (by split_ifs <;> omega), Nat.or_zero]

/-- For bit 0 the inversion expression flips the bit. -/
theorem testBit_u8_inv_zero (x j : Nat) (hj : j < 8) :
    (u8_inv x (2 ^ 0)).testBit j = (if j = 0 then !x.testBit 0 else x.testBit j) := by
  unfold u8_inv
  have h1 : (256 : Nat) = 2 ^ 8 := by norm_num
  have h2 : (4294967295 : Nat) = 2 ^ 32 - 1 := by norm_num
  have h32 : j < 32 := by omega
  rw [h1, h2, Nat.testBit_mod_two_pow, Nat.testBit_or, Nat.testBit_and, Nat.testBit_and,
    Nat.testBit_xor, Nat.testBit_two_pow_sub_one, Nat.testBit_two_pow]
  by_cases hx : x &&& 2 ^ 0 = 0
  · have hb := (and_two_pow_eq_zero x 0).1 hx
    rw [if_pos hx]
    by_cases h0 : j = 0
    · subst h0
      simp [hb]
    · have : (1 : Nat).testBit j = false := by
        apply Nat.testBit_lt_two_pow
        calc 1 < 2 ^ 1 := by norm_num
          _ ≤ 2 ^ j := Nat.pow_le_pow_right (by norm_num) (by omega)
      simp [hj, h32, h0, this, Ne.symm h0]
  · have hb := (and_two_pow_ne_zero x 0).1 hx
    rw [if_neg hx]
    by_cases h0 : j = 0
    · subst h0
      simp [hb]
    · simp [hj, h32, h0, Ne.symm h0]

/-! ## The PCA9698 expander: set, clear, invert and get -/

theorem pca_wf_lengths (s : pca_9698_t) (h : s.wf = true) :
    s.direction.length = 5 ∧ s.latch.length = 5 ∧ s.isr_func.length = 40
      ∧ s.isr_args.length = 40 ∧ s.isr_type.length = 40 := by
  unfold pca_9698_t.wf PCA9698_BANKS PCA9698_PINS at h
  simp only [Bool.and_eq_true, beq_iff_eq] at h
  exact ⟨h.1.1.1.1, h.1.1.1.2, h.1.1.2, h.1.2, h.2⟩

theorem pca_9698_pin_get_eq (s : pca_9698_t) (pin : Nat) :
    (pca_9698_pin_get s pin).2 = if pca_bit s.latch pin then 1 else 0 := by
  unfold pca_9698_pin_get pca_bit PCA9698_GPIO_BANK_NUM
  simp only [pca_pinmask_eq]
  show (if (s.latch.getD (pin / 8) 0) &&& 2 ^ (pin % 8) ≠ 0 then 1 else 0) = _
  by_cases h : (s.latch.getD (pin / 8) 0).testBit (pin % 8) = true
  · rw [if_pos ((and_two_pow_ne_zero _ _).2 h), if_pos h]
  · rw [if_neg (fun c => h ((and_two_pow_ne_zero _ _).1 c)), if_neg h]

theorem pca_bit_set_same (l : List Nat) (pin v : Nat) (h : pin / 8 < l.length) :
    pca_bit (l.set (pin / 8) v) pin = v.testBit (pin % 8) := by
  unfold pca_bit
  rw [getD_set_same _ _ _ _ h]

theorem pca_bit_set_bank (l : List Nat) (pin q v : Nat) (h : pin / 8 < l.length)
    (hq : q / 8 = pin / 8) : pca_bit (l.set (pin / 8) v) q = v.testBit (q % 8) := by
  unfold pca_bit
  rw [hq, getD_set_same _ _ _ _ h]

theorem pca_bit_set_other (l : List Nat) (pin q v : Nat) (hq : q / 8 ≠ pin / 8) :
    pca_bit (l.set (pin / 8) v) q = pca_bit l q := by
  unfold pca_bit
  rw [getD_set_other _ _ _ _ _ (Ne.symm hq)]

theorem pca_9698_pin_set_latch (s : pca_9698_t) (pin : Nat) :
    (pca_9698_pin_set s pin).latch
      = s.latch.set (pin / 8) (u8_set (s.latch.getD (pin / 8) 0) (2 ^ (pin % 8))) := by
  rw [← pca_pinmask_eq]
  rfl

theorem pca_9698_pin_clr_latch (s : pca_9698_t) (pin : Nat) :
    (pca_9698_pin_clr s pin).latch
      = s.latch.set (pin / 8) (u8_clear (s.latch.getD (pin / 8) 0) (2 ^ (pin % 8))) := by
  rw [← pca_pinmask_eq]
  rfl

theorem pca_9698_pin_inv_latch (s : pca_9698_t) (pin : Nat) :
    (pca_9698_pin_inv s pin).latch
      = s.latch.set (pin / 8) (u8_inv (s.latch.getD (pin / 8) 0) (2 ^ (pin % 8))) := by
  rw [← pca_pinmask_eq]
  rfl

/-- The level of every pin after a store into the latch byte of the bank of
`pin`. -/
theorem pca_bit_after_store (l : List Nat) (pin q v : Nat) (h : pin / 8 < l.length) :
    pca_bit (l.set (pin / 8) v) q
      = if q / 8 = pin / 8 then v.testBit (q % 8) else pca_bit l q := by
  split_ifs with hq
  · exact pca_bit_set_bank l pin q v h hq
  · exact pca_bit_set_other l pin q v hq

/-- Claim C21. On an initialised expander, for a pin below 40,
`pca_9698_pin_set` followed by `pca_9698_pin_get` returns 1 and
`pca_9698_pin_clr` followed by `pca_9698_pin_get` returns 0; for every other
pin `pca_9698_pin_get` returns after either call what it returned before, and
the direction bytes are as they were. -/
theorem pca_9698_pin_set_clr_get (s : pca_9698_t) (pin : Nat) (hwf : s.wf = true)
    (hp : pin < 40) :
    (pca_9698_pin_get (pca_9698_pin_set s pin) pin).2 = 1
    ∧ (pca_9698_pin_get (pca_9698_pin_clr s pin) pin).2 = 0
    ∧ (∀ q, q ≠ pin →
        (pca_9698_pin_get (pca_9698_pin_set s pin) q).2 = (pca_9698_pin_get s q).2
        ∧ (pca_9698_pin_get (pca_9698_pin_clr s pin) q).2 = (pca_9698_pin_get s q).2)
    ∧ (pca_9698_pin_set s pin).direction = s.direction
    ∧ (pca_9698_pin_clr s pin).direction = s.direction := by
  obtain ⟨-, hl, -, -, -⟩ := pca_wf_lengths s hwf
  have hb : pin / 8 < s.latch.length := by omega
  have h8 : pin % 8 < 8 := Nat.mod_lt _ (by norm_num)
  refine ⟨?_, ?_, ?_, rfl, rfl⟩
  · rw [pca_9698_pin_get_eq, pca_9698_pin_set_latch, pca_bit_set_same _ _ _ hb,
      testBit_u8_set _ _ _ h8]
    simp
  · rw [pca_9698_pin_get_eq, pca_9698_pin_clr_latch, pca_bit_set_same _ _ _ hb,
      testBit_u8_clear _ _ _ h8]
    simp
  · intro q hq
    have hq8 : q % 8 < 8 := Nat.mod_lt _ (by norm_num)
    rw [pca_9698_pin_get_eq, pca_9698_pin_get_eq, pca_9698_pin_get_eq, pca_9698_pin_set_latch,
      pca_9698_pin_clr_latch, pca_bit_after_store _ _ _ _ hb, pca_bit_after_store _ _ _ _ hb]
    by_cases hbank : q / 8 = pin / 8
    · have hne : pin % 8 ≠ q % 8 := by omega
      rw [if_pos hbank, if_pos hbank, testBit_u8_set _ _ _ hq8, testBit_u8_clear _ _ _ hq8]
      have e : pca_bit s.latch q = (s.latch.getD (pin / 8) 0).testBit (q % 8) := by
        unfold pca_bit
        rw [hbank]
      rw [e]
      simp [hne]
    · rw [if_neg hbank, if_neg hbank]
      exact ⟨rfl, rfl⟩

set_option maxRecDepth 1000000 in
/-- Instance of claim C21: pin 13 of an expander whose pins 12 and 13 are
high. -/
theorem pca_9698_pin_set_clr_get_witness :
    (pca_9698_pin_get (pca_9698_pin_clr
        (pca_9698_pin_set (pca_9698_pin_set pca_9698_t.zero 12) 13) 13) 13).2 = 0
    ∧ (pca_9698_pin_get (pca_9698_pin_clr
        (pca_9698_pin_set (pca_9698_pin_set pca_9698_t.zero 12) 13) 13) 12).2 = 1 :=
  ⟨(pca_9698_pin_set_clr_get (pca_9698_pin_set (pca_9698_pin_set pca_9698_t.zero 12) 13) 13
      (by decide) (by decide)).2.1,
   by decide⟩

/-- Claim C20 (refuted as stated). On an initialised expander, for a pin below
40 that is not bit 0 of its bank, `pca_9698_pin_get` returns 0 after one
`pca_9698_pin_inv` and after two, whatever the level before: the pin is
cleared, not flipped, and two inversions do not restore a high pin. -/
theorem pca_9698_pin_inv_clears (s : pca_9698_t) (pin : Nat) (hwf : s.wf = true)
    (hp : pin < 40) (hbit : pin % 8 ≠ 0) :
    (pca_9698_pin_get (pca_9698_pin_inv s pin) pin).2 = 0
    ∧ (pca_9698_pin_get (pca_9698_pin_inv (pca_9698_pin_inv s pin) pin) pin).2 = 0 := by
  obtain ⟨-, hl, -, -, -⟩ := pca_wf_lengths s hwf
  have hb : pin / 8 < s.latch.length := by omega
  have h8 : pin % 8 < 8 := Nat.mod_lt _ (by norm_num)
  have key : ∀ t : pca_9698_t, pin / 8 < t.latch.length →
      (pca_9698_pin_get (pca_9698_pin_inv t pin) pin).2 = 0 := by
    intro t ht
    rw [pca_9698_pin_get_eq, pca_9698_pin_inv_latch, pca_bit_set_same _ _ _ ht,
      u8_inv_eq_clear _ _ (by omega), testBit_u8_clear _ _ _ h8]
    simp
  refine ⟨key s hb, key _ ?_⟩
  rw [pca_9698_pin_inv_latch, List.length_set]
  exact hb

set_option maxRecDepth 1000000 in
/-- Instance of claim C20: pin 9 (bank 1, bit 1). When the pin is high, two
inversions leave it low; when it is low, one inversion leaves it low. -/
theorem pca_9698_pin_inv_clears_witness :
    (pca_9698_pin_get (pca_9698_pin_set pca_9698_t.zero 9) 9).2 = 1
    ∧ (pca_9698_pin_get (pca_9698_pin_inv (pca_9698_pin_inv
        (pca_9698_pin_set pca_9698_t.zero 9) 9) 9) 9).2 = 0
    ∧ (pca_9698_pin_get pca_9698_t.zero 9).2 = 0
    ∧ (pca_9698_pin_get (pca_9698_pin_inv pca_9698_t.zero 9) 9).2 = 0 :=
  ⟨by decide,
   (pca_9698_pin_inv_clears (pca_9698_pin_set pca_9698_t.zero 9) 9 (by decide) (by decide)
      (by decide)).2,
   by decide, by decide⟩

/-! ## The PCA9698 expander: the register written by an operation -/

theorem pca_direction_op_store (s : pca_9698_t) (port v : Nat)
    (hl : port < s.direction.length) (hport : port < 5) (hv : v < 256) :
    pca_direction_op s
      (pca9698_write_register (pca_9698_unlock ((pca_9698_lock s).setDirection port v))
        (0x18 + port) (((pca_9698_lock s).setDirection port v).direction.getD port 0))
      port v := by
  have hg : ((pca_9698_lock s).setDirection port v).direction.getD port 0 = v :=
    getD_set_same _ _ _ _ hl
  refine ⟨?_, ?_, ?_, rfl⟩
  · rw [hg]
    unfold pca9698_write_register pca_9698_unlock pca_9698_t.setDirection pca_9698_lock
    simp only [List.append_assoc, List.singleton_append, List.cons_append, List.nil_append]
    rw [Nat.mod_eq_of_lt hv, Nat.mod_eq_of_lt (by omega)]
  · exact hg
  · intro b _ hb
    exact getD_set_other _ _ _ _ _ (Ne.symm hb)

theorem pca_latch_op_store (s : pca_9698_t) (port v : Nat)
    (hl : port < s.latch.length) (hport : port < 5) (hv : v < 256) :
    pca_latch_op s
      (pca9698_write_register (pca_9698_unlock ((pca_9698_lock s).setLatch port v))
        (0x08 + port) (((pca_9698_lock s).setLatch port v).latch.getD port 0))
      port v := by
  have hg : ((pca_9698_lock s).setLatch port v).latch.getD port 0 = v :=
    getD_set_same _ _ _ _ hl
  refine ⟨?_, ?_, ?_, rfl⟩
  · rw [hg]
    unfold pca9698_write_register pca_9698_unlock pca_9698_t.setLatch pca_9698_lock
    simp only [List.append_assoc, List.singleton_append, List.cons_append, List.nil_append]
    rw [Nat.mod_eq_of_lt hv, Nat.mod_eq_of_lt (by omega)]
  · exact hg
  · intro b _ hb
    exact getD_set_other _ _ _ _ _ (Ne.symm hb)

theorem u8_clear_lt (x m : Nat) : u8_clear x m < 256 := Nat.mod_lt _ (by norm_num)

theorem u8_set_lt (x m : Nat) : u8_set x m < 256 := Nat.mod_lt _ (by norm_num)

theorem u8_inv_lt (x m : Nat) : u8_inv x m < 256 := Nat.mod_lt _ (by norm_num)

/-- Claim C24. On an initialised expander, each of the ten mutating pin
operations, on a pin below 40 (bank `pin / 8`) or on a bank below 5, makes
exactly one call of `pca9698_write_register`: register `0x18 + bank` for the
two direction operations and `0x08 + bank` for set, clear and invert, with the
updated shadow byte of that bank (direction bits cleared for output and set
for input, latch bits set, cleared or inverted); the shadow bytes of the other
banks, and the other shadow table, are as before. -/
theorem pca_9698_ops_write_one_register (s : pca_9698_t) (pin port pinmask : Nat)
    (hwf : s.wf = true) (hpin : pin < 40) (hport : port < 5) :
    pca_direction_op s (pca_9698_pin_output s pin) (pin / 8)
        (u8_clear (s.direction.getD (pin / 8) 0) (2 ^ (pin % 8)))
    ∧ pca_direction_op s (pca_9698_pin_input s pin) (pin / 8)
        (u8_set (s.direction.getD (pin / 8) 0) (2 ^ (pin % 8)))
    ∧ pca_latch_op s (pca_9698_pin_set s pin) (pin / 8)
        (u8_set (s.latch.getD (pin / 8) 0) (2 ^ (pin % 8)))
    ∧ pca_latch_op s (pca_9698_pin_clr s pin) (pin / 8)
        (u8_clear (s.latch.getD (pin / 8) 0) (2 ^ (pin % 8)))
    ∧ pca_latch_op s (pca_9698_pin_inv s pin) (pin / 8)
        (u8_inv (s.latch.getD (pin / 8) 0) (2 ^ (pin % 8)))
    ∧ pca_direction_op s (pca_9698_pin_output_mask s port pinmask) port
        (u8_clear (s.direction.getD port 0) pinmask)
    ∧ pca_direction_op s (pca_9698_pin_input_mask s port pinmask) port
        (u8_set (s.direction.getD port 0) pinmask)
    ∧ pca_latch_op s (pca_9698_pin_set_mask s port pinmask) port
        (u8_set (s.latch.getD port 0) pinmask)
    ∧ pca_latch_op s (pca_9698_pin_clr_mask s port pinmask) port
        (u8_clear (s.latch.getD port 0) pinmask)
    ∧ pca_latch_op s (pca_9698_pin_inv_mask s port pinmask) port
        (u8_inv (s.latch.getD port 0) pinmask) := by
  obtain ⟨hd, hl, -, -, -⟩ := pca_wf_lengths s hwf
  have hb : pin / 8 < 5 := by omega
  have hm := pca_pinmask_eq pin
  refine ⟨?_, ?_, ?_, ?_, ?_, ?_, ?_, ?_, ?_, ?_⟩
  · rw [← hm]
    exact pca_direction_op_store s (pin / 8) _ (by omega) hb (u8_clear_lt _ _)
  · rw [← hm]
    exact pca_direction_op_store s (pin / 8) _ (by omega) hb (u8_set_lt _ _)
  · rw [← hm]
    exact pca_latch_op_store s (pin / 8) _ (by omega) hb (u8_set_lt _ _)
  · rw [← hm]
    exact pca_latch_op_store s (pin / 8) _ (by omega) hb (u8_clear_lt _ _)
  · rw [← hm]
    exact pca_latch_op_store s (pin / 8) _ (by omega) hb (u8_inv_lt _ _)
  · exact pca_direction_op_store s port _ (by omega) hport (u8_clear_lt _ _)
  · exact pca_direction_op_store s port _ (by omega) hport (u8_set_lt _ _)
  · exact pca_latch_op_store s port _ (by omega) hport (u8_set_lt _ _)
  · exact pca_latch_op_store s port _ (by omega) hport (u8_clear_lt _ _)
  · exact pca_latch_op_store s port _ (by omega) hport (u8_inv_lt _ _)

set_option maxRecDepth 1000000 in
/-- Instance of claim C24: `pca_9698_pin_set(13)` and
`pca_9698_pin_output_mask(2, 0x0f)` on the expander after `calloc`. -/
theorem pca_9698_ops_write_one_register_witness :
    (pca_9698_pin_set pca_9698_t.zero 13).log
        = [PcaEvent.lock, PcaEvent.unlock, PcaEvent.write_register 0x09 0x20]
    ∧ pca_direction_op pca_9698_t.zero (pca_9698_pin_output_mask pca_9698_t.zero 2 0x0f) 2
        (u8_clear (pca_9698_t.zero.direction.getD 2 0) 0x0f) :=
  ⟨by decide,
   (pca_9698_ops_write_one_register pca_9698_t.zero 13 2 0x0f (by decide) (by decide)
      (by decide)).2.2.2.2.2.1⟩

theorem pca_log_store_direction (s : pca_9698_t) (port v reg val : Nat) :
    (pca9698_write_register (pca_9698_unlock ((pca_9698_lock s).setDirection port v))
        reg val).log
      = s.log ++ [PcaEvent.lock, PcaEvent.unlock,
          PcaEvent.write_register (reg % 256) (val % 256)] := by
  unfold pca9698_write_register pca_9698_unlock pca_9698_t.setDirection pca_9698_lock
  simp only [List.append_assoc, List.singleton_append, List.cons_append, List.nil_append]

theorem pca_log_store_latch (s : pca_9698_t) (port v reg val : Nat) :
    (pca9698_write_register (pca_9698_unlock ((pca_9698_lock s).setLatch port v))
        reg val).log
      = s.log ++ [PcaEvent.lock, PcaEvent.unlock,
          PcaEvent.write_register (reg % 256) (val % 256)] := by
  unfold pca9698_write_register pca_9698_unlock pca_9698_t.setLatch pca_9698_lock
  simp only [List.append_assoc, List.singleton_append, List.cons_append, List.nil_append]

/-- Claim C25 (refuted as stated). In each of the ten mutating pin operations
the calls added to the record are, in this order, the take of the mutex, the
give of the mutex and then `pca9698_write_register`: starting with the mutex
free, the nesting depth of the mutex is 0 again when the register write is
issued. -/
theorem pca_9698_write_after_unlock (s : pca_9698_t) (pin port pinmask : Nat) :
    (∃ reg val, (pca_9698_pin_output s pin).log
        = s.log ++ [PcaEvent.lock, PcaEvent.unlock, PcaEvent.write_register reg val])
    ∧ (∃ reg val, (pca_9698_pin_input s pin).log
        = s.log ++ [PcaEvent.lock, PcaEvent.unlock, PcaEvent.write_register reg val])
    ∧ (∃ reg val, (pca_9698_pin_set s pin).log
        = s.log ++ [PcaEvent.lock, PcaEvent.unlock, PcaEvent.write_register reg val])
    ∧ (∃ reg val, (pca_9698_pin_clr s pin).log
        = s.log ++ [PcaEvent.lock, PcaEvent.unlock, PcaEvent.write_register reg val])
    ∧ (∃ reg val, (pca_9698_pin_inv s pin).log
        = s.log ++ [PcaEvent.lock, PcaEvent.unlock, PcaEvent.write_register reg val])
    ∧ (∃ reg val, (pca_9698_pin_output_mask s port pinmask).log
        = s.log ++ [PcaEvent.lock, PcaEvent.unlock, PcaEvent.write_register reg val])
    ∧ (∃ reg val, (pca_9698_pin_input_mask s port pinmask).log
        = s.log ++ [PcaEvent.lock, PcaEvent.unlock, PcaEvent.write_register reg val])
    ∧ (∃ reg val, (pca_9698_pin_set_mask s port pinmask).log
        = s.log ++ [PcaEvent.lock, PcaEvent.unlock, PcaEvent.write_register reg val])
    ∧ (∃ reg val, (pca_9698_pin_clr_mask s port pinmask).log
        = s.log ++ [PcaEvent.lock, PcaEvent.unlock, PcaEvent.write_register reg val])
    ∧ (∃ reg val, (pca_9698_pin_inv_mask s port pinmask).log
        = s.log ++ [PcaEvent.lock, PcaEvent.unlock, PcaEvent.write_register reg val])
    ∧ pca_mutex_depth [PcaEvent.lock] = 1
    ∧ pca_mutex_depth [PcaEvent.lock, PcaEvent.unlock] = 0 :=
  ⟨⟨_, _, pca_log_store_direction s _ _ _ _⟩,
   ⟨_, _, pca_log_store_direction s _ _ _ _⟩,
   ⟨_, _, pca_log_store_latch s _ _ _ _⟩,
   ⟨_, _, pca_log_store_latch s _ _ _ _⟩,
   ⟨_, _, pca_log_store_latch s _ _ _ _⟩,
   ⟨_, _, pca_log_store_direction s _ _ _ _⟩,
   ⟨_, _, pca_log_store_direction s _ _ _ _⟩,
   ⟨_, _, pca_log_store_latch s _ _ _ _⟩,
   ⟨_, _, pca_log_store_latch s _ _ _ _⟩,
   ⟨_, _, pca_log_store_latch s _ _ _ _⟩,
   rfl, rfl⟩

/-! ## The PCA9698 expander: one drain of the worker task -/

theorem flatMap_single {α β : Type} (l : List α) (a : α) (g : α → List β) (hnd : l.Nodup)
    (ha : a ∈ l) (h : ∀ x ∈ l, x ≠ a → g x = []) : l.flatMap g = g a := by
  induction l with
  | nil => cases ha
  | cons y ys ih =>
    rw [List.flatMap_cons]
    rw [List.nodup_cons] at hnd
    rcases List.mem_cons.1 ha with e | e
    · subst e
      have : ys.flatMap g = [] := by
        rw [List.flatMap_eq_nil_iff]
        intro x hx
        exact h x (List.mem_cons_of_mem _ hx) (fun c => hnd.1 (c ▸ hx))
      rw [this, List.append_nil]
    · have hy : g y = [] := h y (List.mem_cons_self _ _) (fun c => hnd.1 (c ▸ e))
      rw [hy, List.nil_append]
      exact ih hnd.2 e (fun x hx hxa => h x (List.mem_cons_of_mem _ hx) hxa)

theorem flatMap_all_nil {α β : Type} (l : List α) (g : α → List β)
    (h : ∀ x ∈ l, g x = []) : l.flatMap g = [] := by
  rw [List.flatMap_eq_nil_iff]
  exact h

theorem pca_task_pin_index (i j : Nat) (hi : i < 5) (hj : j < 8) :
    ((i <<< 3) + j) % 256 = 8 * i + j := by
  rw [Nat.shiftLeft_eq]
  omega

theorem pca_bit_index (l : List Nat) (i j : Nat) (hj : j < 8) :
    pca_bit l (8 * i + j) = (l.getD i 0).testBit j := by
  unfold pca_bit
  have h1 : (8 * i + j) / 8 = i := by omega
  have h2 : (8 * i + j) % 8 = j := by omega
  rw [h1, h2]

theorem and_two_pow_ne_iff (x y k : Nat) :
    x &&& 2 ^ k ≠ y &&& 2 ^ k ↔ x.testBit k ≠ y.testBit k := by
  rw [Nat.and_two_pow, Nat.and_two_pow]
  have hpos : 0 < 2 ^ k := Nat.two_pow_pos k
  cases x.testBit k <;> cases y.testBit k <;> simp [Nat.ne_of_gt hpos, Nat.ne_of_lt hpos]

/-- The body of the loops of `pca_9698_task` for bank `i` and bit `j`, in
terms of the trigger rule: the callback registered for pin `8 * i + j` is
invoked when it is not `NULL` and the rule fires for the level of the pin in
the old latch and in the latch just read. -/
theorem pca_9698_task_pin_spec (s : pca_9698_t) (latch : List Nat) (i j : Nat)
    (hi : i < 5) (hj : j < 8) :
    pca_9698_task_pin s latch i j
      = if s.isr_func.getD (8 * i + j) 0 ≠ 0
            ∧ trigger_fires (s.isr_type.getD (8 * i + j) gpio_int_type_t.GPIO_INTR_DISABLE)
                (pca_bit latch (8 * i + j)) (pca_bit s.latch (8 * i + j)) = true
        then [PcaEvent.isr_call (8 * i + j) (s.isr_func.getD (8 * i + j) 0)
                (s.isr_args.getD (8 * i + j) 0)]
        else [] := by
  unfold pca_9698_task_pin
  simp only [pca_task_pin_index i j hi hj, pca_bit_index _ i j hj, Nat.one_shiftLeft]
  by_cases hf : s.isr_func.getD (8 * i + j) 0 ≠ 0
  · rw [if_pos hf]
    have e1 := and_two_pow_ne_zero (s.latch.getD i 0) j
    have e2 := and_two_pow_ne_zero (latch.getD i 0) j
    have e3 := and_two_pow_eq_zero (s.latch.getD i 0) j
    have e4 := and_two_pow_eq_zero (latch.getD i 0) j
    have e5 := and_two_pow_ne_iff (s.latch.getD i 0) (latch.getD i 0) j
    generalize s.isr_func.getD (8 * i + j) 0 = f at hf ⊢
    generalize s.isr_args.getD (8 * i + j) 0 = a
    cases s.isr_type.getD (8 * i + j) gpio_int_type_t.GPIO_INTR_DISABLE <;>
      simp only [trigger_fires, e1, e2, e3, e4, e5] <;>
      cases (s.latch.getD i 0).testBit j <;> cases (latch.getD i 0).testBit j <;>
      simp [hf]
  · rw [if_neg hf, if_neg (fun c => hf c.1)]

theorem pca_9698_task_pin_other (s : pca_9698_t) (latch : List Nat) (i j p : Nat)
    (hi : i < 5) (hj : j < 8) (hp : 8 * i + j ≠ p) :
    (pca_9698_task_pin s latch i j).filter (PcaEvent.is_call_of p) = [] := by
  rw [pca_9698_task_pin_spec s latch i j hi hj]
  split_ifs
  · simp [PcaEvent.is_call_of, hp]
  · rfl

theorem pca_9698_task_pin_self (s : pca_9698_t) (latch : List Nat) (i j : Nat)
    (hi : i < 5) (hj : j < 8) :
    (pca_9698_task_pin s latch i j).filter (PcaEvent.is_call_of (8 * i + j))
      = pca_9698_task_pin s latch i j := by
  rw [pca_9698_task_pin_spec s latch i j hi hj]
  split_ifs
  · simp [PcaEvent.is_call_of]
  · rfl

/-- The callbacks invoked for one pin in a drain: those of the body of the
loops for its bank and bit. -/
theorem pca_9698_task_scan_pin (s : pca_9698_t) (latch : List Nat) (p : Nat) (hp : p < 40) :
    (pca_9698_task_scan s latch).filter (PcaEvent.is_call_of p)
      = pca_9698_task_pin s latch (p / 8) (p % 8) := by
  unfold pca_9698_task_scan PCA9698_BANKS
  rw [List.filter_flatMap]
  have hi : p / 8 < 5 := by omega
  have hj : p % 8 < 8 := Nat.mod_lt _ (by norm_num)
  have hpe : 8 * (p / 8) + p % 8 = p := by omega
  rw [flatMap_single (List.range 5) (p / 8) _ (List.nodup_range 5) (List.mem_range.2 hi)]
  · rw [List.filter_flatMap,
      flatMap_single (List.range 8) (p % 8) _ (List.nodup_range 8) (List.mem_range.2 hj)]
    · have := pca_9698_task_pin_self s latch (p / 8) (p % 8) hi hj
      rw [hpe] at this
      exact this
    · intro j hj2 hne
      exact pca_9698_task_pin_other s latch (p / 8) j p hi (List.mem_range.1 hj2) (by omega)
  · intro i hi2 hne
    rw [List.filter_flatMap]
    apply flatMap_all_nil
    intro j hj2
    exact pca_9698_task_pin_other s latch i j p (List.mem_range.1 hi2) (List.mem_range.1 hj2)
      (by
        have := List.mem_range.1 hj2
        omega)

theorem pca_9698_task_scan_mem (s : pca_9698_t) (latch : List Nat) (e : PcaEvent)
    (he : e ∈ pca_9698_task_scan s latch) :
    ∃ q, q < 40 ∧ e = PcaEvent.isr_call q (s.isr_func.getD q 0) (s.isr_args.getD q 0) := by
  unfold pca_9698_task_scan PCA9698_BANKS at he
  rw [List.mem_flatMap] at he
  obtain ⟨i, hi, he⟩ := he
  rw [List.mem_flatMap] at he
  obtain ⟨j, hj, he⟩ := he
  have hi := List.mem_range.1 hi
  have hj := List.mem_range.1 hj
  rw [pca_9698_task_pin_spec s latch i j hi hj] at he
  split_ifs at he
  · exact ⟨8 * i + j, by omega, List.mem_singleton.1 he⟩
  · cases he

theorem trigger_fires_same (k : gpio_int_type_t) (b : Bool) : trigger_fires k b b = false := by
  cases k <;> cases b <;> rfl

theorem pca_9698_task_scan_nil (s : pca_9698_t) (latch : List Nat)
    (h : ∀ q, q < 40 → pca_bit s.latch q = pca_bit latch q) :
    pca_9698_task_scan s latch = [] := by
  unfold pca_9698_task_scan PCA9698_BANKS
  apply flatMap_all_nil
  intro i hi
  apply flatMap_all_nil
  intro j hj
  have hi := List.mem_range.1 hi
  have hj := List.mem_range.1 hj
  rw [pca_9698_task_pin_spec s latch i j hi hj, h (8 * i + j) (by omega), trigger_fires_same]
  simp

theorem pca_9698_task_scan_single (s : pca_9698_t) (latch : List Nat) (p : Nat) (hp : p < 40)
    (h : ∀ q, q < 40 → q ≠ p → pca_bit s.latch q = pca_bit latch q) :
    pca_9698_task_scan s latch = pca_9698_task_pin s latch (p / 8) (p % 8) := by
  unfold pca_9698_task_scan PCA9698_BANKS
  have hi : p / 8 < 5 := by omega
  have hj : p % 8 < 8 := Nat.mod_lt _ (by norm_num)
  have hnil : ∀ i j, i < 5 → j < 8 → 8 * i + j ≠ p → pca_9698_task_pin s latch i j = [] := by
    intro i j hi hj hne
    rw [pca_9698_task_pin_spec s latch i j hi hj, h (8 * i + j) (by omega) hne,
      trigger_fires_same]
    simp
  rw [flatMap_single (List.range 5) (p / 8) _ (List.nodup_range 5) (List.mem_range.2 hi)]
  · rw [flatMap_single (List.range 8) (p % 8) _ (List.nodup_range 8) (List.mem_range.2 hj)]
    intro j hj2 hne
    exact hnil (p / 8) j hi (List.mem_range.1 hj2) (by omega)
  · intro i hi2 hne
    apply flatMap_all_nil
    intro j hj2
    have := List.mem_range.1 hj2
    exact hnil i j (List.mem_range.1 hi2) this (by omega)

theorem pca_9698_task_log (s : pca_9698_t) (bytes : List Nat) :
    (pca_9698_task s (some bytes)).log
      = s.log ++ ([PcaEvent.lock, PcaEvent.read_all_register 0]
          ++ pca_9698_task_scan { s with latch := pca_read_latch bytes } s.latch
          ++ [PcaEvent.unlock]) := by
  unfold pca_9698_task pca_9698_unlock pca9698_read_all_register pca_9698_lock
  simp only [List.append_assoc, List.singleton_append, List.cons_append, List.nil_append,
    Nat.zero_mod]
  rfl

theorem pca_9698_task_calls_eq (s : pca_9698_t) (bytes : List Nat) (p : Nat) :
    pca_9698_task_calls s bytes p
      = (pca_9698_task_scan { s with latch := pca_read_latch bytes } s.latch).filter
          (PcaEvent.is_call_of p) := by
  unfold pca_9698_task_calls
  rw [pca_9698_task_log, List.drop_left]
  simp [List.filter_append, List.filter_cons, PcaEvent.is_call_of]

theorem pca_9698_task_calls_spec (s : pca_9698_t) (bytes : List Nat) (p : Nat) (hp : p < 40) :
    pca_9698_task_calls s bytes p
      = if s.isr_func.getD p 0 ≠ 0
            ∧ trigger_fires (s.isr_type.getD p gpio_int_type_t.GPIO_INTR_DISABLE)
                (pca_bit s.latch p) (pca_bit (pca_read_latch bytes) p) = true
        then [PcaEvent.isr_call p (s.isr_func.getD p 0) (s.isr_args.getD p 0)]
        else [] := by
  have hi : p / 8 < 5 := by omega
  have hj : p % 8 < 8 := Nat.mod_lt _ (by norm_num)
  have hpe : 8 * (p / 8) + p % 8 = p := by omega
  rw [pca_9698_task_calls_eq, pca_9698_task_scan_pin _ _ p hp,
    pca_9698_task_pin_spec _ _ _ _ hi hj, hpe]

/-- Claim C22. In one drain of the worker task on an initialised expander, in
which the latch read is `L'` and the latch before is `L`, for every pin `p`
below 40: the calls of the callback of `p` are exactly one call, of the
registered function with the registered argument, when a function is
registered (not `NULL`) and the trigger kind of `p` fires for the bit of `p`
in `L` and `L'` (rising-edge and high-level on 0 to 1, falling-edge and
low-level on 1 to 0, any-edge on a change), and none otherwise. After
`pca_9698_isr_attach` with a kind and a function this gives one call of that
function exactly when the kind fires; after an attach with the disabled kind
or after `pca_9698_isr_detach` there is no call. -/
theorem pca_9698_task_dispatch (s : pca_9698_t) (bytes : List Nat) (p f a : Nat)
    (k : gpio_int_type_t) (hwf : s.wf = true) (hp : p < 40) :
    pca_9698_task_calls s bytes p
      = (if s.isr_func.getD p 0 ≠ 0
            ∧ trigger_fires (s.isr_type.getD p gpio_int_type_t.GPIO_INTR_DISABLE)
                (pca_bit s.latch p) (pca_bit (pca_read_latch bytes) p) = true
         then [PcaEvent.isr_call p (s.isr_func.getD p 0) (s.isr_args.getD p 0)]
         else [])
    ∧ pca_9698_task_calls (pca_9698_isr_attach s p f k a) bytes p
      = (if f ≠ 0 ∧ trigger_fires k (pca_bit s.latch p) (pca_bit (pca_read_latch bytes) p) = true
         then [PcaEvent.isr_call p f a] else [])
    ∧ pca_9698_task_calls (pca_9698_isr_attach s p f gpio_int_type_t.GPIO_INTR_DISABLE a)
        bytes p = []
    ∧ pca_9698_task_calls (pca_9698_isr_detach s p) bytes p = [] := by
  obtain ⟨-, -, h1, h2, h3⟩ := pca_wf_lengths s hwf
  have hp1 : p < s.isr_func.length := by omega
  have hp2 : p < s.isr_args.length := by omega
  have hp3 : p < s.isr_type.length := by omega
  have hdis : pca_9698_task_calls
      (pca_9698_isr_attach s p f gpio_int_type_t.GPIO_INTR_DISABLE a) bytes p = [] := by
    rw [pca_9698_task_calls_spec _ _ _ hp]
    have : (pca_9698_isr_attach s p f gpio_int_type_t.GPIO_INTR_DISABLE a).isr_func.getD p 0
        = 0 := getD_set_same _ _ _ _ hp1
    rw [if_neg (fun c => c.1 this)]
  refine ⟨pca_9698_task_calls_spec s bytes p hp, ?_, hdis, ?_⟩
  · by_cases hk : k = gpio_int_type_t.GPIO_INTR_DISABLE
    · subst hk
      rw [hdis, if_neg (fun c => by simp [trigger_fires] at c)]
    · rw [pca_9698_task_calls_spec _ _ _ hp]
      have e1 : (pca_9698_isr_attach s p f k a).isr_func.getD p 0 = f := by
        unfold pca_9698_isr_attach
        simp only [if_neg hk]
        exact getD_set_same _ _ _ _ hp1
      have e2 : (pca_9698_isr_attach s p f k a).isr_args.getD p 0 = a := by
        unfold pca_9698_isr_attach
        simp only [if_neg hk]
        exact getD_set_same _ _ _ _ hp2
      have e3 : (pca_9698_isr_attach s p f k a).isr_type.getD p
          gpio_int_type_t.GPIO_INTR_DISABLE = k := by
        unfold pca_9698_isr_attach
        simp only [if_neg hk]
        exact getD_set_same _ _ _ _ hp3
      have e4 : (pca_9698_isr_attach s p f k a).latch = s.latch := by
        unfold pca_9698_isr_attach
        simp only [if_neg hk]
        rfl
      rw [e1, e2, e3, e4]
  · rw [pca_9698_task_calls_spec _ _ _ hp]
    have : (pca_9698_isr_detach s p).isr_func.getD p 0 = 0 :=
      getD_set_same _ _ _ _ hp1
    rw [if_neg (fun c => c.1 this)]

set_option maxRecDepth 1000000 in
/-- Instance of claim C22: function 7 with argument 3 registered for pin 9
with the rising-edge kind, pin 9 read high while the latch has it low. -/
theorem pca_9698_task_dispatch_witness :
    pca_9698_task_calls (pca_9698_isr_attach pca_9698_t.zero 9 7
        gpio_int_type_t.GPIO_INTR_POSEDGE 3) [0, 2, 0, 0, 0] 9
      = [PcaEvent.isr_call 9 7 3]
    ∧ pca_9698_task_calls (pca_9698_isr_attach pca_9698_t.zero 9 7
        gpio_int_type_t.GPIO_INTR_NEGEDGE 3) [0, 2, 0, 0, 0] 9 = [] :=
  ⟨((pca_9698_task_dispatch pca_9698_t.zero [0, 2, 0, 0, 0] 9 7 3
      gpio_int_type_t.GPIO_INTR_POSEDGE (by decide) (by decide)).2.1).trans (by decide),
   by decide⟩

/-- Claim C23. In a drain of the worker task on an initialised expander: when
the latch read equals the latch before the drain, no callback is invoked (the
calls of the drain are the take of the mutex, the read and the give of the
mutex); when the bit of exactly one pin below 40 differs and a function is
registered for that pin with the any-edge kind, that function is invoked once
with its argument and nothing else is invoked. -/
theorem pca_9698_task_coalescing (s : pca_9698_t) (bytes : List Nat) (p : Nat) (hp : p < 40) :
    (pca_read_latch bytes = s.latch →
      (pca_9698_task s (some bytes)).log
        = s.log ++ [PcaEvent.lock, PcaEvent.read_all_register 0, PcaEvent.unlock])
    ∧ ((∀ q, q < 40 → q ≠ p → pca_bit (pca_read_latch bytes) q = pca_bit s.latch q) →
       pca_bit (pca_read_latch bytes) p ≠ pca_bit s.latch p →
       s.isr_func.getD p 0 ≠ 0 →
       s.isr_type.getD p gpio_int_type_t.GPIO_INTR_DISABLE = gpio_int_type_t.GPIO_INTR_ANYEDGE →
        (pca_9698_task s (some bytes)).log
          = s.log ++ [PcaEvent.lock, PcaEvent.read_all_register 0,
              PcaEvent.isr_call p (s.isr_func.getD p 0) (s.isr_args.getD p 0),
              PcaEvent.unlock]) := by
  have hi : p / 8 < 5 := by omega
  have hj : p % 8 < 8 := Nat.mod_lt _ (by norm_num)
  have hpe : 8 * (p / 8) + p % 8 = p := by omega
  constructor
  · intro hsame
    rw [pca_9698_task_log,
      pca_9698_task_scan_nil { s with latch := pca_read_latch bytes } s.latch (fun q _ => by
        show pca_bit (pca_read_latch bytes) q = _
        rw [hsame])]
    rfl
  · intro hothers hdiff hf hk
    rw [pca_9698_task_log,
      pca_9698_task_scan_single { s with latch := pca_read_latch bytes } s.latch p hp
        (fun q hq hne => hothers q hq hne),
      pca_9698_task_pin_spec _ _ _ _ hi hj, hpe]
    show s.log ++ ([PcaEvent.lock, PcaEvent.read_all_register 0]
      ++ (if s.isr_func.getD p 0 ≠ 0
            ∧ trigger_fires (s.isr_type.getD p gpio_int_type_t.GPIO_INTR_DISABLE)
                (pca_bit s.latch p) (pca_bit (pca_read_latch bytes) p) = true
          then [PcaEvent.isr_call p (s.isr_func.getD p 0) (s.isr_args.getD p 0)] else [])
      ++ [PcaEvent.unlock]) = _
    rw [hk, if_pos ⟨hf, by
      unfold trigger_fires
      simp only [bne_iff_ne, ne_eq]
      exact fun c => hdiff c.symm⟩]
    rfl

set_option maxRecDepth 1000000 in
/-- Instance of claim C23: function 7 with argument 3 registered for pin 9
with the any-edge kind; a drain that reads the latch unchanged, and a drain in
which only pin 9 is read changed. -/
theorem pca_9698_task_coalescing_witness :
    (pca_9698_task (pca_9698_isr_attach pca_9698_t.zero 9 7
        gpio_int_type_t.GPIO_INTR_ANYEDGE 3) (some [0, 0, 0, 0, 0])).log
      = [PcaEvent.lock, PcaEvent.unlock,
         PcaEvent.lock, PcaEvent.read_all_register 0, PcaEvent.unlock]
    ∧ (pca_9698_task (pca_9698_isr_attach pca_9698_t.zero 9 7
        gpio_int_type_t.GPIO_INTR_ANYEDGE 3) (some [0, 2, 0, 0, 0])).log
      = [PcaEvent.lock, PcaEvent.unlock,
         PcaEvent.lock, PcaEvent.read_all_register 0, PcaEvent.isr_call 9 7 3,
         PcaEvent.unlock] :=
  ⟨((pca_9698_task_coalescing (pca_9698_isr_attach pca_9698_t.zero 9 7
        gpio_int_type_t.GPIO_INTR_ANYEDGE 3) [0, 0, 0, 0, 0] 9 (by decide)).1
      (by decide)).trans (by decide),
   ((pca_9698_task_coalescing (pca_9698_isr_attach pca_9698_t.zero 9 7
        gpio_int_type_t.GPIO_INTR_ANYEDGE 3) [0, 2, 0, 0, 0] 9 (by decide)).2
      (by decide) (by decide) (by decide) (by decide)).trans (by decide)⟩

/-! ## Register snapshots: what an operation on a unit leaves alone -/

theorem bus_local_refl (b : SpiBus) : bus_local b b := ⟨rfl, Or.inl rfl⟩

theorem bus_local_trans (a b c : SpiBus) (h1 : bus_local a b) (h2 : bus_local b c) :
    bus_local a c := by
  refine ⟨h2.1.trans h1.1, ?_⟩
  rcases h2.2 with h | h
  · rcases h1.2 with g | g
    · exact Or.inl (h.trans g)
    · exact Or.inr (h.trans g)
  · exact Or.inr h

theorem local_refl (unit : Nat) (w : World) : w.local_to unit w :=
  ⟨rfl, rfl, bus_local_refl _, fun _ _ => ⟨rfl, rfl⟩⟩

theorem local_trans (unit : Nat) (w1 w2 w3 : World) (h12 : w1.local_to unit w2)
    (h23 : w2.local_to unit w3) : w1.local_to unit w3 := by
  obtain ⟨a1, a2, a3, a4⟩ := h12
  obtain ⟨b1, b2, b3, b4⟩ := h23
  refine ⟨b1.trans a1, b2.trans a2, bus_local_trans _ _ _ a3 b3, fun u hu => ?_⟩
  exact ⟨(b4 u hu).1.trans (a4 u hu).1, (b4 u hu).2.trans (a4 u hu).2⟩

theorem local_of_eq (unit : Nat) (w w' : World) (hb : w'.bus = w.bus) (hh : w'.hw = w.hw) :
    w.local_to unit w' := by
  have e1 : ∀ u, w'.getBus u = w.getBus u := by
    intro u
    unfold World.getBus
    rw [hb]
  have e2 : ∀ u, w'.getHw u = w.getHw u := by
    intro u
    unfold World.getHw
    rw [hh]
  refine ⟨by rw [hb], by rw [hh], ?_, fun u _ => ⟨e1 u, e2 u⟩⟩
  rw [e1]
  exact bus_local_refl _

theorem local_emit (unit : Nat) (w w1 : World) (e : Event) (h : w.local_to unit w1) :
    w.local_to unit (w1.emit e) :=
  local_trans unit _ _ _ h (local_of_eq unit _ _ rfl rfl)

theorem local_setHw (unit : Nat) (w : World) (r : SpiRegs) :
    w.local_to unit (w.setHw unit r) := by
  refine ⟨rfl, by simp [World.setHw], bus_local_refl _, fun u hu => ⟨rfl, ?_⟩⟩
  unfold World.getHw World.setHw
  exact getD_set_other _ _ _ _ _ (Ne.symm hu)

theorem local_setBus (unit : Nat) (w : World) (b : SpiBus)
    (h : bus_local (w.getBus unit) b) : w.local_to unit (w.setBus unit b) := by
  refine ⟨by simp [World.setBus], rfl, ?_, fun u hu => ⟨?_, rfl⟩⟩
  · rcases getBus_setBus_cases w unit unit b with hc | ⟨hc, -⟩
    · rw [hc]
      exact bus_local_refl _
    · rw [hc]
      exact h
  · exact getBus_setBus_other w unit u b (Ne.symm hu)

theorem local_updDev (unit : Nat) (w : World) (i : Nat) (f : SpiDevice → SpiDevice) :
    w.local_to unit (w.updDev unit i f) :=
  local_setBus unit w _ ⟨by simp [SpiBus.setDev], Or.inl rfl⟩

theorem local_updBus (unit : Nat) (w : World) (f : SpiBus → SpiBus)
    (hf : ∀ b, (f b).last_device = b.last_device ∨ (f b).last_device = -1) :
    w.local_to unit (w.updBus unit f) :=
  local_setBus unit w _ ⟨rfl, hf _⟩

theorem local_then_updDev (unit : Nat) (w w1 : World) (i : Nat) (f : SpiDevice → SpiDevice)
    (h : w.local_to unit w1) : w.local_to unit (w1.updDev unit i f) :=
  local_trans unit _ _ _ h (local_updDev unit w1 i f)

theorem local_then_updBus (unit : Nat) (w w1 : World) (f : SpiBus → SpiBus)
    (h : w.local_to unit w1)
    (hf : ∀ b, (f b).last_device = b.last_device ∨ (f b).last_device = -1) :
    w.local_to unit (w1.updBus unit f) :=
  local_trans unit _ _ _ h (local_updBus unit w1 f hf)

theorem local_spi_ll_setup_slot (w : World) (unit : Nat) (cs : Int) (device : Nat)
    (w0 : World) (h : spi_ll_setup_slot w unit cs = some (device, w0)) :
    w.local_to unit w0 := by
  have hu : w.local_to unit (w.updBus unit (fun b => { b with last_device := -1 })) :=
    local_updBus unit w _ (fun _ => Or.inr rfl)
  unfold spi_ll_setup_slot at h
  simp only [] at h
  split_ifs at h <;> simp only [Option.some.injEq, Prod.mk.injEq] at h <;>
    obtain ⟨-, rfl⟩ := h
  · exact local_refl unit w
  · exact local_emit unit _ _ _ hu
  · exact hu
  · exact local_emit unit _ _ _ (local_refl unit w)
  · exact local_refl unit w

theorem local_spi_ll_setup_path (bd : Board) (w : World)
    (unit device mode speed flags : Nat) (w5 : World)
    (h : spi_ll_setup_path bd w unit device mode speed flags = some w5) :
    w.local_to unit w5 := by
  unfold spi_ll_setup_path at h
  split_ifs at h
  · split at h
    · exact absurd h (by simp)
    · simp only [Option.some.injEq] at h
      subst h
      exact local_then_updBus unit _ _ _ (local_setHw unit w _) (fun _ => Or.inl rfl)
  · simp only [Option.some.injEq] at h
    subst h
    exact local_then_updBus unit _ _ _
      (local_then_updDev unit _ _ _ _ (local_of_eq unit w _ rfl rfl)) (fun _ => Or.inl rfl)

theorem local_spi_ll_setup_pre (bd : Board) (w0 : World) (unit device : Nat)
    (cs : Int) (flags : Nat) (w1 w2 : World)
    (h1 : w1 = if (w0.getBus unit).setup &&& SPI_DMA_SETUP = 0 then
      spi_setup_bus bd w0 unit flags else w0)
    (h2 : w2 = if (w1.getBus unit).setup = 0 ∧ flags &&& (SPI_FLAG_READ ||| SPI_FLAG_WRITE) ≠ 0
      then w1.emit (Event.syslog unit) else w1) :
    w0.local_to unit (((w2.emit (Event.gpio_pin_output cs)).emit
      (Event.gpio_ll_pin_set cs)).updDev unit device (fun d => { d with cs := cs })) := by
  have e1 : w0.local_to unit w1 := by
    rw [h1]; split_ifs
    · exact local_of_eq unit _ _ rfl rfl
    · exact local_refl unit w0
  have e2 : w0.local_to unit w2 := by
    rw [h2]; split_ifs
    · exact local_emit unit _ _ _ e1
    · exact e1
  exact local_then_updDev unit _ _ _ _ (local_emit unit _ _ _ (local_emit unit _ _ _ e2))

theorem frame_of_local (unit : Nat) (w w' : World) (h : w.local_to unit w') :
    w.frame_to unit w' :=
  ⟨h.1, h.2.1, h.2.2.1.1, h.2.2.2⟩

theorem frame_trans (unit : Nat) (w1 w2 w3 : World) (h12 : w1.frame_to unit w2)
    (h23 : w2.frame_to unit w3) : w1.frame_to unit w3 := by
  obtain ⟨a1, a2, a3, a4⟩ := h12
  obtain ⟨b1, b2, b3, b4⟩ := h23
  refine ⟨b1.trans a1, b2.trans a2, b3.trans a3, fun u hu => ?_⟩
  exact ⟨(b4 u hu).1.trans (a4 u hu).1, (b4 u hu).2.trans (a4 u hu).2⟩

theorem frame_updBus (unit : Nat) (w : World) (f : SpiBus → SpiBus) :
    w.frame_to unit (w.updBus unit f) := by
  refine ⟨by simp [World.updBus, World.setBus], rfl, ?_, fun u hu => ⟨?_, rfl⟩⟩
  · unfold World.updBus
    rcases getBus_setBus_cases w unit unit
      { (f (w.getBus unit)) with device := (w.getBus unit).device } with hc | ⟨hc, -⟩
    · rw [hc]
    · rw [hc]
  · exact getBus_setBus_other w unit u _ (Ne.symm hu)

theorem dev_updDev_same (w : World) (unit i : Nat) (f : SpiDevice → SpiDevice)
    (hb : spi_idx unit < w.bus.length) (hi : i < (w.getBus unit).device.length) :
    ((w.updDev unit i f).getBus unit).dev i = f ((w.getBus unit).dev i) := by
  unfold World.updDev
  rw [getBus_setBus w unit _ hb]
  unfold SpiBus.setDev SpiBus.dev
  exact getD_set_same _ _ _ _ hi

theorem no_flag_of_flags_eq (w w' : World) (h : setup_flags w' = setup_flags w)
    (hf : w.no_setup_flag) : w'.no_setup_flag := by
  intro u i
  rw [dev_setup_of_flags, h, ← dev_setup_of_flags]
  exact hf u i

theorem no_flag_of_bus_eq (w w' : World) (h : w'.bus = w.bus) (hf : w.no_setup_flag) :
    w'.no_setup_flag :=
  no_flag_of_flags_eq w w' (by unfold setup_flags; rw [h]) hf

theorem spi_ll_setup_slot_no_flag (w : World) (unit : Nat) (cs : Int)
    (hf : w.no_setup_flag) : spi_ll_setup_slot w unit cs = some (0, w) := by
  have h1 : spi_get_device_by_cs w unit cs = -1 := by
    unfold spi_get_device_by_cs
    have : (List.range SPI_BUS_DEVICES).find?
        (fun i => ((w.getBus unit).dev i).setup && ((w.getBus unit).dev i).cs == cs) = none := by
      rw [List.find?_eq_none]
      intro i _
      rw [hf unit i]
      simp
    rw [this]
  have h2 : spi_get_free_device w unit = 0 := by
    unfold spi_get_free_device
    have : (List.range SPI_BUS_DEVICES).find? (fun i => !((w.getBus unit).dev i).setup)
        = some 0 := by
      have hr : List.range SPI_BUS_DEVICES = 0 :: [1, 2, 3, 4, 5, 6, 7] := by decide
      rw [hr, List.find?_cons]
      simp [hf unit 0]
    rw [this]
    rfl
  unfold spi_ll_setup_slot
  simp only [h1, h2]
  rfl

/-- The effect of `spi_ll_setup` on a state without configured flags: the
call returns 0 and stores the id of slot 0 of the unit; the registers of the
unit equal the snapshot of slot 0; the last-resident device of the bus is kept
or invalidated; everything of the other unit is as before. -/
theorem spi_ll_setup_effect (bd : Board) (w : World) (unit master : Nat) (cs : Int)
    (mode speed flags : Nat) (ret : Int) (id : Option Int) (w' : World)
    (hs : spi_ll_setup bd w unit master cs mode speed flags = some (ret, id, w'))
    (hf : w.no_setup_flag) (hb : spi_idx unit < w.bus.length)
    (hd : 0 < (w.getBus unit).device.length) :
    w.local_to unit w' ∧ ret = 0 ∧ id = some ((unit <<< 8 ||| 0 : Nat) : Int)
      ∧ w'.getHw unit = ((w'.getBus unit).dev 0).regs := by
  unfold spi_ll_setup at hs
  simp only [spi_ll_setup_slot_no_flag w unit cs hf] at hs
  split at hs
  · exact absurd hs (by simp)
  · rename_i w5 hp
    simp only [Option.some.injEq, Prod.mk.injEq] at hs
    obtain ⟨hr, hi, rfl⟩ := hs
    have l4 := local_spi_ll_setup_pre bd w unit 0 cs flags _ _ rfl rfl
    have l5 := local_trans unit _ _ _ l4 (local_spi_ll_setup_path bd _ _ _ _ _ _ w5 hp)
    have l6 := local_then_updDev unit _ _ 0
      (fun d => { d with mode := mode, dma := decide (flags &&& SPI_FLAG_NO_DMA = 0) }) l5
    refine ⟨local_then_updDev unit _ _ _ _ l6, hr.symm, hi.symm, ?_⟩
    unfold spi_ll_save_registers
    rw [dev_updDev_same _ _ _ _ (by rw [l6.1]; exact hb) (by rw [l6.2.2.1.1]; exact hd)]
    rfl

theorem ok_idx_ne (u unit : Nat) (hu : spi_unit_ok u = true) (hunit : spi_unit_ok unit = true)
    (hne : u ≠ unit) : spi_idx u ≠ spi_idx unit := by
  have h1 := (spi_unit_ok_iff u).1 hu
  have h2 := (spi_unit_ok_iff unit).1 hunit
  unfold CPU_FIRST_SPI CPU_LAST_SPI at h1 h2
  unfold spi_idx CPU_FIRST_SPI
  omega

/-- The invariant is kept by an operation on a valid unit that leaves the
other unit alone, sets no configured flag, and leaves the unit coherent with
the snapshot of slot 0. -/
theorem LlInv_step (w w' : World) (ids : List Int) (unit : Nat) (hinv : LlInv w ids)
    (hu : spi_unit_ok unit = true) (hfr : w.frame_to unit w') (hfl : w'.no_setup_flag)
    (hcoh : (w'.getBus unit).last_device ≠ -1 →
      id_device (w'.getBus unit).last_device = 0
        ∧ w'.getHw unit = ((w'.getBus unit).dev 0).regs) :
    LlInv w' ids := by
  obtain ⟨i1, i2, i3, -, i5, i6⟩ := hinv
  obtain ⟨f1, f2, f3, f4⟩ := hfr
  refine ⟨f1.trans i1, f2.trans i2, ?_, hfl, i5, ?_⟩
  · intro u hok
    by_cases hne : u = unit
    · subst hne
      rw [f3]
      exact i3 u hok
    · rw [(f4 u (ok_idx_ne u unit hok hu hne)).1]
      exact i3 u hok
  · intro u hok
    by_cases hne : u = unit
    · subst hne
      exact hcoh
    · rw [(f4 u (ok_idx_ne u unit hok hu hne)).1, (f4 u (ok_idx_ne u unit hok hu hne)).2]
      exact i6 u hok

theorem LlInv_idx (w : World) (ids : List Int) (unit : Nat) (hinv : LlInv w ids)
    (hu : spi_unit_ok unit = true) :
    spi_idx unit < w.bus.length ∧ spi_idx unit < w.hw.length
      ∧ 0 < (w.getBus unit).device.length := by
  have := spi_idx_lt_two unit hu
  refine ⟨by rw [hinv.1]; exact this, by rw [hinv.2.1]; exact this, ?_⟩
  rw [hinv.2.2.1 unit hu]
  decide

theorem LlInv_init (bd : Board) (hw2 hw3 : SpiRegs) (foreign : List Int) :
    LlInv (spi_init bd hw2 hw3 foreign) [] := by
  refine ⟨rfl, rfl, ?_, ?_, ?_, ?_⟩
  · intro u hok
    have h := (spi_unit_ok_iff u).1 hok
    unfold CPU_FIRST_SPI CPU_LAST_SPI at h
    have : u = 2 ∨ u = 3 := by omega
    rcases this with rfl | rfl <;> rfl
  · intro u i
    rw [dev_setup_of_flags]
    have hfl : setup_flags (spi_init bd hw2 hw3 foreign)
        = [List.replicate SPI_BUS_DEVICES false, List.replicate SPI_BUS_DEVICES false] := by
      unfold setup_flags spi_init
      simp [SpiDevice.zero]
    rw [hfl]
    rcases Nat.lt_or_ge (spi_idx u) 2 with hlt | hge
    · have : spi_idx u = 0 ∨ spi_idx u = 1 := by omega
      rcases this with e | e <;> rw [e] <;>
        simp only [List.getD_eq_getElem?_getD, List.getElem?_replicate, List.getElem?_cons_zero,
          List.getElem?_cons_succ, Option.getD_some] <;>
        split_ifs <;> rfl
    · simp [List.getD_eq_getElem?_getD, List.getElem?_eq_none
        (show [List.replicate SPI_BUS_DEVICES false,
          List.replicate SPI_BUS_DEVICES false].length ≤ spi_idx u from hge)]
  · intro id hid
    cases hid
  · intro u hok
    have h := (spi_unit_ok_iff u).1 hok
    unfold CPU_FIRST_SPI CPU_LAST_SPI at h
    have : u = 2 ∨ u = 3 := by omega
    rcases this with rfl | rfl <;> intro hl <;> exact absurd rfl hl

theorem LlInv_setup (bd : Board) (w : World) (ids : List Int) (unit master : Nat) (cs : Int)
    (mode speed flags : Nat) (ret : Int) (id : Option Int) (w' : World)
    (hinv : LlInv w ids) (hu : spi_unit_ok unit = true)
    (hs : spi_ll_setup bd w unit master cs mode speed flags = some (ret, id, w')) :
    LlInv w' (id.toList ++ ids) := by
  obtain ⟨hb, -, hd⟩ := LlInv_idx w ids unit hinv hu
  obtain ⟨hloc, -, hid, hhw⟩ :=
    spi_ll_setup_effect bd w unit master cs mode speed flags ret id w' hs hinv.2.2.2.1 hb hd
  have hfl := no_flag_of_flags_eq w w'
    (setup_flags_spi_ll_setup bd w unit master cs mode speed flags ret id w' hs) hinv.2.2.2.1
  have hstep := LlInv_step w w' ids unit hinv hu (frame_of_local unit w w' hloc) hfl (by
    intro hl
    refine ⟨?_, hhw⟩
    rcases hloc.2.2.1.2 with e | e
    · rw [e] at hl ⊢
      exact (hinv.2.2.2.2.2 unit hu hl).1
    · exact absurd e hl)
  obtain ⟨j1, j2, j3, j4, j5, j6⟩ := hstep
  refine ⟨j1, j2, j3, j4, ?_, j6⟩
  intro x hx
  rw [hid] at hx
  simp only [Option.toList_some, List.singleton_append, List.mem_cons] at hx
  rcases hx with rfl | hx
  · have := id_decode unit 0 ((spi_unit_ok_iff unit).1 hu) (by decide)
    rw [this.1, this.2]
    exact ⟨hu, rfl⟩
  · exact j5 x hx

theorem frame_emit (unit : Nat) (w w1 : World) (e : Event) (h : w.frame_to unit w1) :
    w.frame_to unit (w1.emit e) :=
  frame_trans unit _ _ _ h (frame_of_local unit _ _ (local_of_eq unit _ _ rfl rfl))

theorem frame_then_updBus (unit : Nat) (w w1 : World) (f : SpiBus → SpiBus)
    (h : w.frame_to unit w1) : w.frame_to unit (w1.updBus unit f) :=
  frame_trans unit _ _ _ h (frame_updBus unit w1 f)

theorem setup_flags_spi_ll_select (w : World) (deviceid : Int) :
    setup_flags (spi_ll_select w deviceid) = setup_flags w := by
  unfold spi_ll_select
  simp only []
  rw [setup_flags_emit, setup_flags_updBus]
  split_ifs
  · rfl
  · rfl

theorem frame_spi_ll_select (w : World) (deviceid : Int) :
    w.frame_to (id_unit deviceid) (spi_ll_select w deviceid) := by
  unfold spi_ll_select
  simp only []
  have h0 : w.local_to (id_unit deviceid) (spi_lock w (id_unit deviceid)) :=
    local_emit _ w w _ (local_refl _ w)
  refine frame_emit _ _ _ _ (frame_then_updBus _ _ _ _ ?_)
  split_ifs
  · exact frame_of_local _ _ _ (local_trans _ _ _ _ h0 (local_setHw _ _ _))
  · exact frame_of_local _ _ _ h0

theorem id_ne_neg_one (id : Int) (h : spi_unit_ok (id_unit id) = true) : id ≠ -1 := by
  intro e
  subst e
  exact absurd h (by decide)

theorem LlInv_select (w : World) (ids : List Int) (deviceid : Int) (hinv : LlInv w ids)
    (hid : deviceid ∈ ids) : LlInv (spi_ll_select w deviceid) ids := by
  obtain ⟨hu, hslot⟩ := hinv.2.2.2.2.1 deviceid hid
  obtain ⟨hb, hh, -⟩ := LlInv_idx w ids _ hinv hu
  obtain ⟨s1, s2, s3, -, s5, -⟩ := spi_ll_select_spec w deviceid hb hh
  refine LlInv_step w _ ids (id_unit deviceid) hinv hu (frame_spi_ll_select w deviceid)
    (no_flag_of_flags_eq w _ (setup_flags_spi_ll_select w deviceid) hinv.2.2.2.1) ?_
  intro _
  rw [s3]
  refine ⟨hslot, ?_⟩
  have hdev : ((spi_ll_select w deviceid).getBus (id_unit deviceid)).dev 0
      = (w.getBus (id_unit deviceid)).dev 0 := by
    unfold SpiBus.dev
    rw [s5]
  rw [hdev]
  by_cases hl : (w.getBus (id_unit deviceid)).last_device = deviceid
  · rw [s2 hl]
    exact (hinv.2.2.2.2.2 _ hu (by rw [hl]; exact id_ne_neg_one deviceid hu)).2
  · rw [s1 hl, hslot]

theorem setup_flags_spi_ll_deselect (w : World) (deviceid : Int) :
    setup_flags (spi_ll_deselect w deviceid) = setup_flags w := by
  unfold spi_ll_deselect
  simp only []
  show setup_flags (World.emit _ _) = _
  rw [setup_flags_emit, setup_flags_updBus]
  rfl

theorem LlInv_deselect (w : World) (ids : List Int) (deviceid : Int) (hinv : LlInv w ids)
    (hid : deviceid ∈ ids) : LlInv (spi_ll_deselect w deviceid) ids := by
  obtain ⟨hu, -⟩ := hinv.2.2.2.2.1 deviceid hid
  obtain ⟨hb, -, -⟩ := LlInv_idx w ids _ hinv hu
  obtain ⟨d1, -, d3, d4, -, -⟩ := spi_ll_deselect_spec w deviceid hb
  have hfr : w.frame_to (id_unit deviceid) (spi_ll_deselect w deviceid) := by
    unfold spi_ll_deselect
    simp only []
    exact frame_emit _ _ _ _ (frame_then_updBus _ _ _ _
      (frame_of_local _ _ _ (local_emit _ w w _ (local_refl _ w))))
  refine LlInv_step w _ ids (id_unit deviceid) hinv hu hfr
    (no_flag_of_flags_eq w _ (setup_flags_spi_ll_deselect w deviceid) hinv.2.2.2.1) ?_
  rw [d1, d4]
  have hdev : ((spi_ll_deselect w deviceid).getBus (id_unit deviceid)).dev 0
      = (w.getBus (id_unit deviceid)).dev 0 := by
    unfold SpiBus.dev
    rw [d3]
  rw [hdev]
  exact hinv.2.2.2.2.2 _ hu

theorem local_spi_ll_set_speed_path (w : World) (unit device speed : Nat) (w2 : World)
    (h : spi_ll_set_speed_path w unit device speed = some w2) : w.local_to unit w2 := by
  unfold spi_ll_set_speed_path at h
  split_ifs at h
  · split at h
    · exact absurd h (by simp)
    · simp only [Option.some.injEq] at h
      subst h
      exact local_setHw unit w _
  · simp only [Option.some.injEq] at h
    subst h
    exact local_then_updDev unit _ _ _ _ (local_of_eq unit w _ rfl rfl)

theorem setup_flags_spi_ll_set_speed_path (w : World) (unit device speed : Nat) (w2 : World)
    (h : spi_ll_set_speed_path w unit device speed = some w2) :
    setup_flags w2 = setup_flags w := by
  unfold spi_ll_set_speed_path at h
  split_ifs at h
  · split at h
    · exact absurd h (by simp)
    · simp only [Option.some.injEq] at h
      subst h
      rfl
  · simp only [Option.some.injEq] at h
    subst h
    refine (setup_flags_updDev _ _ _ _ ?_).trans ?_
    · intro d; rfl
    · rfl

theorem LlInv_set_speed (bd : Board) (w : World) (ids : List Int) (deviceid : Int)
    (speed : Nat) (w' : World) (hinv : LlInv w ids) (hid : deviceid ∈ ids)
    (hs : spi_ll_set_speed bd w deviceid speed = some w') : LlInv w' ids := by
  obtain ⟨hu, -⟩ := hinv.2.2.2.2.1 deviceid hid
  obtain ⟨hb, -, -⟩ := LlInv_idx w ids _ hinv hu
  unfold spi_ll_set_speed at hs
  simp only [] at hs
  split at hs
  · exact absurd hs (by simp)
  · rename_i w2 hp
    simp only [Option.some.injEq] at hs
    subst hs
    have l1 : w.local_to (id_unit deviceid)
        (w.updBus (id_unit deviceid) (fun b => { b with last_device := -1 })) :=
      local_updBus _ w _ (fun _ => Or.inr rfl)
    have hl1 : ((w.updBus (id_unit deviceid)
        (fun b => { b with last_device := -1 })).getBus (id_unit deviceid)).last_device = -1 := by
      rw [getBus_updBus w _ _ hb]
    have l2 := local_spi_ll_set_speed_path _ _ _ _ w2 hp
    have l3 : w2.local_to (id_unit deviceid)
        (spi_ll_save_registers w2 (id_unit deviceid) (id_device deviceid)) :=
      local_updDev _ w2 _ _
    have l23 := local_trans _ _ _ _ l2 l3
    have hlast : ((spi_ll_save_registers w2 (id_unit deviceid)
        (id_device deviceid)).getBus (id_unit deviceid)).last_device = -1 := by
      rcases l23.2.2.1.2 with e | e
      · rw [e, hl1]
      · exact e
    have hfl : setup_flags (spi_ll_save_registers w2 (id_unit deviceid) (id_device deviceid))
        = setup_flags w := by
      rw [setup_flags_spi_ll_save_registers, setup_flags_spi_ll_set_speed_path _ _ _ _ w2 hp,
        setup_flags_updBus]
    exact LlInv_step w _ ids (id_unit deviceid) hinv hu
      (frame_of_local _ _ _ (local_trans _ _ _ _ l1 l23))
      (no_flag_of_flags_eq w _ hfl hinv.2.2.2.1) (fun hne => absurd hlast hne)

theorem hw_spi_unlock_bus_resources (w : World) (unit : Nat) :
    (spi_unlock_bus_resources w unit).hw = w.hw := by
  unfold spi_unlock_bus_resources
  simp only []
  split_ifs <;> rfl

theorem spi_ll_unsetup_no_flag (w : World) (deviceid : Int) (hf : w.no_setup_flag) :
    (spi_ll_unsetup w deviceid).bus = w.bus ∧ (spi_ll_unsetup w deviceid).hw = w.hw := by
  have e : spi_ll_unsetup w deviceid
      = spi_unlock (spi_unlock_bus_resources (spi_lock w (id_unit deviceid)) (id_unit deviceid))
          (id_unit deviceid) := by
    unfold spi_ll_unsetup
    simp only []
    rw [if_neg]
    show ¬ (((w.getBus (id_unit deviceid)).dev (id_device deviceid)).setup = true)
    rw [hf]
    simp
  rw [e]
  exact ⟨bus_spi_unlock_bus_resources _ _, hw_spi_unlock_bus_resources _ _⟩

theorem LlInv_unsetup (w : World) (ids : List Int) (deviceid : Int) (hinv : LlInv w ids)
    (hid : deviceid ∈ ids) : LlInv (spi_ll_unsetup w deviceid) ids := by
  obtain ⟨hu, -⟩ := hinv.2.2.2.2.1 deviceid hid
  obtain ⟨e1, e2⟩ := spi_ll_unsetup_no_flag w deviceid hinv.2.2.2.1
  have hl := local_of_eq (id_unit deviceid) w _ e1 e2
  have hg : (spi_ll_unsetup w deviceid).getBus (id_unit deviceid)
      = w.getBus (id_unit deviceid) := by
    unfold World.getBus
    rw [e1]
  have hh : (spi_ll_unsetup w deviceid).getHw (id_unit deviceid)
      = w.getHw (id_unit deviceid) := by
    unfold World.getHw
    rw [e2]
  refine LlInv_step w _ ids (id_unit deviceid) hinv hu (frame_of_local _ _ _ hl)
    (no_flag_of_bus_eq w _ e1 hinv.2.2.2.1) ?_
  rw [hg, hh]
  exact hinv.2.2.2.2.2 _ hu

theorem LlInv_of_reach (bd : Board) (w : World) (ids : List Int) (h : LlReach bd w ids) :
    LlInv w ids := by
  induction h with
  | init hw2 hw3 foreign => exact LlInv_init bd hw2 hw3 foreign
  | setup w ids unit master cs mode speed flags ret id w' _ hu hs ih =>
    exact LlInv_setup bd w ids unit master cs mode speed flags ret id w' ih hu hs
  | select w ids deviceid _ hid ih => exact LlInv_select w ids deviceid ih hid
  | deselect w ids deviceid _ hid ih => exact LlInv_deselect w ids deviceid ih hid
  | set_speed w ids deviceid speed w' _ hid hs ih =>
    exact LlInv_set_speed bd w ids deviceid speed w' ih hid hs
  | unsetup w ids deviceid _ hid ih => exact LlInv_unsetup w ids deviceid ih hid

/-- Why the stale last-resident device does not show along traces that use
only stored ids: in this code no configured flag is ever set, so every id that
`spi_ll_setup` stores names slot 0 of its unit, and the registers of a unit
are saved in that one slot after every change. In every state reachable from
`_spi_init` through `spi_ll_setup` on a valid unit and `spi_ll_select`,
`spi_ll_deselect`, `spi_ll_set_speed` and `spi_ll_unsetup` on stored ids, a
last-resident device other than -1 names slot 0 and the registers of the unit
equal the snapshot of that slot, also after a `spi_ll_select` of a stored
id. -/
theorem spi_ll_register_coherence (bd : Board) (w : World) (ids : List Int)
    (h : LlReach bd w ids) :
    (∀ unit, spi_unit_ok unit = true → w.coherent unit)
    ∧ (∀ id ∈ ids,
        ((spi_ll_select w id).getBus (id_unit id)).last_device = id
        ∧ (spi_ll_select w id).getHw (id_unit id)
            = (((spi_ll_select w id).getBus (id_unit id)).dev (id_device id)).regs) := by
  have key : ∀ (w : World) (ids : List Int), LlInv w ids →
      ∀ unit, spi_unit_ok unit = true → w.coherent unit := by
    intro w ids hinv unit hok hl
    obtain ⟨e1, e2⟩ := hinv.2.2.2.2.2 unit hok hl
    rw [e1]
    exact e2
  have hinv := LlInv_of_reach bd w ids h
  refine ⟨key w ids hinv, fun id hid => ?_⟩
  obtain ⟨hu, -⟩ := hinv.2.2.2.2.1 id hid
  obtain ⟨hb, hh, -⟩ := LlInv_idx w ids _ hinv hu
  obtain ⟨-, -, s3, -⟩ := spi_ll_select_spec w id hb hh
  have hc := key _ ids (LlInv_select w ids id hinv hid) (id_unit id) hu
  unfold World.coherent at hc
  rw [s3] at hc
  exact ⟨s3, hc (id_ne_neg_one id hu)⟩

set_option maxRecDepth 1000000 in
/-- On the ESP32 board, `spi_ll_setup` on unit 2 (software path, chip-select
15) stores the id `0x200`; in the state after `spi_ll_select(0x200)` the
last-resident device of unit 2 is `0x200` and the registers equal the snapshot
of slot 0. -/
theorem spi_ll_register_coherence_witness :
    ∃ w1, (spi_ll_setup esp32_board esp32_init 2 1 15 0 1000000 7).map (fun r => r.2.2)
        = some w1
      ∧ (spi_ll_setup esp32_board esp32_init 2 1 15 0 1000000 7).map (fun r => r.2.1)
        = some (some 512)
      ∧ ((spi_ll_select w1 512).getBus 2).last_device = 512
      ∧ (spi_ll_select w1 512).getHw 2 = (((spi_ll_select w1 512).getBus 2).dev 0).regs
      ∧ (spi_ll_select w1 512).coherent 2 := by
  have hid0 : (spi_ll_setup esp32_board esp32_init 2 1 15 0 1000000 7).map (fun r => r.2.1)
      = some (some 512) := by decide
  cases hs : spi_ll_setup esp32_board esp32_init 2 1 15 0 1000000 7 with
  | none => exact absurd hs (by decide)
  | some r =>
    obtain ⟨ret, id, w1⟩ := r
    have hid : id = some 512 := by
      rw [hs] at hid0
      simpa using hid0
    subst hid
    have hr1 : LlReach esp32_board w1 [512] :=
      LlReach.setup esp32_init [] 2 1 15 0 1000000 7 ret (some 512) w1
        (LlReach.init SpiRegs.zero SpiRegs.zero []) (by decide) hs
    have hsel := (spi_ll_register_coherence esp32_board w1 [512] hr1).2 512
      (List.mem_singleton.2 rfl)
    have hr2 : LlReach esp32_board (spi_ll_select w1 512) [512] :=
      LlReach.select w1 [512] 512 hr1 (List.mem_singleton.2 rfl)
    have hu : id_unit 512 = 2 := by decide
    have hd : id_device 512 = 0 := by decide
    rw [hu, hd] at hsel
    exact ⟨w1, rfl, rfl, hsel.1, hsel.2,
      (spi_ll_register_coherence esp32_board _ [512] hr2).1 2 (by decide)⟩

/-! ## `spi_ll_setup` and the last-resident device -/

set_option maxRecDepth 1000000 in
/-- Claim C28 (refuted as stated). `spi_ll_setup` programs the registers of
the unit and saves them in the slot it has chosen, and leaves the
last-resident device of the bus as it is unless it reconfigures the slot of
that very device. Two traces on the ESP32 board. After `_spi_init`,
`spi_ll_select(0x201)` and `spi_ll_setup(2, 1, 15, 0, 1000000, 7)`, which
returns 0 and stores the id `0x200`, the last-resident device is still `0x201`
while the registers (clock word `0x674e7`) differ from the snapshot of slot 1
(all zero). With the configured flag of slot 0 set after a first
`spi_ll_setup`, then `spi_ll_select(0x200)`, `spi_ll_deselect(0x200)` and
`spi_ll_setup(2, 1, 16, 3, 2000000, 7)`, which stores the id `0x201`, the
last-resident device is still `0x200` while the registers are those of the
second device (mode 3, 2 MHz) and differ from the snapshot of slot 0 (mode 0,
1 MHz). In both states the unit is not coherent, and the next `spi_ll_select`
of the last-resident device skips the restore and leaves the registers as
they are, so the unit is not coherent while that device is selected. -/
theorem spi_ll_setup_leaves_stale_last_device :
    (spi_ll_setup esp32_board (spi_ll_select esp32_init 513) 2 1 15 0 1000000 7).map
        (fun r => (r.1, r.2.1)) = some (0, some 512)
    ∧ (esp32_select_then_setup.getBus 2).last_device = 513
    ∧ (esp32_select_then_setup.getHw 2).CLOCK = 0x674e7
    ∧ ((esp32_select_then_setup.getBus 2).dev (id_device 513)).regs = SpiRegs.zero
    ∧ ¬ esp32_select_then_setup.coherent 2
    ∧ (spi_ll_select esp32_select_then_setup 513).getHw 2 = esp32_select_then_setup.getHw 2
    ∧ ((spi_ll_select esp32_select_then_setup 513).getBus 2).selected_device = 513
    ∧ ¬ (spi_ll_select esp32_select_then_setup 513).coherent 2
    ∧ (spi_ll_setup esp32_board (spi_ll_deselect (spi_ll_select esp32_first_device 512) 512)
        2 1 16 3 2000000 7).map (fun r => (r.1, r.2.1)) = some (0, some 513)
    ∧ (esp32_second_device.getBus 2).last_device = 512
    ∧ (esp32_second_device.getHw 2).PIN = 0x20000000
    ∧ (esp32_second_device.getHw 2).CLOCK = 160999
    ∧ (((esp32_second_device.getBus 2).dev (id_device 512)).regs).PIN = 0
    ∧ (((esp32_second_device.getBus 2).dev (id_device 512)).regs).CLOCK = 0x674e7
    ∧ ¬ esp32_second_device.coherent 2
    ∧ (spi_ll_select esp32_second_device 512).getHw 2 = esp32_second_device.getHw 2
    ∧ ((spi_ll_select esp32_second_device 512).getBus 2).selected_device = 512
    ∧ ¬ (spi_ll_select esp32_second_device 512).coherent 2 := by
  refine ⟨by decide, by decide, by decide, by decide, ?_, by decide, by decide, ?_,
    by decide, by decide, by decide, by decide, by decide, by decide, ?_, by decide,
    by decide, ?_⟩ <;>
  · unfold World.coherent
    decide

end LuaRtos
